import Mathlib

/-!
# CMSIS-DAP USB bulk backend (`src/jtag/drivers/cmsis_dap_usb_bulk.c`)

A shallow embedding of the four backend operations `cmsis_dap_usb_open`,
`cmsis_dap_usb_close`, `cmsis_dap_usb_read` and `cmsis_dap_usb_write`, run
against a mock of the libusb calls they make, and the properties of the
backend proved over it.

Conventions of the embedding.

* C integers are `Nat` (unsigned descriptor fields) or `Int` (`int` locals,
  error codes).
* A C string is the list of its bytes before the terminating NUL; reading it
  past its end yields NUL.  The `vids` / `pids` arrays are lists read the same
  way, so that every filter has its `(0, 0)` terminator.
* libusb is a mock: every device answers each call with a fixed reply, and the
  calls made are recorded in order in a list of `usb_call`.
* Early `return`s out of nested loops: each loop is a recursive function that
  yields the selection it found (or none), and the code that follows
  "That's the one!" is run on that selection by the device loop.
-/

namespace CmsisDapUsbBulk

/-! ## Constants -/

/-- Transfer type `LIBUSB_TRANSFER_TYPE_BULK` of libusb.h. -/
def LIBUSB_TRANSFER_TYPE_BULK : Nat := 2

/-- Direction bit value `LIBUSB_ENDPOINT_IN` of libusb.h. -/
def LIBUSB_ENDPOINT_IN : Nat := 0x80

/-- Direction bit value `LIBUSB_ENDPOINT_OUT` of libusb.h. -/
def LIBUSB_ENDPOINT_OUT : Nat := 0x00

/-- Interface class `LIBUSB_CLASS_VENDOR_SPEC` of libusb.h. -/
def LIBUSB_CLASS_VENDOR_SPEC : Nat := 0xff

/-- Error code `LIBUSB_ERROR_TIMEOUT` of libusb.h. -/
def LIBUSB_ERROR_TIMEOUT : Int := -7

/-- The result codes `ERROR_OK`, `ERROR_FAIL` and `ERROR_TIMEOUT_REACHED` are
macros of `helper/log.h`, which is not among the sources: their values are
parameters of the embedding. -/
structure error_codes where
  ERROR_OK : Int
  ERROR_FAIL : Int
  ERROR_TIMEOUT_REACHED : Int

/-! ## VID/PID matching (lines 82-94) -/

/-- The element `a[i]` of a zero-terminated C array (or C string) given by the
list of its elements: zero from the end of the list on. -/
def array_get (a : List Nat) (i : Nat) : Nat := a.getD i 0

/-- The loop `for (int id = 0; vids[id] || pids[id]; id++)` of lines 85-91,
entered at index `id` with the current value of `id_match`.  The first
argument after the device identity bounds the number of iterations. -/
def id_match_loop (vids pids : List Nat) (idVendor idProduct : Nat) :
    Nat → Nat → Bool → Bool
  | 0, _, id_match => id_match
  | fuel + 1, id, id_match =>
    if array_get vids id ≠ 0 ∨ array_get pids id ≠ 0 then
      let id_match1 : Bool :=
        (decide (array_get vids id = 0) || decide (idVendor = array_get vids id)) &&
        (decide (array_get pids id = 0) || decide (idProduct = array_get pids id))
      if id_match1 then id_match1
      else id_match_loop vids pids idVendor idProduct fuel (id + 1) id_match1
    else id_match

/-- The value of `id_match` at line 93: `true` on entry ("match if we don't
enter the loop"), then the loop.  The loop stops at the latest at the end of
the longer array, where both entries read zero. -/
def id_match (vids pids : List Nat) (idVendor idProduct : Nat) : Bool :=
  id_match_loop vids pids idVendor idProduct (max vids.length pids.length + 1) 0 true

/-! ## Descriptors (libusb.h) -/

/-- Endpoint descriptor `struct libusb_endpoint_descriptor`: the fields the
backend reads. -/
structure libusb_endpoint_descriptor where
  bEndpointAddress : Nat
  bmAttributes : Nat
  wMaxPacketSize : Nat
  deriving DecidableEq

/-- Interface descriptor `struct libusb_interface_descriptor`.  The array
`endpoint` is given as a list and `bNumEndpoints` is its length. -/
structure libusb_interface_descriptor where
  bInterfaceNumber : Nat
  bInterfaceClass : Nat
  bInterfaceSubClass : Nat
  bInterfaceProtocol : Nat
  iInterface : Nat
  endpoint : List libusb_endpoint_descriptor
  deriving DecidableEq

/-- Number of endpoints `bNumEndpoints` of an interface descriptor. -/
def libusb_interface_descriptor.bNumEndpoints (d : libusb_interface_descriptor) : Nat :=
  d.endpoint.length

/-- Interface `struct libusb_interface`: its alternate settings, of which
`altsetting[0]` is given on its own. -/
structure libusb_interface where
  altsetting_0 : libusb_interface_descriptor
  altsetting_rest : List libusb_interface_descriptor
  deriving DecidableEq

/-- Configuration descriptor `struct libusb_config_descriptor`.  The array
`interface` is given as a list and `bNumInterfaces` is its length. -/
structure libusb_config_descriptor where
  bConfigurationValue : Nat
  interface : List libusb_interface
  deriving DecidableEq

/-- Device descriptor `struct libusb_device_descriptor`: the fields the
backend reads. -/
structure libusb_device_descriptor where
  idVendor : Nat
  idProduct : Nat
  iSerialNumber : Nat
  iProduct : Nat
  bNumConfigurations : Nat
  deriving DecidableEq

/-! ## The mock of libusb -/

/-- One device of the mock: its reply to each libusb call made on it (or on
its handle).  A reply is the `int` the call returns, with the value it stores
through its output pointer where it has one. -/
structure usb_device where
  libusb_get_device_descriptor : Int × libusb_device_descriptor
  libusb_open : Int
  libusb_get_string_descriptor_ascii : Nat → Int × List Nat
  libusb_get_config_descriptor : Nat → Int × libusb_config_descriptor
  libusb_get_configuration : Int × Int
  libusb_set_configuration : Int → Int
  libusb_claim_interface : Int → Int

/-- The mock platform seen by `cmsis_dap_usb_open`: the reply of
`libusb_init`, the context it stores, the devices, the error of the
enumeration (used when negative) and whether `malloc` returns memory. -/
structure usb_platform where
  libusb_init : Int
  usb_ctx : Nat
  enumeration_error : Int
  device_list : List usb_device
  malloc_ok : Bool

/-- Return value of `libusb_get_device_list`: a negative error, or the number
of devices of the list it stores. -/
def usb_platform.libusb_get_device_list (usb : usb_platform) : Int :=
  if usb.enumeration_error < 0 then usb.enumeration_error else (usb.device_list.length : Int)

/-- Arguments of one `libusb_bulk_transfer` call.  `data` holds the bytes to
send of an OUT transfer and is empty for an IN transfer. -/
structure bulk_request where
  dev_handle : Nat
  endpoint : Nat
  data : List Nat
  length : Int
  timeout : Int
  deriving DecidableEq

/-- Reply of the mock to one `libusb_bulk_transfer` call: the value returned,
the count stored in `*transferred`, and the bytes received of an IN
transfer. -/
structure bulk_reply where
  err : Int
  transferred : Nat
  data : List Nat
  deriving DecidableEq

/-- A libusb call made by the backend.  A device handle is the index, in the
device list, of the device it was opened on. -/
inductive usb_call where
  | libusb_init
  | libusb_exit (ctx : Nat)
  | libusb_get_device_list
  | libusb_free_device_list
  | libusb_get_device_descriptor (dev : Nat)
  | libusb_open (dev : Nat)
  | libusb_close (dev_handle : Nat)
  | libusb_get_string_descriptor_ascii (dev_handle : Nat) (desc_index : Nat)
  | libusb_get_config_descriptor (dev : Nat) (config_index : Nat)
  | libusb_free_config_descriptor (dev : Nat) (config_index : Nat)
  | libusb_get_configuration (dev_handle : Nat)
  | libusb_set_configuration (dev_handle : Nat) (configuration : Int)
  | libusb_claim_interface (dev_handle : Nat) (interface_number : Int)
  | libusb_release_interface (dev_handle : Nat) (interface_number : Int)
  | libusb_bulk_transfer (request : bulk_request)
  deriving DecidableEq

/-! ## Session state -/

/-- Backend data `struct cmsis_dap_backend_data` (lines 43-49). -/
structure cmsis_dap_backend_data where
  usb_ctx : Nat
  dev_handle : Nat
  ep_out : Nat
  ep_in : Nat
  interface : Int
  deriving DecidableEq

/-- Modelled from the spec: `struct cmsis_dap` is declared in cmsis_dap.h,
which is not among the sources.  It is given the three fields the backend
uses: `bdata` (absent when NULL), `packet_size` (the negotiated packet size,
an integer wide enough for `wMaxPacketSize + 1`) and `packet_buffer` (the
bytes of the packet buffer). -/
structure cmsis_dap where
  bdata : Option cmsis_dap_backend_data
  packet_size : Nat
  packet_buffer : List Nat
  deriving DecidableEq

/-- What a backend operation leaves behind: the value it returns, the
`struct cmsis_dap` after the call, and the libusb calls it made, in order. -/
structure call_result where
  ret : Int
  dap : cmsis_dap
  calls : List usb_call
  deriving DecidableEq

/-! ## Strings -/

/-- The C string left in a `char buf[size] = {0}` by
`libusb_get_string_descriptor_ascii(.., buf, size)` when the device supplies
`data`: at most `size - 1` bytes are stored, then a NUL, and the string ends
at its first NUL. -/
def string_buffer (data : List Nat) (size : Nat) : List Nat :=
  (data.take (size - 1)).takeWhile (fun c => decide (c ≠ 0))

/-- The C library's `strncmp(s1, s2, n)` on byte lists read as C strings. -/
def strncmp : List Nat → List Nat → Nat → Int
  | _, _, 0 => 0
  | s1, s2, n + 1 =>
    if array_get s1 0 ≠ array_get s2 0 then (array_get s1 0 : Int) - (array_get s2 0 : Int)
    else if array_get s1 0 = 0 then 0
    else strncmp s1.tail s2.tail n

/-- The C library's `strstr(haystack, needle) != NULL` on C strings. -/
def strstr (haystack needle : List Nat) : Bool :=
  haystack.tails.any (fun t => needle.isPrefixOf t)

/-- The string literal "CMSIS-DAP" in ASCII. -/
def CMSIS_DAP : List Nat := [0x43, 0x4d, 0x53, 0x49, 0x53, 0x2d, 0x44, 0x41, 0x50]

/-- The test `serial && serial[0]` of line 97; `serial` is absent when NULL. -/
def serial_requested (serial : Option (List Nat)) : Bool :=
  match serial with
  | none => false
  | some s => decide (array_get s 0 ≠ 0)

/-! ## `cmsis_dap_usb_open` (lines 53-294) -/

/-- The locals that are live at "That's the one!" (lines 232-234), with the
index `config` of the configuration descriptor then held and its
`config_num`. -/
structure selection where
  config : Nat
  config_num : Int
  interface_num : Int
  packet_size : Nat
  ep_out : Nat
  ep_in : Nat
  deriving DecidableEq

/-- Lines 116-131: the value of `serial_match` at line 133 and the calls made
so far. -/
def serial_match (dev : usb_device) (dev_handle : Nat) (dev_desc : libusb_device_descriptor)
    (serial : Option (List Nat)) (calls : List usb_call) : Bool × List usb_call :=
  let serial_match0 : Bool := serial.isNone
  if dev_desc.iSerialNumber > 0 then
    let r := dev.libusb_get_string_descriptor_ascii dev_desc.iSerialNumber
    let calls1 := calls ++ [usb_call.libusb_get_string_descriptor_ascii dev_handle dev_desc.iSerialNumber]
    if r.1 < 0 then (serial_match0, calls1)
    else
      match serial with
      | some s =>
        if strncmp (string_buffer r.2 256) s 256 = 0 then (true, calls1)
        else (serial_match0, calls1)
      | none => (serial_match0, calls1)
  else (serial_match0, calls)

/-- Lines 138-153: the value of `cmsis_dap_found` at line 155 and the calls
made so far. -/
def product_string_check (dev : usb_device) (dev_handle : Nat)
    (dev_desc : libusb_device_descriptor) (calls : List usb_call) : Bool × List usb_call :=
  if dev_desc.iProduct > 0 then
    let r := dev.libusb_get_string_descriptor_ascii dev_desc.iProduct
    let calls1 := calls ++ [usb_call.libusb_get_string_descriptor_ascii dev_handle dev_desc.iProduct]
    if r.1 < 0 then (false, calls1)
    else if strstr (string_buffer r.2 256) CMSIS_DAP then (true, calls1)
    else (false, calls1)
  else (false, calls)

/-- Lines 204-230: `false` when a `continue` is taken, `true` when line 232
is reached, with the calls made so far. -/
def class_and_string_checks (cmsis_dap_usb_interface : Int) (dev : usb_device)
    (dev_handle : Nat) (cmsis_dap_found : Bool) (intf_desc : libusb_interface_descriptor)
    (calls : List usb_call) : Bool × List usb_call :=
  if cmsis_dap_usb_interface = -1 then
    if intf_desc.bInterfaceClass ≠ LIBUSB_CLASS_VENDOR_SPEC ∨
        intf_desc.bInterfaceSubClass ≠ 0 ∨ intf_desc.bInterfaceProtocol ≠ 0 then
      (false, calls)
    else if cmsis_dap_usb_interface ≠ -1 ∧ cmsis_dap_found = false then
      if intf_desc.iInterface = 0 then (false, calls)
      else
        let r := dev.libusb_get_string_descriptor_ascii intf_desc.iInterface
        let calls1 :=
          calls ++ [usb_call.libusb_get_string_descriptor_ascii dev_handle intf_desc.iInterface]
        if r.1 < 0 then (false, calls1)
        else if strstr (string_buffer r.2 256) CMSIS_DAP = false then (false, calls1)
        else (true, calls1)
    else (true, calls)
  else (true, calls)

/-- The loop over the interfaces of one configuration (lines 168-282), up to
the first interface that reaches line 232. -/
def scan_interfaces (cmsis_dap_usb_interface : Int) (dev : usb_device) (dev_handle : Nat)
    (cmsis_dap_found : Bool) (config : Nat) (config_num : Int) :
    List libusb_interface → List usb_call → Option selection × List usb_call
  | [], calls => (none, calls)
  | intf :: rest, calls =>
    let intf_desc := intf.altsetting_0
    let interface_num : Int := (intf_desc.bInterfaceNumber : Int)
    if cmsis_dap_usb_interface ≠ -1 ∧ cmsis_dap_usb_interface ≠ interface_num then
      scan_interfaces cmsis_dap_usb_interface dev dev_handle cmsis_dap_found config config_num
        rest calls
    else
      match intf_desc.endpoint with
      | ep0 :: ep1 :: _ =>
        if ep0.bmAttributes &&& 3 ≠ LIBUSB_TRANSFER_TYPE_BULK ∨
            ep0.bEndpointAddress &&& 0x80 ≠ LIBUSB_ENDPOINT_OUT then
          scan_interfaces cmsis_dap_usb_interface dev dev_handle cmsis_dap_found config
            config_num rest calls
        else if ep1.bmAttributes &&& 3 ≠ LIBUSB_TRANSFER_TYPE_BULK ∨
            ep1.bEndpointAddress &&& 0x80 ≠ LIBUSB_ENDPOINT_IN then
          scan_interfaces cmsis_dap_usb_interface dev dev_handle cmsis_dap_found config
            config_num rest calls
        else
          let c := class_and_string_checks cmsis_dap_usb_interface dev dev_handle
            cmsis_dap_found intf_desc calls
          if c.1 = false then
            scan_interfaces cmsis_dap_usb_interface dev dev_handle cmsis_dap_found config
              config_num rest c.2
          else
            (some ⟨config, config_num, interface_num, ep0.wMaxPacketSize,
              ep0.bEndpointAddress, ep1.bEndpointAddress⟩, c.2)
      | _ =>
        scan_interfaces cmsis_dap_usb_interface dev dev_handle cmsis_dap_found config config_num
          rest calls

/-- The loop over the configurations of one device (lines 157-285), run over
the indices still to visit, up to the first interface that reaches line
232. -/
def scan_configurations (cmsis_dap_usb_interface : Int) (dev : usb_device) (i : Nat)
    (cmsis_dap_found : Bool) :
    List Nat → List usb_call → Option selection × List usb_call
  | [], calls => (none, calls)
  | config :: rest, calls =>
    let r := dev.libusb_get_config_descriptor config
    let calls1 := calls ++ [usb_call.libusb_get_config_descriptor i config]
    if r.1 ≠ 0 then
      scan_configurations cmsis_dap_usb_interface dev i cmsis_dap_found rest calls1
    else
      let config_desc := r.2
      let config_num : Int := (config_desc.bConfigurationValue : Int)
      let found := scan_interfaces cmsis_dap_usb_interface dev i cmsis_dap_found config
        config_num config_desc.interface calls1
      match found.1 with
      | some sel => (some sel, found.2)
      | none =>
        scan_configurations cmsis_dap_usb_interface dev i cmsis_dap_found rest
          (found.2 ++ [usb_call.libusb_free_config_descriptor i config])

/-- The body of the device loop for device `i` (lines 73-287), up to the
first interface that reaches line 232; without one, the device is left by a
`continue` or at the end of the body. -/
def examine_device (cmsis_dap_usb_interface : Int) (vids pids : List Nat)
    (serial : Option (List Nat)) (i : Nat) (dev : usb_device) (calls : List usb_call) :
    Option selection × List usb_call :=
  let r := dev.libusb_get_device_descriptor
  let dev_desc := r.2
  let calls1 := calls ++ [usb_call.libusb_get_device_descriptor i]
  if r.1 ≠ 0 then (none, calls1)
  else if id_match vids pids dev_desc.idVendor dev_desc.idProduct = false then (none, calls1)
  else if dev_desc.iSerialNumber = 0 ∧ serial_requested serial = true then (none, calls1)
  else
    let calls2 := calls1 ++ [usb_call.libusb_open i]
    if dev.libusb_open ≠ 0 then (none, calls2)
    else
      let sm := serial_match dev i dev_desc serial calls2
      if sm.1 = false then (none, sm.2 ++ [usb_call.libusb_close i])
      else
        let pf := product_string_check dev i dev_desc sm.2
        let found := scan_configurations cmsis_dap_usb_interface dev i pf.1
          (List.range dev_desc.bNumConfigurations) pf.2
        match found.1 with
        | some sel => (some sel, found.2)
        | none => (none, found.2 ++ [usb_call.libusb_close i])

/-- Lines 262-281: claim the interface (a failure is only logged), allocate
the backend data and store the session. Line 266 assigns the result of
`malloc` to `dap->bdata` before testing it, so a failed allocation leaves
`dap->bdata` NULL whatever it held on entry. -/
def claim_and_store (E : error_codes) (usb : usb_platform) (dap : cmsis_dap) (i : Nat)
    (sel : selection) (calls : List usb_call) : call_result :=
  let calls1 := calls ++ [usb_call.libusb_claim_interface i sel.interface_num]
  if usb.malloc_ok = false then
    ⟨E.ERROR_FAIL, ⟨none, dap.packet_size, dap.packet_buffer⟩,
      calls1 ++ [usb_call.libusb_release_interface i sel.interface_num,
        usb_call.libusb_close i, usb_call.libusb_exit usb.usb_ctx]⟩
  else
    ⟨E.ERROR_OK,
      ⟨some ⟨usb.usb_ctx, i, sel.ep_out, sel.ep_in, sel.interface_num⟩,
        sel.packet_size + 1, dap.packet_buffer⟩,
      calls1⟩

/-- Lines 236-281, run on the selection of device `i`: release the
descriptors, select the configuration, claim and store. -/
def claim_selected (E : error_codes) (usb : usb_platform) (dap : cmsis_dap) (i : Nat)
    (dev : usb_device) (sel : selection) (calls : List usb_call) : call_result :=
  let calls1 := calls ++ [usb_call.libusb_free_config_descriptor i sel.config,
    usb_call.libusb_free_device_list, usb_call.libusb_get_configuration i]
  let r := dev.libusb_get_configuration
  if r.1 ≠ 0 then
    ⟨E.ERROR_FAIL, dap, calls1 ++ [usb_call.libusb_close i, usb_call.libusb_exit usb.usb_ctx]⟩
  else
    let current_config := r.2
    if sel.config_num ≠ current_config then
      let calls2 := calls1 ++ [usb_call.libusb_set_configuration i sel.config_num]
      if dev.libusb_set_configuration sel.config_num ≠ 0 then
        ⟨E.ERROR_FAIL, dap,
          calls2 ++ [usb_call.libusb_close i, usb_call.libusb_exit usb.usb_ctx]⟩
      else claim_and_store E usb dap i sel calls2
    else claim_and_store E usb dap i sel calls1

/-- The device loop (lines 72-288) from device `i` on, and lines 290-293
after it. -/
def scan_devices (E : error_codes) (usb : usb_platform) (cmsis_dap_usb_interface : Int)
    (dap : cmsis_dap) (vids pids : List Nat) (serial : Option (List Nat)) :
    Nat → List usb_device → List usb_call → call_result
  | _, [], calls =>
    ⟨E.ERROR_FAIL, dap, calls ++ [usb_call.libusb_free_device_list,
      usb_call.libusb_exit usb.usb_ctx]⟩
  | i, dev :: rest, calls =>
    let found := examine_device cmsis_dap_usb_interface vids pids serial i dev calls
    match found.1 with
    | some sel => claim_selected E usb dap i dev sel found.2
    | none =>
      scan_devices E usb cmsis_dap_usb_interface dap vids pids serial (i + 1) rest found.2

/-- The function `cmsis_dap_usb_open(dap, vids, pids, serial)`, with the
global `cmsis_dap_usb_interface` it reads as an argument. -/
def cmsis_dap_usb_open (E : error_codes) (usb : usb_platform) (cmsis_dap_usb_interface : Int)
    (dap : cmsis_dap) (vids pids : List Nat) (serial : Option (List Nat)) : call_result :=
  if usb.libusb_init ≠ 0 then ⟨E.ERROR_FAIL, dap, [usb_call.libusb_init]⟩
  else
    let num_devices := usb.libusb_get_device_list
    if num_devices < 0 then
      ⟨E.ERROR_FAIL, dap, [usb_call.libusb_init, usb_call.libusb_get_device_list,
        usb_call.libusb_exit usb.usb_ctx]⟩
    else
      scan_devices E usb cmsis_dap_usb_interface dap vids pids serial 0 usb.device_list
        [usb_call.libusb_init, usb_call.libusb_get_device_list]

/-! ## `cmsis_dap_usb_close` (lines 296-303) -/

/-- The function `cmsis_dap_usb_close(dap)`: the `struct cmsis_dap` after the
call and the libusb calls made.  There is no result when `dap->bdata` is NULL:
line 298 dereferences it. -/
def cmsis_dap_usb_close (dap : cmsis_dap) : Option (cmsis_dap × List usb_call) :=
  match dap.bdata with
  | none => none
  | some bdata =>
    some (⟨none, dap.packet_size, dap.packet_buffer⟩,
      [usb_call.libusb_release_interface bdata.dev_handle bdata.interface,
        usb_call.libusb_close bdata.dev_handle, usb_call.libusb_exit bdata.usb_ctx])

/-! ## `cmsis_dap_usb_read` and `cmsis_dap_usb_write` (lines 305-344) -/

/-- What one `libusb_bulk_transfer` call leaves behind: the value returned,
`*transferred`, the memory at the `data` pointer after the call, and the call
itself. -/
structure bulk_outcome where
  err : Int
  transferred : Nat
  memory : List Nat
  call : usb_call

/-- The call `libusb_bulk_transfer(dev_handle, endpoint, data, length,
&transferred, timeout)` against the mock `usb_bulk`; `memory` is the memory
from the `data` pointer on.  The direction is bit 7 of the endpoint address:
an OUT transfer sends the first `length` bytes of the memory and leaves it
unchanged, an IN transfer stores the bytes received at its start. -/
def libusb_bulk_transfer (usb_bulk : bulk_request → bulk_reply) (dev_handle endpoint : Nat)
    (memory : List Nat) (length : Int) (timeout : Int) : bulk_outcome :=
  if endpoint &&& 0x80 = LIBUSB_ENDPOINT_IN then
    let request : bulk_request := ⟨dev_handle, endpoint, [], length, timeout⟩
    let reply := usb_bulk request
    ⟨reply.err, reply.transferred, reply.data ++ memory.drop reply.data.length,
      usb_call.libusb_bulk_transfer request⟩
  else
    let request : bulk_request :=
      ⟨dev_handle, endpoint, memory.take length.toNat, length, timeout⟩
    let reply := usb_bulk request
    ⟨reply.err, reply.transferred, memory, usb_call.libusb_bulk_transfer request⟩

/-- The C library's `memset(&buf[start], c, n)` on the bytes of `buf`. -/
def memset (buf : List Nat) (start : Nat) (c : Nat) (n : Int) : List Nat :=
  buf.take start ++ List.replicate n.toNat c ++ buf.drop (start + n.toNat)

/-- The function `cmsis_dap_usb_read(dap, timeout_ms)`.  There is no result
when `dap->bdata` is NULL. -/
def cmsis_dap_usb_read (E : error_codes) (usb_bulk : bulk_request → bulk_reply)
    (dap : cmsis_dap) (timeout_ms : Int) : Option call_result :=
  match dap.bdata with
  | none => none
  | some bdata =>
    let x := libusb_bulk_transfer usb_bulk bdata.dev_handle bdata.ep_in dap.packet_buffer
      ((dap.packet_size : Int) - 1) timeout_ms
    if x.err ≠ 0 then
      if x.err = LIBUSB_ERROR_TIMEOUT then
        some ⟨E.ERROR_TIMEOUT_REACHED, ⟨dap.bdata, dap.packet_size, x.memory⟩, [x.call]⟩
      else
        some ⟨E.ERROR_FAIL, ⟨dap.bdata, dap.packet_size, x.memory⟩, [x.call]⟩
    else
      some ⟨(x.transferred : Int),
        ⟨dap.bdata, dap.packet_size,
          memset x.memory x.transferred 0 ((dap.packet_size : Int) - (x.transferred : Int))⟩,
        [x.call]⟩

/-- The function `cmsis_dap_usb_write(dap, txlen, timeout_ms)`.  There is no
result when `dap->bdata` is NULL. -/
def cmsis_dap_usb_write (E : error_codes) (usb_bulk : bulk_request → bulk_reply)
    (dap : cmsis_dap) (txlen : Int) (timeout_ms : Int) : Option call_result :=
  match dap.bdata with
  | none => none
  | some bdata =>
    let x := libusb_bulk_transfer usb_bulk bdata.dev_handle bdata.ep_out
      (dap.packet_buffer.drop 1) (txlen - 1) timeout_ms
    let dap1 : cmsis_dap :=
      ⟨dap.bdata, dap.packet_size, dap.packet_buffer.take 1 ++ x.memory⟩
    if x.err ≠ 0 then
      if x.err = LIBUSB_ERROR_TIMEOUT then some ⟨E.ERROR_TIMEOUT_REACHED, dap1, [x.call]⟩
      else some ⟨E.ERROR_FAIL, dap1, [x.call]⟩
    else some ⟨(x.transferred : Int), dap1, [x.call]⟩

/-! ## The selection as a function of the descriptors

The conditions the loops of `cmsis_dap_usb_open` test, written as predicates
on a device and on an interface descriptor, and the first device,
configuration and interface that meet them. -/

/-- Endpoint with transfer type bulk and direction OUT. -/
def is_bulk_out (ep : libusb_endpoint_descriptor) : Bool :=
  decide (ep.bmAttributes &&& 3 = LIBUSB_TRANSFER_TYPE_BULK) &&
    decide (ep.bEndpointAddress &&& 0x80 = LIBUSB_ENDPOINT_OUT)

/-- Endpoint with transfer type bulk and direction IN. -/
def is_bulk_in (ep : libusb_endpoint_descriptor) : Bool :=
  decide (ep.bmAttributes &&& 3 = LIBUSB_TRANSFER_TYPE_BULK) &&
    decide (ep.bEndpointAddress &&& 0x80 = LIBUSB_ENDPOINT_IN)

/-- The endpoint contract: at least two endpoints, `endpoint[0]` bulk OUT and
`endpoint[1]` bulk IN. -/
def endpoint_contract (d : libusb_interface_descriptor) : Bool :=
  match d.endpoint with
  | ep0 :: ep1 :: _ => is_bulk_out ep0 && is_bulk_in ep1
  | _ => false

/-- The class/subclass/protocol triple is (vendor specific, 0, 0). -/
def vendor_specific (d : libusb_interface_descriptor) : Bool :=
  decide (d.bInterfaceClass = LIBUSB_CLASS_VENDOR_SPEC) &&
    decide (d.bInterfaceSubClass = 0) && decide (d.bInterfaceProtocol = 0)

/-- An interface descriptor passes the tests the loops apply under the
override `o`: it has the requested number when one is requested, it meets the
endpoint contract, and it has the vendor specific triple when no number is
requested. The marker condition of the specification is not among them: it
is part of `interface_qualifies_spec`. -/
def interface_qualifies (o : Int) (d : libusb_interface_descriptor) : Bool :=
  (decide (o = -1) || decide (o = (d.bInterfaceNumber : Int))) && endpoint_contract d &&
    (decide (o ≠ -1) || vendor_specific d)

/-- The endpoint `endpoint[k]` of an interface descriptor. -/
def libusb_interface_descriptor.endpoint_at (d : libusb_interface_descriptor) (k : Nat) :
    libusb_endpoint_descriptor :=
  d.endpoint.getD k ⟨0, 0, 0⟩

/-- The selection that describes interface descriptor `d` of the
configuration of index `config` and value `config_num`. -/
def selection_of (config : Nat) (config_num : Int) (d : libusb_interface_descriptor) :
    selection :=
  ⟨config, config_num, (d.bInterfaceNumber : Int), (d.endpoint_at 0).wMaxPacketSize,
    (d.endpoint_at 0).bEndpointAddress, (d.endpoint_at 1).bEndpointAddress⟩

/-- The selection of an interface, when its first alternate setting passes
the tests of `interface_qualifies`. -/
def pick_interface (o : Int) (config : Nat) (config_num : Int) (intf : libusb_interface) :
    Option selection :=
  if interface_qualifies o intf.altsetting_0 then
    some (selection_of config config_num intf.altsetting_0)
  else none

/-- The selection of the first interface of configuration `config` of a
device that passes the tests of `interface_qualifies`, when the descriptor of
the configuration can be read. -/
def pick_configuration (o : Int) (dev : usb_device) (config : Nat) : Option selection :=
  if (dev.libusb_get_config_descriptor config).1 ≠ 0 then none
  else
    (dev.libusb_get_config_descriptor config).2.interface.findSome?
      (pick_interface o config ((dev.libusb_get_config_descriptor config).2.bConfigurationValue : Int))

/-- The serial check passes: no serial was given (NULL), or the device
declares a serial-number string, it can be read, and `strncmp` finds it equal
to the one given. -/
def serial_matches (dev : usb_device) (dev_desc : libusb_device_descriptor)
    (serial : Option (List Nat)) : Bool :=
  match serial with
  | none => true
  | some s =>
    decide (0 < dev_desc.iSerialNumber) &&
      decide (0 ≤ (dev.libusb_get_string_descriptor_ascii dev_desc.iSerialNumber).1) &&
      decide (strncmp
        (string_buffer (dev.libusb_get_string_descriptor_ascii dev_desc.iSerialNumber).2 256)
        s 256 = 0)

/-- The device reaches the interface search: its descriptor can be read, its
identity matches the filter, it can be opened, and the serial check passes. -/
def device_candidate (vids pids : List Nat) (serial : Option (List Nat)) (dev : usb_device) :
    Bool :=
  decide (dev.libusb_get_device_descriptor.1 = 0) &&
    id_match vids pids dev.libusb_get_device_descriptor.2.idVendor
      dev.libusb_get_device_descriptor.2.idProduct &&
    decide (dev.libusb_open = 0) &&
    serial_matches dev dev.libusb_get_device_descriptor.2 serial

/-- The selection of the first interface of a device that passes the tests of
`interface_qualifies`, in configuration order then interface order, when the
device reaches the interface search. -/
def pick_device (o : Int) (vids pids : List Nat) (serial : Option (List Nat))
    (dev : usb_device) : Option selection :=
  if device_candidate vids pids serial dev then
    (List.range dev.libusb_get_device_descriptor.2.bNumConfigurations).findSome?
      (pick_configuration o dev)
  else none

/-- The first device from index `i` on that has a selection, with its index
and the selection. -/
def first_device (o : Int) (vids pids : List Nat) (serial : Option (List Nat)) :
    Nat → List usb_device → Option (Nat × usb_device × selection)
  | _, [] => none
  | i, dev :: rest =>
    match pick_device o vids pids serial dev with
    | some sel => some (i, dev, sel)
    | none => first_device o vids pids serial (i + 1) rest

/-- The calls that follow the selection succeed: the current configuration
can be read, the configuration is the selected one or can be set, and the
backend data can be allocated. -/
def claim_succeeds (usb : usb_platform) (dev : usb_device) (sel : selection) : Bool :=
  decide (dev.libusb_get_configuration.1 = 0) &&
    (decide (sel.config_num = dev.libusb_get_configuration.2) ||
      decide (dev.libusb_set_configuration sel.config_num = 0)) &&
    usb.malloc_ok

/-- The calls that follow the selection reach the allocation of line 266:
the current configuration can be read, and the configuration is the selected
one or can be set. -/
def reaches_allocation (dev : usb_device) (sel : selection) : Bool :=
  decide (dev.libusb_get_configuration.1 = 0) &&
    (decide (sel.config_num = dev.libusb_get_configuration.2) ||
      decide (dev.libusb_set_configuration sel.config_num = 0))

/-- The `struct cmsis_dap` that a failure after the selection `sel` leaves:
untouched when the failure comes before line 266, with `bdata` NULL when the
allocation of line 266 was reached. -/
def failed_claim (dap : cmsis_dap) (dev : usb_device) (sel : selection) : cmsis_dap :=
  if reaches_allocation dev sel then ⟨none, dap.packet_size, dap.packet_buffer⟩ else dap

/-- The `struct cmsis_dap` that lines 275-280 leave for the selection `sel`
of device `i`. -/
def stored_session (usb : usb_platform) (dap : cmsis_dap) (i : Nat) (sel : selection) :
    cmsis_dap :=
  ⟨some ⟨usb.usb_ctx, i, sel.ep_out, sel.ep_in, sel.interface_num⟩, sel.packet_size + 1,
    dap.packet_buffer⟩

/-- The device and selection `cmsis_dap_usb_open` ends with, when it ends
with one: libusb initialises, the devices enumerate, and the calls that
follow the selection of the first device that has one succeed. -/
def open_selection (usb : usb_platform) (o : Int) (vids pids : List Nat)
    (serial : Option (List Nat)) : Option (Nat × usb_device × selection) :=
  if usb.libusb_init ≠ 0 then none
  else if usb.enumeration_error < 0 then none
  else
    match first_device o vids pids serial 0 usb.device_list with
    | some (i, dev, sel) => if claim_succeeds usb dev sel then some (i, dev, sel) else none
    | none => none

/-- The `struct cmsis_dap` that `cmsis_dap_usb_open` leaves when it fails:
the one it was given, except that a failed allocation for the first device
that has a selection leaves `bdata` NULL. -/
def open_failure (usb : usb_platform) (o : Int) (dap : cmsis_dap) (vids pids : List Nat)
    (serial : Option (List Nat)) : cmsis_dap :=
  if usb.libusb_init ≠ 0 then dap
  else if usb.enumeration_error < 0 then dap
  else
    match first_device o vids pids serial 0 usb.device_list with
    | some (_, dev, sel) => failed_claim dap dev sel
    | none => dap

/-- Interface `k` of configuration `c` of device `i` of the device list
passes the tests of the loops: the device reaches the interface search, the
configuration descriptor can be read, and the first alternate setting of the
interface passes the tests of `interface_qualifies` under the override `o`. -/
def qualifies_at (usb : usb_platform) (o : Int) (vids pids : List Nat)
    (serial : Option (List Nat)) (i c k : Nat) : Prop :=
  ∃ (dev : usb_device) (intf : libusb_interface),
    usb.device_list[i]? = some dev ∧ device_candidate vids pids serial dev = true ∧
    c < dev.libusb_get_device_descriptor.2.bNumConfigurations ∧
    (dev.libusb_get_config_descriptor c).1 = 0 ∧
    (dev.libusb_get_config_descriptor c).2.interface[k]? = some intf ∧
    interface_qualifies o intf.altsetting_0 = true

/-! ## The selection as the specification words it

Section 4.2 step 4 of the specification adds one condition to the tests above
when no override is set: the product string, or the interface's own string,
contains the marker "CMSIS-DAP". The definitions of this section follow the
words of the specification, not the code; they are what "qualifying" and
"interface selection" mean in the claims. -/

/-- The string descriptor of index `index` of the device exists (the index is
not 0), can be read and contains "CMSIS-DAP". -/
def string_has_marker (dev : usb_device) (index : Nat) : Bool :=
  decide (0 < index) && decide (0 ≤ (dev.libusb_get_string_descriptor_ascii index).1) &&
    strstr (string_buffer (dev.libusb_get_string_descriptor_ascii index).2 256) CMSIS_DAP

/-- The marker condition of section 4.2 step 4: the product string of the
device, or the string of the interface, contains "CMSIS-DAP". -/
def marker_signalled (dev : usb_device) (d : libusb_interface_descriptor) : Bool :=
  string_has_marker dev dev.libusb_get_device_descriptor.2.iProduct ||
    string_has_marker dev d.iInterface

/-- An interface descriptor qualifies as section 4.2 words it: it passes the
tests of `interface_qualifies` and, when no override is set, the marker
condition. -/
def interface_qualifies_spec (o : Int) (dev : usb_device) (d : libusb_interface_descriptor) :
    Bool :=
  interface_qualifies o d && (decide (o ≠ -1) || marker_signalled dev d)

/-- Some interface of a configuration of the device whose descriptor can be
read qualifies as section 4.2 words it. -/
def has_qualifying_interface_spec (o : Int) (dev : usb_device) : Bool :=
  (List.range dev.libusb_get_device_descriptor.2.bNumConfigurations).any fun c =>
    decide ((dev.libusb_get_config_descriptor c).1 = 0) &&
      (dev.libusb_get_config_descriptor c).2.interface.any fun intf =>
        interface_qualifies_spec o dev intf.altsetting_0

/-- The device passes identity matching, serial matching and interface
selection as the specification words them: it reaches the interface search
and has an interface that qualifies, marker condition included. -/
def passes_selection_spec (o : Int) (vids pids : List Nat) (serial : Option (List Nat))
    (dev : usb_device) : Bool :=
  device_candidate vids pids serial dev && has_qualifying_interface_spec o dev

/-- The replies of two devices agree wherever `cmsis_dap_usb_open` uses a
reply: on the device descriptor, on opening, on the serial-number string, on
the configuration descriptors and on reading and setting the
configuration. -/
def same_replies_used (d d' : usb_device) : Prop :=
  d.libusb_get_device_descriptor = d'.libusb_get_device_descriptor ∧
  d.libusb_open = d'.libusb_open ∧
  d.libusb_get_string_descriptor_ascii d.libusb_get_device_descriptor.2.iSerialNumber =
    d'.libusb_get_string_descriptor_ascii d.libusb_get_device_descriptor.2.iSerialNumber ∧
  d.libusb_get_config_descriptor = d'.libusb_get_config_descriptor ∧
  d.libusb_get_configuration = d'.libusb_get_configuration ∧
  d.libusb_set_configuration = d'.libusb_set_configuration

/-- Two devices are identical except for their replies to
`libusb_claim_interface`. -/
def same_except_claim (d d' : usb_device) : Prop :=
  d.libusb_get_device_descriptor = d'.libusb_get_device_descriptor ∧
  d.libusb_open = d'.libusb_open ∧
  d.libusb_get_string_descriptor_ascii = d'.libusb_get_string_descriptor_ascii ∧
  d.libusb_get_config_descriptor = d'.libusb_get_config_descriptor ∧
  d.libusb_get_configuration = d'.libusb_get_configuration ∧
  d.libusb_set_configuration = d'.libusb_set_configuration

/-- Two devices are identical except for the contents and the readability of
their string descriptors other than the serial-number string: the product
string and the interface strings. -/
def same_except_other_strings (d d' : usb_device) : Prop :=
  d.libusb_get_device_descriptor = d'.libusb_get_device_descriptor ∧
  d.libusb_open = d'.libusb_open ∧
  d.libusb_get_string_descriptor_ascii d.libusb_get_device_descriptor.2.iSerialNumber =
    d'.libusb_get_string_descriptor_ascii d.libusb_get_device_descriptor.2.iSerialNumber ∧
  d.libusb_get_config_descriptor = d'.libusb_get_config_descriptor ∧
  d.libusb_get_configuration = d'.libusb_get_configuration ∧
  d.libusb_set_configuration = d'.libusb_set_configuration ∧
  d.libusb_claim_interface = d'.libusb_claim_interface

/-- Two platforms have the same replies of their own and devices related by
`R`, position by position. -/
def platforms_related (R : usb_device → usb_device → Prop) (usb usb' : usb_platform) :
    Prop :=
  usb.libusb_init = usb'.libusb_init ∧ usb.usb_ctx = usb'.usb_ctx ∧
  usb.enumeration_error = usb'.enumeration_error ∧ usb.malloc_ok = usb'.malloc_ok ∧
  List.Forall₂ R usb.device_list usb'.device_list

/-! ## The calls of the device loop -/

/-- A call that the body of the device loop can make for device `i`, whose
descriptor is `dev_desc`: reading the descriptor, opening and closing,
reading the serial-number string and the product string, obtaining and
freeing a configuration descriptor. -/
def device_call (i : Nat) (dev_desc : libusb_device_descriptor) (c : usb_call) : Prop :=
  c = usb_call.libusb_get_device_descriptor i ∨ c = usb_call.libusb_open i ∨
  c = usb_call.libusb_close i ∨
  (0 < dev_desc.iSerialNumber ∧
    c = usb_call.libusb_get_string_descriptor_ascii i dev_desc.iSerialNumber) ∨
  (0 < dev_desc.iProduct ∧
    c = usb_call.libusb_get_string_descriptor_ascii i dev_desc.iProduct) ∨
  ∃ k, c = usb_call.libusb_get_config_descriptor i k ∨
    c = usb_call.libusb_free_config_descriptor i k

/-! ## Resources held

A tracker of what the calls of a run acquire and release, against the
replies of the mock: it has no next state when a call releases something
that is not held, uses a handle that is not open, or acquires something that
is already held. -/

/-- The libusb resources held: the contexts initialised and not torn down,
the number of device lists obtained and not freed, the device handles open,
and the configuration descriptors obtained and not freed (device, index). -/
structure usb_resources where
  contexts : List Nat
  device_lists : Nat
  handles : List Nat
  config_descriptors : List (Nat × Nat)
  deriving DecidableEq

/-- Nothing is held. -/
def no_resources : usb_resources := ⟨[], 0, [], []⟩

/-- The resources held after one call, when the call is in order. -/
def track_call (usb : usb_platform) (s : usb_resources) : usb_call → Option usb_resources
  | usb_call.libusb_init =>
    if usb.libusb_init = 0 then
      some ⟨s.contexts ++ [usb.usb_ctx], s.device_lists, s.handles, s.config_descriptors⟩
    else some s
  | usb_call.libusb_exit ctx =>
    if ctx ∈ s.contexts then
      some ⟨s.contexts.erase ctx, s.device_lists, s.handles, s.config_descriptors⟩
    else none
  | usb_call.libusb_get_device_list =>
    if usb.enumeration_error < 0 then some s
    else some ⟨s.contexts, s.device_lists + 1, s.handles, s.config_descriptors⟩
  | usb_call.libusb_free_device_list =>
    if 0 < s.device_lists then
      some ⟨s.contexts, s.device_lists - 1, s.handles, s.config_descriptors⟩
    else none
  | usb_call.libusb_get_device_descriptor _ => some s
  | usb_call.libusb_open i =>
    match usb.device_list[i]? with
    | none => none
    | some dev =>
      if dev.libusb_open = 0 then
        if i ∈ s.handles then none
        else some ⟨s.contexts, s.device_lists, s.handles ++ [i], s.config_descriptors⟩
      else some s
  | usb_call.libusb_close h =>
    if h ∈ s.handles then
      some ⟨s.contexts, s.device_lists, s.handles.erase h, s.config_descriptors⟩
    else none
  | usb_call.libusb_get_string_descriptor_ascii h _ => if h ∈ s.handles then some s else none
  | usb_call.libusb_get_config_descriptor i c =>
    match usb.device_list[i]? with
    | none => none
    | some dev =>
      if (dev.libusb_get_config_descriptor c).1 = 0 then
        if (i, c) ∈ s.config_descriptors then none
        else some ⟨s.contexts, s.device_lists, s.handles, s.config_descriptors ++ [(i, c)]⟩
      else some s
  | usb_call.libusb_free_config_descriptor i c =>
    if (i, c) ∈ s.config_descriptors then
      some ⟨s.contexts, s.device_lists, s.handles, s.config_descriptors.erase (i, c)⟩
    else none
  | usb_call.libusb_get_configuration h => if h ∈ s.handles then some s else none
  | usb_call.libusb_set_configuration h _ => if h ∈ s.handles then some s else none
  | usb_call.libusb_claim_interface h _ => if h ∈ s.handles then some s else none
  | usb_call.libusb_release_interface h _ => if h ∈ s.handles then some s else none
  | usb_call.libusb_bulk_transfer request =>
    if request.dev_handle ∈ s.handles then some s else none

/-- The resources held after a sequence of calls, when every call is in
order. -/
def track (usb : usb_platform) : usb_resources → List usb_call → Option usb_resources
  | s, [] => some s
  | s, c :: calls =>
    match track_call usb s c with
    | none => none
    | some s1 => track usb s1 calls

/-! ## Example platforms -/

/-- An assignment of the three result codes. -/
def codes : error_codes := ⟨0, -4, -6⟩

/-- A `struct cmsis_dap` without a session. -/
def no_session : cmsis_dap := ⟨none, 0, []⟩

/-- An interface with one alternate setting, without string descriptor. -/
def example_interface (number cls subcls protocol : Nat)
    (endpoints : List libusb_endpoint_descriptor) : libusb_interface :=
  ⟨⟨number, cls, subcls, protocol, 0, endpoints⟩, []⟩

/-- A device with one configuration (value 1, current), which can be opened
and configured.  Its serial-number string has index 3 when it has one; no
other string can be read. -/
def example_device (idVendor idProduct : Nat) (serial : Option (List Nat))
    (interfaces : List libusb_interface) : usb_device :=
  ⟨(0, ⟨idVendor, idProduct, if serial.isSome then 3 else 0, 0, 1⟩), 0,
    fun index =>
      match serial with
      | some s => if index = 3 then ((s.length : Int), s) else (-1, [])
      | none => (-1, []),
    fun _ => (0, ⟨1, interfaces⟩), (0, 1), fun _ => 0, fun _ => 0⟩

/-- A platform that initialises, enumerates the given devices and
allocates. -/
def example_platform (devices : List usb_device) : usb_platform :=
  ⟨0, 7, 0, devices, true⟩

/-- The endpoints (bulk OUT 0x01, bulk IN 0x82), maximum packet size 64. -/
def bulk_out_in : List libusb_endpoint_descriptor := [⟨0x01, 2, 64⟩, ⟨0x82, 2, 64⟩]

/-- The same two endpoints in reversed order. -/
def bulk_in_out : List libusb_endpoint_descriptor := [⟨0x82, 2, 64⟩, ⟨0x01, 2, 64⟩]

/-- A platform with one device (0x0d28:0x0204, no serial-number string)
holding the given interfaces. -/
def probe_platform (interfaces : List libusb_interface) : usb_platform :=
  example_platform [example_device 0x0d28 0x0204 none interfaces]

/-- A device whose product string (index 2, "PROBE") and interface string
(index 4, "DEBUG") can be read and do not contain "CMSIS-DAP"; its interface
0 is vendor specific with endpoints bulk OUT 0x01 and bulk IN 0x82. -/
def unmarked_device : usb_device :=
  ⟨(0, ⟨0x0d28, 0x0204, 0, 2, 1⟩), 0,
    fun index =>
      if index = 2 then (5, [0x50, 0x52, 0x4f, 0x42, 0x45])
      else if index = 4 then (5, [0x44, 0x45, 0x42, 0x55, 0x47])
      else (-1, []),
    fun _ => (0, ⟨1, [⟨⟨0, 0xff, 0, 0, 4, bulk_out_in⟩, []⟩]⟩), (0, 1), fun _ => 0, fun _ => 0⟩

/-- The string "XYZ999" in ASCII. -/
def XYZ999 : List Nat := [0x58, 0x59, 0x5a, 0x39, 0x39, 0x39]

/-- The string "ABC123" in ASCII. -/
def ABC123 : List Nat := [0x41, 0x42, 0x43, 0x31, 0x32, 0x33]

/-- A platform with one device 0x0d28:0x0204 of serial "XYZ999" and a
conformant vendor-specific interface 0. -/
def serial_platform : usb_platform :=
  example_platform
    [example_device 0x0d28 0x0204 (some XYZ999) [example_interface 0 0xff 0 0 bulk_out_in]]

/-- A session on device handle 0 with endpoints (OUT 0x01, IN 0x82), packet
size 4 and the given packet buffer. -/
def example_session (packet_buffer : List Nat) : cmsis_dap :=
  ⟨some ⟨7, 0, 0x01, 0x82, 0⟩, 4, packet_buffer⟩

/-- A mock whose every bulk transfer succeeds with one byte, 0x5a. -/
def one_byte_reply : bulk_request → bulk_reply := fun _ => ⟨0, 1, [0x5a]⟩

/-- A mock whose every bulk transfer times out. -/
def timeout_reply : bulk_request → bulk_reply := fun _ => ⟨LIBUSB_ERROR_TIMEOUT, 0, []⟩

/-- A device 0x0d28:0x0204 without strings, with one configuration of value 1
holding the given interfaces, which can be opened, and whose replies to
`libusb_get_configuration`, `libusb_set_configuration` and
`libusb_claim_interface` are given. -/
def configured_device (get_configuration : Int × Int) (set_configuration claim : Int)
    (interfaces : List libusb_interface) : usb_device :=
  ⟨(0, ⟨0x0d28, 0x0204, 0, 0, 1⟩), 0, fun _ => (-1, []), fun _ => (0, ⟨1, interfaces⟩),
    get_configuration, fun _ => set_configuration, fun _ => claim⟩

/-- The selection of interface 0 of configuration 0 (value 1) with the
endpoints `bulk_out_in`. -/
def example_selection : selection := ⟨0, 1, 0, 64, 0x01, 0x82⟩

/-- A device 0x1234:0x5678 that cannot be opened. -/
def unopenable_device : usb_device :=
  ⟨(0, ⟨0x1234, 0x5678, 0, 0, 1⟩), -3, fun _ => (-1, []), fun _ => (0, ⟨1, []⟩), (0, 1),
    fun _ => 0, fun _ => 0⟩

/-- A device 0x0d28:0x0204 that can be opened and whose only configuration
descriptor cannot be read. -/
def unreadable_device : usb_device :=
  ⟨(0, ⟨0x0d28, 0x0204, 0, 0, 1⟩), 0, fun _ => (-1, []), fun _ => (-1, ⟨0, []⟩), (0, 1),
    fun _ => 0, fun _ => 0⟩

/-- A platform with a device that cannot be opened, a device whose
configuration descriptor cannot be read, and a conformant probe, in this
order. -/
def three_device_platform : usb_platform :=
  example_platform [unopenable_device, unreadable_device,
    example_device 0x0d28 0x0204 none [example_interface 0 0xff 0 0 bulk_out_in]]

/-- A device like `unmarked_device` whose product string (index 2) and
interface string (index 4) both read "CMSIS-DAP". -/
def marked_device : usb_device :=
  ⟨(0, ⟨0x0d28, 0x0204, 0, 2, 1⟩), 0,
    fun index =>
      if index = 2 then (9, CMSIS_DAP)
      else if index = 4 then (9, CMSIS_DAP)
      else (-1, []),
    fun _ => (0, ⟨1, [⟨⟨0, 0xff, 0, 0, 4, bulk_out_in⟩, []⟩]⟩), (0, 1), fun _ => 0, fun _ => 0⟩

/-- A vendor-specific interface 0 with endpoints bulk OUT 0x01 and bulk IN
0x82 (maximum packet size 64) and string descriptor 4. -/
def debug_interface : libusb_interface := ⟨⟨0, 0xff, 0, 0, 4, bulk_out_in⟩, []⟩

/-- A vendor-specific interface 1 with endpoints bulk OUT 0x03 and bulk IN
0x84 (maximum packet size 512) and string descriptor 5. -/
def marked_interface : libusb_interface :=
  ⟨⟨1, 0xff, 0, 0, 5, [⟨0x03, 2, 512⟩, ⟨0x84, 2, 512⟩]⟩, []⟩

/-- A device whose product string (index 2) reads "PROBE", with the
interfaces `debug_interface`, whose string (index 4) reads "DEBUG", and
`marked_interface`, whose string (index 5) reads "CMSIS-DAP", in this
order. -/
def two_interface_device : usb_device :=
  ⟨(0, ⟨0x0d28, 0x0204, 0, 2, 1⟩), 0,
    fun index =>
      if index = 2 then (5, [0x50, 0x52, 0x4f, 0x42, 0x45])
      else if index = 4 then (5, [0x44, 0x45, 0x42, 0x55, 0x47])
      else if index = 5 then (9, CMSIS_DAP)
      else (-1, []),
    fun _ => (0, ⟨1, [debug_interface, marked_interface]⟩), (0, 1), fun _ => 0, fun _ => 0⟩

theorem array_get_of_length_le (a : List Nat) (i : Nat) (h : a.length ≤ i) :
    array_get a i = 0 := by
  unfold array_get
  exact List.getD_eq_default _ _ h

theorem id_match_loop_spec (vids pids : List Nat) (idVendor idProduct : Nat) :
    ∀ (fuel id : Nat) (m : Bool), max vids.length pids.length < fuel + id →
      (id_match_loop vids pids idVendor idProduct fuel id m = true ↔
        ((array_get vids id = 0 ∧ array_get pids id = 0 ∧ m = true) ∨
          ∃ i, id ≤ i ∧
            (∀ j, id ≤ j → j ≤ i → (array_get vids j ≠ 0 ∨ array_get pids j ≠ 0)) ∧
            (array_get vids i = 0 ∨ idVendor = array_get vids i) ∧
            (array_get pids i = 0 ∨ idProduct = array_get pids i))) := by
  intro fuel
  induction fuel with
  | zero =>
    intro id m h
    have h1 : vids.length ≤ id := by
      have := le_max_left vids.length pids.length; omega
    have h2 : pids.length ≤ id := by
      have := le_max_right vids.length pids.length; omega
    have hv : array_get vids id = 0 := array_get_of_length_le _ _ h1
    have hp : array_get pids id = 0 := array_get_of_length_le _ _ h2
    simp only [id_match_loop, hv, hp, true_and]
    constructor
    · intro hm; exact Or.inl hm
    · rintro (hm | ⟨i, hi, hall, -⟩)
      · exact hm
      · rcases hall id le_rfl hi with h1 | h1 <;> simp [hv, hp] at h1
  | succ fuel ih =>
    intro id m h
    by_cases hc : array_get vids id ≠ 0 ∨ array_get pids id ≠ 0
    · by_cases hm : ((array_get vids id = 0 ∨ idVendor = array_get vids id) ∧
          (array_get pids id = 0 ∨ idProduct = array_get pids id))
      · have : id_match_loop vids pids idVendor idProduct (fuel + 1) id m = true := by
          simp [id_match_loop, hc, hm]
        simp only [this, true_iff]
        exact Or.inr ⟨id, le_rfl, fun j h1 h2 => by
          have : j = id := by omega
          subst this; exact hc, hm.1, hm.2⟩
      · have hstep : id_match_loop vids pids idVendor idProduct (fuel + 1) id m =
            id_match_loop vids pids idVendor idProduct fuel (id + 1) false := by
          rw [id_match_loop, if_pos hc]
          have hb : ((decide (array_get vids id = 0) || decide (idVendor = array_get vids id)) &&
              (decide (array_get pids id = 0) || decide (idProduct = array_get pids id))) = false := by
            rw [Bool.eq_false_iff]
            intro hb
            apply hm
            simpa using hb
          simp only [hb]
          rfl
        rw [hstep, ih (id + 1) false (by omega)]
        constructor
        · rintro (⟨-, -, hf⟩ | ⟨i, hi, hall, hmi⟩)
          · simp at hf
          · refine Or.inr ⟨i, by omega, fun j h1 h2 => ?_, hmi⟩
            by_cases hj : j = id
            · subst hj; exact hc
            · exact hall j (by omega) h2
        · rintro (⟨hv, hp, -⟩ | ⟨i, hi, hall, hmi⟩)
          · exfalso; rcases hc with h1 | h1 <;> contradiction
          · by_cases hi0 : i = id
            · subst hi0; exact absurd hmi hm
            · exact Or.inr ⟨i, by omega, fun j h1 h2 => hall j (by omega) h2, hmi⟩
    · have hstep : id_match_loop vids pids idVendor idProduct (fuel + 1) id m = m := by
        rw [id_match_loop, if_neg hc]
      rw [hstep]
      have hv : array_get vids id = 0 := by
        by_contra h1; exact hc (Or.inl h1)
      have hp : array_get pids id = 0 := by
        by_contra h1; exact hc (Or.inr h1)
      constructor
      · intro hm; exact Or.inl ⟨hv, hp, hm⟩
      · rintro (⟨-, -, hm⟩ | ⟨i, hi, hall, -⟩)
        · exact hm
        · exact absurd (hall id le_rfl hi) hc

/-! ### The loops of `cmsis_dap_usb_open` find the first interface that passes their tests -/

theorem class_and_string_checks_eq (o : Int) (dev : usb_device) (h : Nat) (found : Bool)
    (d : libusb_interface_descriptor) (calls : List usb_call) :
    class_and_string_checks o dev h found d calls =
      (decide (o ≠ -1) || vendor_specific d, calls) := by
  unfold class_and_string_checks vendor_specific
  by_cases ho : o = -1
  · subst ho
    by_cases hc : d.bInterfaceClass ≠ LIBUSB_CLASS_VENDOR_SPEC ∨
        d.bInterfaceSubClass ≠ 0 ∨ d.bInterfaceProtocol ≠ 0
    · rw [if_pos rfl, if_pos hc]
      rcases hc with hc | hc | hc <;> simp [hc]
    · rw [if_pos rfl, if_neg hc]
      push_neg at hc
      simp [hc.1, hc.2.1, hc.2.2]
  · rw [if_neg ho]
    simp [ho]

theorem scan_interfaces_eq (o : Int) (dev : usb_device) (h : Nat) (found : Bool) (c : Nat)
    (cn : Int) :
    ∀ (l : List libusb_interface) (calls : List usb_call),
      scan_interfaces o dev h found c cn l calls = (l.findSome? (pick_interface o c cn), calls) := by
  intro l
  induction l with
  | nil => intro calls; rfl
  | cons intf rest ih =>
    intro calls
    rw [scan_interfaces]
    simp only [class_and_string_checks_eq, ih, List.findSome?_cons, pick_interface,
      interface_qualifies, endpoint_contract, selection_of,
      libusb_interface_descriptor.endpoint_at, is_bulk_out, is_bulk_in]
    rcases hep : intf.altsetting_0.endpoint with _ | ⟨ep0, _ | ⟨ep1, tl⟩⟩
    · by_cases h1 : o = -1 <;> by_cases h2 : o = (intf.altsetting_0.bInterfaceNumber : Int) <;>
        simp [h1, h2]
    · by_cases h1 : o = -1 <;> by_cases h2 : o = (intf.altsetting_0.bInterfaceNumber : Int) <;>
        simp [h1, h2]
    · by_cases h1 : o = -1 <;> by_cases h2 : o = (intf.altsetting_0.bInterfaceNumber : Int) <;>
        by_cases h3 : ep0.bmAttributes &&& 3 = LIBUSB_TRANSFER_TYPE_BULK <;>
        by_cases h4 : ep0.bEndpointAddress &&& 128 = LIBUSB_ENDPOINT_OUT <;>
        by_cases h5 : ep1.bmAttributes &&& 3 = LIBUSB_TRANSFER_TYPE_BULK <;>
        by_cases h6 : ep1.bEndpointAddress &&& 128 = LIBUSB_ENDPOINT_IN <;>
        by_cases h7 : vendor_specific intf.altsetting_0 = true <;>
        simp [h1, h2, h3, h4, h5, h6, h7]

theorem scan_configurations_fst (o : Int) (dev : usb_device) (i : Nat) (found : Bool) :
    ∀ (l : List Nat) (calls : List usb_call),
      (scan_configurations o dev i found l calls).1 = l.findSome? (pick_configuration o dev) := by
  intro l
  induction l with
  | nil => intro calls; rfl
  | cons config rest ih =>
    intro calls
    rw [scan_configurations]
    simp only [scan_interfaces_eq, List.findSome?_cons, pick_configuration]
    by_cases h1 : (dev.libusb_get_config_descriptor config).1 = 0
    · simp only [h1, ne_eq, not_true_eq_false, if_false]
      cases hf : List.findSome?
          (pick_interface o config
            ((dev.libusb_get_config_descriptor config).2.bConfigurationValue : Int))
          (dev.libusb_get_config_descriptor config).2.interface with
      | none => simp only [ih]
      | some sel => rfl
    · simp only [h1, ne_eq, not_false_eq_true, if_true, ih]

theorem serial_match_fst (dev : usb_device) (h : Nat) (dev_desc : libusb_device_descriptor)
    (serial : Option (List Nat)) (calls : List usb_call) :
    (serial_match dev h dev_desc serial calls).1 = serial_matches dev dev_desc serial := by
  unfold serial_match serial_matches
  cases serial with
  | none =>
    by_cases h1 : dev_desc.iSerialNumber > 0
    · by_cases h2 : (dev.libusb_get_string_descriptor_ascii dev_desc.iSerialNumber).1 < 0 <;>
        simp [h1, h2]
    · simp [h1]
  | some s =>
    by_cases h1 : dev_desc.iSerialNumber > 0
    · by_cases h2 : (dev.libusb_get_string_descriptor_ascii dev_desc.iSerialNumber).1 < 0
      · simp [h1, h2]
      · by_cases h3 : strncmp
            (string_buffer (dev.libusb_get_string_descriptor_ascii dev_desc.iSerialNumber).2 256)
            s 256 = 0
        · have h2' : 0 ≤ (dev.libusb_get_string_descriptor_ascii dev_desc.iSerialNumber).1 := by
            omega
          simp [h1, h2, h3, h2']
        · simp [h1, h2, h3]
    · have h1' : ¬ 0 < dev_desc.iSerialNumber := h1
      simp [h1, h1']

theorem serial_matches_of_not_requested (dev : usb_device)
    (dev_desc : libusb_device_descriptor) (serial : Option (List Nat))
    (h0 : dev_desc.iSerialNumber = 0) (hm : serial_matches dev dev_desc serial = true) :
    serial_requested serial = false := by
  cases serial with
  | none => rfl
  | some s => simp [serial_matches, h0] at hm

theorem examine_device_fst (o : Int) (vids pids : List Nat) (serial : Option (List Nat))
    (i : Nat) (dev : usb_device) (calls : List usb_call) :
    (examine_device o vids pids serial i dev calls).1 = pick_device o vids pids serial dev := by
  unfold examine_device pick_device device_candidate
  simp only [serial_match_fst, scan_configurations_fst]
  by_cases h1 : dev.libusb_get_device_descriptor.1 = 0
  swap
  · simp [h1]
  by_cases h2 : id_match vids pids dev.libusb_get_device_descriptor.2.idVendor
      dev.libusb_get_device_descriptor.2.idProduct = true
  swap
  · simp [h1, h2]
  by_cases h4 : dev.libusb_open = 0
  swap
  · by_cases h3 : dev.libusb_get_device_descriptor.2.iSerialNumber = 0 ∧
        serial_requested serial = true <;> simp [h1, h2, h3, h4]
  by_cases h5 : serial_matches dev dev.libusb_get_device_descriptor.2 serial = true
  swap
  · by_cases h3 : dev.libusb_get_device_descriptor.2.iSerialNumber = 0 ∧
        serial_requested serial = true <;> simp [h1, h2, h3, h4, h5]
  have h3 : ¬ (dev.libusb_get_device_descriptor.2.iSerialNumber = 0 ∧
      serial_requested serial = true) := by
    rintro ⟨h0, hr⟩
    rw [serial_matches_of_not_requested dev _ serial h0 h5] at hr
    exact Bool.false_ne_true hr
  simp only [h1, h2, h4, h5, h3]
  cases hf : List.findSome? (pick_configuration o dev)
      (List.range dev.libusb_get_device_descriptor.2.bNumConfigurations) <;> simp

theorem claim_and_store_eq (E : error_codes) (usb : usb_platform) (dap : cmsis_dap) (i : Nat)
    (sel : selection) (calls : List usb_call) :
    ((claim_and_store E usb dap i sel calls).ret, (claim_and_store E usb dap i sel calls).dap) =
      if usb.malloc_ok then (E.ERROR_OK, stored_session usb dap i sel)
      else (E.ERROR_FAIL, ⟨none, dap.packet_size, dap.packet_buffer⟩) := by
  unfold claim_and_store stored_session
  cases usb.malloc_ok <;> simp

theorem claim_selected_eq (E : error_codes) (usb : usb_platform) (dap : cmsis_dap) (i : Nat)
    (dev : usb_device) (sel : selection) (calls : List usb_call) :
    ((claim_selected E usb dap i dev sel calls).ret,
        (claim_selected E usb dap i dev sel calls).dap) =
      if claim_succeeds usb dev sel then (E.ERROR_OK, stored_session usb dap i sel)
      else (E.ERROR_FAIL, failed_claim dap dev sel) := by
  unfold claim_selected claim_succeeds failed_claim reaches_allocation
  by_cases h1 : dev.libusb_get_configuration.1 = 0
  swap
  · simp [h1]
  by_cases h2 : sel.config_num = dev.libusb_get_configuration.2
  · simp only [h1, h2, ne_eq, not_true_eq_false, if_false, claim_and_store_eq]
    cases usb.malloc_ok <;> simp
  · by_cases h3 : dev.libusb_set_configuration sel.config_num = 0
    · simp only [h1, h2, h3, ne_eq, not_true_eq_false, not_false_eq_true, if_false, if_true,
        claim_and_store_eq]
      cases usb.malloc_ok <;> simp
    · simp [h1, h2, h3]

theorem scan_devices_eq (E : error_codes) (usb : usb_platform) (o : Int) (dap : cmsis_dap)
    (vids pids : List Nat) (serial : Option (List Nat)) :
    ∀ (l : List usb_device) (i : Nat) (calls : List usb_call),
      ((scan_devices E usb o dap vids pids serial i l calls).ret,
          (scan_devices E usb o dap vids pids serial i l calls).dap) =
        match first_device o vids pids serial i l with
        | some (j, dev, sel) =>
          if claim_succeeds usb dev sel then (E.ERROR_OK, stored_session usb dap j sel)
          else (E.ERROR_FAIL, failed_claim dap dev sel)
        | none => (E.ERROR_FAIL, dap) := by
  intro l
  induction l with
  | nil => intro i calls; rfl
  | cons dev rest ih =>
    intro i calls
    rw [scan_devices, first_device]
    simp only [examine_device_fst]
    cases hp : pick_device o vids pids serial dev with
    | none => exact ih (i + 1) _
    | some sel => exact claim_selected_eq E usb dap i dev sel _

theorem cmsis_dap_usb_open_eq (E : error_codes) (usb : usb_platform) (o : Int)
    (dap : cmsis_dap) (vids pids : List Nat) (serial : Option (List Nat)) :
    ((cmsis_dap_usb_open E usb o dap vids pids serial).ret,
        (cmsis_dap_usb_open E usb o dap vids pids serial).dap) =
      match open_selection usb o vids pids serial with
      | some (i, _, sel) => (E.ERROR_OK, stored_session usb dap i sel)
      | none => (E.ERROR_FAIL, open_failure usb o dap vids pids serial) := by
  unfold cmsis_dap_usb_open open_selection open_failure
  by_cases h1 : usb.libusb_init = 0
  swap
  · simp [h1]
  by_cases h2 : usb.enumeration_error < 0
  · have h3 : usb.libusb_get_device_list < 0 := by
      unfold usb_platform.libusb_get_device_list
      rw [if_pos h2]; exact h2
    simp [h1, h2, h3]
  · have h3 : ¬ usb.libusb_get_device_list < 0 := by
      unfold usb_platform.libusb_get_device_list
      rw [if_neg h2]; omega
    simp only [h1, h2, h3, ne_eq, not_true_eq_false, if_false, scan_devices_eq]
    rcases hf : first_device o vids pids serial 0 usb.device_list with _ | ⟨j, dev, sel⟩
    · rfl
    · by_cases hc : claim_succeeds usb dev sel = true <;> simp [hc]

/-! ### What "first" means, by position -/

theorem findSome?_eq_some_index {α β : Type} (f : α → Option β) :
    ∀ (l : List α) (b : β),
      l.findSome? f = some b ↔
        ∃ (k : Nat) (a : α), l[k]? = some a ∧ f a = some b ∧
          ∀ (k' : Nat) (a' : α), k' < k → l[k']? = some a' → f a' = none := by
  intro l
  induction l with
  | nil => intro b; simp
  | cons x rest ih =>
    intro b
    rw [List.findSome?_cons]
    cases hx : f x with
    | some y =>
      constructor
      · intro h
        exact ⟨0, x, by simp, by rw [hx]; exact h, fun k' a' hk _ => absurd hk (Nat.not_lt_zero _)⟩
      · rintro ⟨k, a, hk, hfa, hfirst⟩
        cases k with
        | zero =>
          simp only [List.getElem?_cons_zero, Option.some.injEq] at hk
          subst hk
          rw [hx] at hfa
          exact hfa
        | succ k =>
          have := hfirst 0 x (Nat.succ_pos k) (by simp)
          rw [hx] at this
          exact Option.noConfusion this
    | none =>
      simp only []
      rw [ih b]
      constructor
      · rintro ⟨k, a, hk, hfa, hfirst⟩
        refine ⟨k + 1, a, by simpa using hk, hfa, ?_⟩
        intro k' a' hk' ha'
        cases k' with
        | zero =>
          simp only [List.getElem?_cons_zero, Option.some.injEq] at ha'
          subst ha'
          exact hx
        | succ k' =>
          exact hfirst k' a' (by omega) (by simpa using ha')
      · rintro ⟨k, a, hk, hfa, hfirst⟩
        cases k with
        | zero =>
          simp only [List.getElem?_cons_zero, Option.some.injEq] at hk
          subst hk
          rw [hx] at hfa
          exact Option.noConfusion hfa
        | succ k =>
          refine ⟨k, a, by simpa using hk, hfa, ?_⟩
          intro k' a' hk' ha'
          exact hfirst (k' + 1) a' (by omega) (by simpa using ha')

theorem first_device_eq_some_iff (o : Int) (vids pids : List Nat)
    (serial : Option (List Nat)) :
    ∀ (l : List usb_device) (i j : Nat) (dev : usb_device) (sel : selection),
      first_device o vids pids serial i l = some (j, dev, sel) ↔
        ∃ k, j = i + k ∧ l[k]? = some dev ∧ pick_device o vids pids serial dev = some sel ∧
          ∀ (k' : Nat) (d' : usb_device), k' < k → l[k']? = some d' →
            pick_device o vids pids serial d' = none := by
  intro l
  induction l with
  | nil => intro i j dev sel; simp [first_device]
  | cons x rest ih =>
    intro i j dev sel
    rw [first_device]
    cases hx : pick_device o vids pids serial x with
    | some y =>
      constructor
      · intro h
        simp only [Option.some.injEq, Prod.mk.injEq] at h
        obtain ⟨h1, h2, h3⟩ := h
        subst h1 h2 h3
        exact ⟨0, rfl, by simp, hx, fun k' d' hk _ => absurd hk (Nat.not_lt_zero _)⟩
      · rintro ⟨k, hj, hk, hp, hfirst⟩
        cases k with
        | zero =>
          simp only [List.getElem?_cons_zero, Option.some.injEq] at hk
          subst hk
          rw [hx] at hp
          simp only [Option.some.injEq] at hp
          subst hp hj
          rfl
        | succ k =>
          have := hfirst 0 x (Nat.succ_pos k) (by simp)
          rw [hx] at this
          exact Option.noConfusion this
    | none =>
      simp only []
      rw [ih (i + 1) j dev sel]
      constructor
      · rintro ⟨k, hj, hk, hp, hfirst⟩
        refine ⟨k + 1, by omega, by simpa using hk, hp, ?_⟩
        intro k' d' hk' hd'
        cases k' with
        | zero =>
          simp only [List.getElem?_cons_zero, Option.some.injEq] at hd'
          subst hd'
          exact hx
        | succ k' =>
          exact hfirst k' d' (by omega) (by simpa using hd')
      · rintro ⟨k, hj, hk, hp, hfirst⟩
        cases k with
        | zero =>
          simp only [List.getElem?_cons_zero, Option.some.injEq] at hk
          subst hk
          rw [hx] at hp
          exact Option.noConfusion hp
        | succ k =>
          refine ⟨k, by omega, by simpa using hk, hp, ?_⟩
          intro k' d' hk' hd'
          exact hfirst (k' + 1) d' (by omega) (by simpa using hd')

theorem first_device_eq_none_iff (o : Int) (vids pids : List Nat)
    (serial : Option (List Nat)) :
    ∀ (l : List usb_device) (i : Nat),
      first_device o vids pids serial i l = none ↔
        ∀ dev ∈ l, pick_device o vids pids serial dev = none := by
  intro l
  induction l with
  | nil => intro i; simp [first_device]
  | cons x rest ih =>
    intro i
    rw [first_device]
    cases hx : pick_device o vids pids serial x with
    | some y =>
      simp [hx]
    | none =>
      simp only [List.mem_cons, forall_eq_or_imp, hx, true_and]
      exact ih (i + 1)

theorem pick_interface_eq_some_iff (o : Int) (c : Nat) (cn : Int) (intf : libusb_interface)
    (sel : selection) :
    pick_interface o c cn intf = some sel ↔
      interface_qualifies o intf.altsetting_0 = true ∧
        selection_of c cn intf.altsetting_0 = sel := by
  unfold pick_interface
  by_cases h : interface_qualifies o intf.altsetting_0 = true <;> simp [h]

theorem pick_interface_eq_none_iff (o : Int) (c : Nat) (cn : Int) (intf : libusb_interface) :
    pick_interface o c cn intf = none ↔ interface_qualifies o intf.altsetting_0 = false := by
  unfold pick_interface
  by_cases h : interface_qualifies o intf.altsetting_0 = true <;> simp [h]

theorem pick_configuration_eq_some_iff (o : Int) (dev : usb_device) (c : Nat)
    (sel : selection) :
    pick_configuration o dev c = some sel ↔
      (dev.libusb_get_config_descriptor c).1 = 0 ∧
      ∃ (k : Nat) (intf : libusb_interface),
        (dev.libusb_get_config_descriptor c).2.interface[k]? = some intf ∧
        interface_qualifies o intf.altsetting_0 = true ∧
        selection_of c ((dev.libusb_get_config_descriptor c).2.bConfigurationValue : Int)
          intf.altsetting_0 = sel ∧
        ∀ (k' : Nat) (x : libusb_interface), k' < k →
          (dev.libusb_get_config_descriptor c).2.interface[k']? = some x →
          interface_qualifies o x.altsetting_0 = false := by
  unfold pick_configuration
  by_cases h : (dev.libusb_get_config_descriptor c).1 = 0
  · simp only [h, ne_eq, not_true_eq_false, if_false, true_and, findSome?_eq_some_index,
      pick_interface_eq_some_iff, pick_interface_eq_none_iff]
    constructor
    · rintro ⟨k, intf, h1, ⟨h2, h3⟩, h4⟩
      exact ⟨k, intf, h1, h2, h3, h4⟩
    · rintro ⟨k, intf, h1, h2, h3, h4⟩
      exact ⟨k, intf, h1, ⟨h2, h3⟩, h4⟩
  · simp [h]

theorem pick_configuration_eq_none_iff (o : Int) (dev : usb_device) (c : Nat) :
    pick_configuration o dev c = none ↔
      ((dev.libusb_get_config_descriptor c).1 ≠ 0 ∨
        ∀ intf ∈ (dev.libusb_get_config_descriptor c).2.interface,
          interface_qualifies o intf.altsetting_0 = false) := by
  unfold pick_configuration
  by_cases h : (dev.libusb_get_config_descriptor c).1 = 0
  · simp [h, pick_interface_eq_none_iff]
  · simp [h]

theorem pick_device_eq_some_iff (o : Int) (vids pids : List Nat) (serial : Option (List Nat))
    (dev : usb_device) (sel : selection) :
    pick_device o vids pids serial dev = some sel ↔
      device_candidate vids pids serial dev = true ∧
      ∃ c, c < dev.libusb_get_device_descriptor.2.bNumConfigurations ∧
        pick_configuration o dev c = some sel ∧
        ∀ c', c' < c → pick_configuration o dev c' = none := by
  unfold pick_device
  by_cases h : device_candidate vids pids serial dev = true
  · simp only [h, if_true, true_and, findSome?_eq_some_index]
    constructor
    · rintro ⟨k, a, h1, h2, h3⟩
      have hk : k < dev.libusb_get_device_descriptor.2.bNumConfigurations := by
        by_contra hge
        rw [List.getElem?_eq_none (by simpa using hge)] at h1
        exact Option.noConfusion h1
      rw [List.getElem?_range hk] at h1
      simp only [Option.some.injEq] at h1
      subst h1
      refine ⟨k, hk, h2, fun c' hc' => h3 c' c' hc' ?_⟩
      exact List.getElem?_range (by omega)
    · rintro ⟨c, hc, h2, h3⟩
      refine ⟨c, c, List.getElem?_range hc, h2, ?_⟩
      intro k' a' hk' ha'
      rw [List.getElem?_range (by omega)] at ha'
      simp only [Option.some.injEq] at ha'
      subst ha'
      exact h3 k' hk'
  · simp [h]

theorem pick_device_eq_none_iff (o : Int) (vids pids : List Nat) (serial : Option (List Nat))
    (dev : usb_device) :
    pick_device o vids pids serial dev = none ↔
      (device_candidate vids pids serial dev = false ∨
        ∀ c, c < dev.libusb_get_device_descriptor.2.bNumConfigurations →
          pick_configuration o dev c = none) := by
  unfold pick_device
  by_cases h : device_candidate vids pids serial dev = true
  · simp [h]
  · simp [h]

theorem not_qualifies_of_pick_device_none (o : Int) (vids pids : List Nat)
    (serial : Option (List Nat)) (dev : usb_device)
    (h : pick_device o vids pids serial dev = none)
    (hc : device_candidate vids pids serial dev = true) (c k : Nat) (intf : libusb_interface)
    (h1 : c < dev.libusb_get_device_descriptor.2.bNumConfigurations)
    (h2 : (dev.libusb_get_config_descriptor c).1 = 0)
    (h3 : (dev.libusb_get_config_descriptor c).2.interface[k]? = some intf) :
    interface_qualifies o intf.altsetting_0 = false := by
  rw [pick_device_eq_none_iff] at h
  rcases h with h | h
  · rw [hc] at h; exact absurd h (by decide)
  · have := h c h1
    rw [pick_configuration_eq_none_iff] at this
    rcases this with h4 | h4
    · exact absurd h2 h4
    · exact h4 intf (List.getElem?_mem h3)

/-! ### The result of `cmsis_dap_usb_open` -/

theorem open_ret_cases (E : error_codes) (usb : usb_platform) (o : Int) (dap : cmsis_dap)
    (vids pids : List Nat) (serial : Option (List Nat)) :
    (cmsis_dap_usb_open E usb o dap vids pids serial).ret = E.ERROR_OK ∨
      ((cmsis_dap_usb_open E usb o dap vids pids serial).ret = E.ERROR_FAIL ∧
        (cmsis_dap_usb_open E usb o dap vids pids serial).dap =
          open_failure usb o dap vids pids serial) := by
  have h := cmsis_dap_usb_open_eq E usb o dap vids pids serial
  rcases hs : open_selection usb o vids pids serial with _ | ⟨i, dev, sel⟩
  · rw [hs] at h
    simp only [Prod.mk.injEq] at h
    exact Or.inr h
  · rw [hs] at h
    simp only [Prod.mk.injEq] at h
    exact Or.inl h.1

theorem open_failure_of_no_selection (usb : usb_platform) (o : Int) (dap : cmsis_dap)
    (vids pids : List Nat) (serial : Option (List Nat))
    (h : ∀ dev ∈ usb.device_list, pick_device o vids pids serial dev = none) :
    open_failure usb o dap vids pids serial = dap := by
  unfold open_failure
  rw [(first_device_eq_none_iff o vids pids serial usb.device_list 0).2 h]
  split_ifs <;> rfl

theorem open_selection_of_ok (E : error_codes) (usb : usb_platform) (o : Int)
    (dap : cmsis_dap) (vids pids : List Nat) (serial : Option (List Nat))
    (hE : E.ERROR_OK ≠ E.ERROR_FAIL)
    (h : (cmsis_dap_usb_open E usb o dap vids pids serial).ret = E.ERROR_OK) :
    ∃ i dev sel, open_selection usb o vids pids serial = some (i, dev, sel) ∧
      (cmsis_dap_usb_open E usb o dap vids pids serial).dap = stored_session usb dap i sel := by
  have h0 := cmsis_dap_usb_open_eq E usb o dap vids pids serial
  rcases hs : open_selection usb o vids pids serial with _ | ⟨i, dev, sel⟩
  · rw [hs] at h0
    simp only [Prod.mk.injEq] at h0
    rw [h0.1] at h
    exact absurd h.symm hE
  · rw [hs] at h0
    simp only [Prod.mk.injEq] at h0
    exact ⟨i, dev, sel, rfl, h0.2⟩

theorem open_selection_eq_some_iff (usb : usb_platform) (o : Int) (vids pids : List Nat)
    (serial : Option (List Nat)) (i : Nat) (dev : usb_device) (sel : selection) :
    open_selection usb o vids pids serial = some (i, dev, sel) ↔
      usb.libusb_init = 0 ∧ ¬ usb.enumeration_error < 0 ∧
      first_device o vids pids serial 0 usb.device_list = some (i, dev, sel) ∧
      claim_succeeds usb dev sel = true := by
  unfold open_selection
  by_cases h1 : usb.libusb_init = 0
  swap
  · simp [h1]
  by_cases h2 : usb.enumeration_error < 0
  · simp [h1, h2]
  simp only [h1, h2, ne_eq, not_true_eq_false, if_false, not_false_eq_true, true_and]
  rcases hf : first_device o vids pids serial 0 usb.device_list with _ | ⟨j, d, s0⟩
  · simp
  · by_cases hc : claim_succeeds usb d s0 = true
    · simp only [hc, if_true, Option.some.injEq, Prod.mk.injEq]
      constructor
      · rintro ⟨rfl, rfl, rfl⟩
        exact ⟨⟨rfl, rfl, rfl⟩, hc⟩
      · rintro ⟨h, -⟩
        exact h
    · simp only [hc, Bool.false_eq_true, if_false, Option.some.injEq, Prod.mk.injEq]
      constructor
      · intro h
        exact Option.noConfusion h
      · rintro ⟨⟨rfl, rfl, rfl⟩, hc'⟩
        exact absurd hc' hc

/-- The session stored by a successful `cmsis_dap_usb_open` describes an
interface of the device list that passes the tests of the loops, at a
position (device `i`, configuration `c`, interface `k`) before which no
interface passes them. -/
theorem open_ok_spec (E : error_codes) (usb : usb_platform) (o : Int)
    (dap : cmsis_dap) (vids pids : List Nat) (serial : Option (List Nat))
    (hE : E.ERROR_OK ≠ E.ERROR_FAIL)
    (h : (cmsis_dap_usb_open E usb o dap vids pids serial).ret = E.ERROR_OK) :
    ∃ (i c k : Nat) (dev : usb_device) (intf : libusb_interface),
      usb.device_list[i]? = some dev ∧ device_candidate vids pids serial dev = true ∧
      c < dev.libusb_get_device_descriptor.2.bNumConfigurations ∧
      (dev.libusb_get_config_descriptor c).1 = 0 ∧
      (dev.libusb_get_config_descriptor c).2.interface[k]? = some intf ∧
      interface_qualifies o intf.altsetting_0 = true ∧
      (cmsis_dap_usb_open E usb o dap vids pids serial).dap =
        stored_session usb dap i
          (selection_of c ((dev.libusb_get_config_descriptor c).2.bConfigurationValue : Int)
            intf.altsetting_0) ∧
      ∀ i' c' k', qualifies_at usb o vids pids serial i' c' k' →
        i < i' ∨ (i = i' ∧ (c < c' ∨ (c = c' ∧ k ≤ k'))) := by
  obtain ⟨i, dev, sel, hs, hdap⟩ := open_selection_of_ok E usb o dap vids pids serial hE h
  rw [open_selection_eq_some_iff] at hs
  obtain ⟨-, -, hfd, -⟩ := hs
  rw [first_device_eq_some_iff] at hfd
  obtain ⟨k0, hi, hdev, hpick, hfirst_dev⟩ := hfd
  have hi' : i = k0 := by omega
  subst hi'
  rw [pick_device_eq_some_iff] at hpick
  obtain ⟨hcand, c, hc, hpc, hfirst_cfg⟩ := hpick
  rw [pick_configuration_eq_some_iff] at hpc
  obtain ⟨hread, k, intf, hintf, hq, hsel, hfirst_intf⟩ := hpc
  refine ⟨i, c, k, dev, intf, hdev, hcand, hc, hread, hintf, hq, ?_, ?_⟩
  · rw [hdap, hsel]
  · rintro i' c' k' ⟨dev', intf', hdev', hcand', hc', hread', hintf', hq'⟩
    by_contra hlt
    have hle : i' ≤ i := by omega
    rcases Nat.lt_or_eq_of_le hle with hlt_i | heq_i
    · have hnone := hfirst_dev i' dev' hlt_i hdev'
      have := not_qualifies_of_pick_device_none o vids pids serial dev' hnone hcand' c' k'
        intf' hc' hread' hintf'
      rw [hq'] at this
      exact absurd this (by decide)
    · subst heq_i
      rw [hdev] at hdev'
      simp only [Option.some.injEq] at hdev'
      subst hdev'
      have hle_c : c' ≤ c := by omega
      rcases Nat.lt_or_eq_of_le hle_c with hlt_c | heq_c
      · have hnone := hfirst_cfg c' hlt_c
        rw [pick_configuration_eq_none_iff] at hnone
        rcases hnone with h4 | h4
        · exact h4 hread'
        · have := h4 intf' (List.getElem?_mem hintf')
          rw [hq'] at this
          exact absurd this (by decide)
      · subst heq_c
        have hlt_k : k' < k := by omega
        have := hfirst_intf k' intf' hlt_k hintf'
        rw [hq'] at this
        exact absurd this (by decide)

/-- The endpoints of an interface descriptor that meets the endpoint
contract. -/
theorem endpoint_contract_iff (d : libusb_interface_descriptor) :
    endpoint_contract d = true ↔
      ∃ ep0 ep1 rest, d.endpoint = ep0 :: ep1 :: rest ∧
        ep0.bmAttributes &&& 3 = LIBUSB_TRANSFER_TYPE_BULK ∧
        ep0.bEndpointAddress &&& 0x80 = LIBUSB_ENDPOINT_OUT ∧
        ep1.bmAttributes &&& 3 = LIBUSB_TRANSFER_TYPE_BULK ∧
        ep1.bEndpointAddress &&& 0x80 = LIBUSB_ENDPOINT_IN := by
  unfold endpoint_contract is_bulk_out is_bulk_in
  rcases hep : d.endpoint with _ | ⟨ep0, _ | ⟨ep1, tl⟩⟩
  · simp
  · simp
  · simp only [Bool.and_eq_true, decide_eq_true_eq, List.cons.injEq]
    constructor
    · rintro ⟨⟨h1, h2⟩, h3, h4⟩
      exact ⟨ep0, ep1, tl, ⟨rfl, rfl, rfl⟩, h1, h2, h3, h4⟩
    · rintro ⟨e0, e1, r, ⟨rfl, rfl, rfl⟩, h1, h2, h3, h4⟩
      exact ⟨⟨h1, h2⟩, h3, h4⟩

theorem interface_qualifies_iff (o : Int) (d : libusb_interface_descriptor) :
    interface_qualifies o d = true ↔
      (o = -1 ∨ o = (d.bInterfaceNumber : Int)) ∧ endpoint_contract d = true ∧
        (o ≠ -1 ∨ vendor_specific d = true) := by
  unfold interface_qualifies
  simp only [Bool.and_eq_true, Bool.or_eq_true, decide_eq_true_eq, and_assoc]

theorem open_ok_of_qualifies (E : error_codes) (usb : usb_platform) (o : Int)
    (dap : cmsis_dap) (vids pids : List Nat) (serial : Option (List Nat))
    (h1 : usb.libusb_init = 0) (h2 : ¬ usb.enumeration_error < 0)
    (h3 : usb.malloc_ok = true)
    (h4 : ∀ d ∈ usb.device_list, d.libusb_get_configuration.1 = 0 ∧
      ∀ cn, d.libusb_set_configuration cn = 0)
    (i c k : Nat) (hq : qualifies_at usb o vids pids serial i c k) :
    (cmsis_dap_usb_open E usb o dap vids pids serial).ret = E.ERROR_OK := by
  obtain ⟨dev, intf, hdev, hcand, hc, hread, hintf, hqual⟩ := hq
  have h0 := cmsis_dap_usb_open_eq E usb o dap vids pids serial
  rcases hf : first_device o vids pids serial 0 usb.device_list with _ | ⟨j, d, sel⟩
  · rw [first_device_eq_none_iff] at hf
    have hnone := hf dev (List.getElem?_mem hdev)
    have := not_qualifies_of_pick_device_none o vids pids serial dev hnone hcand c k intf hc
      hread hintf
    rw [hqual] at this
    exact absurd this (by decide)
  · have hd : d ∈ usb.device_list := by
      rw [first_device_eq_some_iff] at hf
      obtain ⟨k0, -, hk0, -, -⟩ := hf
      exact List.getElem?_mem hk0
    have hclaim : claim_succeeds usb d sel = true := by
      unfold claim_succeeds
      simp [(h4 d hd).1, (h4 d hd).2, h3]
    have hs : open_selection usb o vids pids serial = some (j, d, sel) := by
      rw [open_selection_eq_some_iff]
      exact ⟨h1, h2, hf, hclaim⟩
    rw [hs] at h0
    simp only [Prod.mk.injEq] at h0
    exact h0.1

/-! ### C1 -/

/-- C1: for every filter and every device identity, the VID/PID match computed
by `cmsis_dap_usb_open` is true if and only if the filter is empty (its first
pair is (0, 0)) or some pair before the terminator has (vendor zero or equal to
the device's) and (product zero or equal to the device's). -/
theorem id_match_iff_empty_or_pair_matches (vids pids : List Nat)
    (idVendor idProduct : Nat) :
    id_match vids pids idVendor idProduct = true ↔
      ((array_get vids 0 = 0 ∧ array_get pids 0 = 0) ∨
        ∃ i, (∀ j, j ≤ i → (array_get vids j ≠ 0 ∨ array_get pids j ≠ 0)) ∧
          (array_get vids i = 0 ∨ idVendor = array_get vids i) ∧
          (array_get pids i = 0 ∨ idProduct = array_get pids i)) := by
  unfold id_match
  rw [id_match_loop_spec vids pids idVendor idProduct _ 0 true (by omega)]
  constructor
  · rintro (⟨h1, h2, -⟩ | ⟨i, -, hall, hm⟩)
    · exact Or.inl ⟨h1, h2⟩
    · exact Or.inr ⟨i, fun j hj => hall j (Nat.zero_le j) hj, hm⟩
  · rintro (⟨h1, h2⟩ | ⟨i, hall, hm⟩)
    · exact Or.inl ⟨h1, h2, rfl⟩
    · exact Or.inr ⟨i, Nat.zero_le i, fun j _ hj => hall j hj, hm⟩

/-! ### C2 -/

/-- C2: whenever `cmsis_dap_usb_open` returns success, the session it stored
names an interface of the selected device that declares at least two
endpoints, whose `endpoint[0]` is bulk OUT and whose `endpoint[1]` is bulk IN;
and when no interface of the descriptor tree meets this endpoint contract,
open returns failure. -/
theorem open_selects_bulk_out_in (E : error_codes) (usb : usb_platform) (o : Int)
    (dap : cmsis_dap) (vids pids : List Nat) (serial : Option (List Nat))
    (hE : E.ERROR_OK ≠ E.ERROR_FAIL) :
    ((cmsis_dap_usb_open E usb o dap vids pids serial).ret = E.ERROR_OK →
      ∃ (b : cmsis_dap_backend_data) (dev : usb_device) (c : Nat) (intf : libusb_interface)
        (ep0 ep1 : libusb_endpoint_descriptor) (rest : List libusb_endpoint_descriptor),
        (cmsis_dap_usb_open E usb o dap vids pids serial).dap.bdata = some b ∧
        usb.device_list[b.dev_handle]? = some dev ∧
        c < dev.libusb_get_device_descriptor.2.bNumConfigurations ∧
        (dev.libusb_get_config_descriptor c).1 = 0 ∧
        intf ∈ (dev.libusb_get_config_descriptor c).2.interface ∧
        b.interface = (intf.altsetting_0.bInterfaceNumber : Int) ∧
        intf.altsetting_0.endpoint = ep0 :: ep1 :: rest ∧
        b.ep_out = ep0.bEndpointAddress ∧ b.ep_in = ep1.bEndpointAddress ∧
        2 ≤ intf.altsetting_0.bNumEndpoints ∧
        ep0.bmAttributes &&& 3 = LIBUSB_TRANSFER_TYPE_BULK ∧
        ep0.bEndpointAddress &&& 0x80 = LIBUSB_ENDPOINT_OUT ∧
        ep1.bmAttributes &&& 3 = LIBUSB_TRANSFER_TYPE_BULK ∧
        ep1.bEndpointAddress &&& 0x80 = LIBUSB_ENDPOINT_IN) ∧
    ((∀ dev ∈ usb.device_list, ∀ c,
        ∀ intf ∈ (dev.libusb_get_config_descriptor c).2.interface,
          endpoint_contract intf.altsetting_0 = false) →
      (cmsis_dap_usb_open E usb o dap vids pids serial).ret = E.ERROR_FAIL) := by
  have key : (cmsis_dap_usb_open E usb o dap vids pids serial).ret = E.ERROR_OK →
      ∃ (b : cmsis_dap_backend_data) (dev : usb_device) (c : Nat) (intf : libusb_interface)
        (ep0 ep1 : libusb_endpoint_descriptor) (rest : List libusb_endpoint_descriptor),
        (cmsis_dap_usb_open E usb o dap vids pids serial).dap.bdata = some b ∧
        usb.device_list[b.dev_handle]? = some dev ∧
        c < dev.libusb_get_device_descriptor.2.bNumConfigurations ∧
        (dev.libusb_get_config_descriptor c).1 = 0 ∧
        intf ∈ (dev.libusb_get_config_descriptor c).2.interface ∧
        b.interface = (intf.altsetting_0.bInterfaceNumber : Int) ∧
        intf.altsetting_0.endpoint = ep0 :: ep1 :: rest ∧
        b.ep_out = ep0.bEndpointAddress ∧ b.ep_in = ep1.bEndpointAddress ∧
        2 ≤ intf.altsetting_0.bNumEndpoints ∧
        ep0.bmAttributes &&& 3 = LIBUSB_TRANSFER_TYPE_BULK ∧
        ep0.bEndpointAddress &&& 0x80 = LIBUSB_ENDPOINT_OUT ∧
        ep1.bmAttributes &&& 3 = LIBUSB_TRANSFER_TYPE_BULK ∧
        ep1.bEndpointAddress &&& 0x80 = LIBUSB_ENDPOINT_IN := by
    intro h
    obtain ⟨i, c, k, dev, intf, hdev, -, hc, hread, hintf, hq, hdap, -⟩ :=
      open_ok_spec E usb o dap vids pids serial hE h
    rw [interface_qualifies_iff] at hq
    obtain ⟨-, hcontract, -⟩ := hq
    rw [endpoint_contract_iff] at hcontract
    obtain ⟨ep0, ep1, rest, hep, h1, h2, h3, h4⟩ := hcontract
    refine ⟨_, dev, c, intf, ep0, ep1, rest, by rw [hdap]; rfl, hdev, hc, hread,
      List.getElem?_mem hintf, rfl, hep, ?_, ?_, ?_, h1, h2, h3, h4⟩
    · simp [selection_of, libusb_interface_descriptor.endpoint_at, hep]
    · simp [selection_of, libusb_interface_descriptor.endpoint_at, hep]
    · simp [libusb_interface_descriptor.bNumEndpoints, hep]
  refine ⟨key, ?_⟩
  intro hall
  rcases open_ret_cases E usb o dap vids pids serial with hok | hfail
  · obtain ⟨b, dev, c, intf, ep0, ep1, rest, -, hdev, -, -, hintf, -, hep, -, -, -, h1, h2, h3,
      h4⟩ := key hok
    have hc : endpoint_contract intf.altsetting_0 = true := by
      rw [endpoint_contract_iff]
      exact ⟨ep0, ep1, rest, hep, h1, h2, h3, h4⟩
    rw [hall dev (List.getElem?_mem hdev) c intf hintf] at hc
    exact absurd hc (by decide)
  · exact hfail.1

/-- Witness of C2: a conformant interface is selected, with an OUT and an IN
endpoint address; with the two endpoints reversed, with a non-bulk endpoint,
or with one endpoint only, open returns failure. -/
theorem open_selects_bulk_out_in_witness :
    codes.ERROR_OK ≠ codes.ERROR_FAIL ∧
    (cmsis_dap_usb_open codes (probe_platform [example_interface 0 0xff 0 0 bulk_out_in])
      (-1) no_session [0] [0] none).ret = codes.ERROR_OK ∧
    (∃ b, (cmsis_dap_usb_open codes (probe_platform [example_interface 0 0xff 0 0 bulk_out_in])
        (-1) no_session [0] [0] none).dap.bdata = some b ∧
      b.ep_out &&& 0x80 = LIBUSB_ENDPOINT_OUT ∧ b.ep_in &&& 0x80 = LIBUSB_ENDPOINT_IN) ∧
    (cmsis_dap_usb_open codes (probe_platform [example_interface 0 0xff 0 0 bulk_in_out])
      (-1) no_session [0] [0] none).ret = codes.ERROR_FAIL ∧
    (cmsis_dap_usb_open codes
      (probe_platform [example_interface 0 0xff 0 0 [⟨0x01, 3, 64⟩, ⟨0x82, 2, 64⟩]])
      (-1) no_session [0] [0] none).ret = codes.ERROR_FAIL ∧
    (cmsis_dap_usb_open codes (probe_platform [example_interface 0 0xff 0 0 [⟨0x01, 2, 64⟩]])
      (-1) no_session [0] [0] none).ret = codes.ERROR_FAIL := by
  have hE : codes.ERROR_OK ≠ codes.ERROR_FAIL := by decide
  have hfail : ∀ eps : List libusb_endpoint_descriptor,
      endpoint_contract ⟨0, 0xff, 0, 0, 0, eps⟩ = false →
      ∀ dev ∈ (probe_platform [example_interface 0 0xff 0 0 eps]).device_list, ∀ c,
        ∀ intf ∈ (dev.libusb_get_config_descriptor c).2.interface,
          endpoint_contract intf.altsetting_0 = false := by
    intro eps heps dev hdev c intf hintf
    simp only [probe_platform, example_platform, List.mem_singleton] at hdev
    subst hdev
    simp only [example_device, List.mem_singleton] at hintf
    subst hintf
    exact heps
  have hok : (cmsis_dap_usb_open codes
      (probe_platform [example_interface 0 0xff 0 0 bulk_out_in])
      (-1) no_session [0] [0] none).ret = codes.ERROR_OK := by decide
  refine ⟨hE, hok, ?_, ?_, ?_, ?_⟩
  · obtain ⟨b, dev, c, intf, ep0, ep1, rest, hb, -, -, -, -, -, -, ho, hi, -, -, h2, -, h4⟩ :=
      (open_selects_bulk_out_in codes (probe_platform [example_interface 0 0xff 0 0 bulk_out_in])
        (-1) no_session [0] [0] none hE).1 hok
    exact ⟨b, hb, by rw [ho]; exact h2, by rw [hi]; exact h4⟩
  · exact (open_selects_bulk_out_in codes _ (-1) no_session [0] [0] none hE).2
      (hfail bulk_in_out (by decide))
  · exact (open_selects_bulk_out_in codes _ (-1) no_session [0] [0] none hE).2
      (hfail [⟨0x01, 3, 64⟩, ⟨0x82, 2, 64⟩] (by decide))
  · exact (open_selects_bulk_out_in codes _ (-1) no_session [0] [0] none hE).2
      (hfail [⟨0x01, 2, 64⟩] (by decide))

/-! ### C3 -/

/-- C3: with the interface override set to `n` (not -1), (a) a successful
`cmsis_dap_usb_open` stores a session on an interface whose `bInterfaceNumber`
is `n`, and (b) an interface numbered `n` that meets the endpoint contract, on
a device that passes identity and serial matching and whose configuration
descriptor can be read, makes open succeed when the calls that follow the
selection succeed, whatever its class/subclass/protocol triple and whatever
the strings hold (nothing is assumed of them). -/
theorem override_restricts_and_bypasses (E : error_codes) (usb : usb_platform) (n : Int)
    (dap : cmsis_dap) (vids pids : List Nat) (serial : Option (List Nat))
    (hn : n ≠ -1) (hE : E.ERROR_OK ≠ E.ERROR_FAIL) :
    ((cmsis_dap_usb_open E usb n dap vids pids serial).ret = E.ERROR_OK →
      ∃ (b : cmsis_dap_backend_data) (dev : usb_device) (c : Nat) (intf : libusb_interface),
        (cmsis_dap_usb_open E usb n dap vids pids serial).dap.bdata = some b ∧
        usb.device_list[b.dev_handle]? = some dev ∧
        intf ∈ (dev.libusb_get_config_descriptor c).2.interface ∧
        b.interface = (intf.altsetting_0.bInterfaceNumber : Int) ∧
        (intf.altsetting_0.bInterfaceNumber : Int) = n) ∧
    (∀ (i c k : Nat) (dev : usb_device) (intf : libusb_interface),
      usb.libusb_init = 0 → ¬ usb.enumeration_error < 0 → usb.malloc_ok = true →
      (∀ d ∈ usb.device_list, d.libusb_get_configuration.1 = 0 ∧
        ∀ cn, d.libusb_set_configuration cn = 0) →
      usb.device_list[i]? = some dev → device_candidate vids pids serial dev = true →
      c < dev.libusb_get_device_descriptor.2.bNumConfigurations →
      (dev.libusb_get_config_descriptor c).1 = 0 →
      (dev.libusb_get_config_descriptor c).2.interface[k]? = some intf →
      (intf.altsetting_0.bInterfaceNumber : Int) = n →
      endpoint_contract intf.altsetting_0 = true →
      (cmsis_dap_usb_open E usb n dap vids pids serial).ret = E.ERROR_OK) := by
  constructor
  · intro h
    obtain ⟨i, c, k, dev, intf, hdev, -, -, -, hintf, hq, hdap, -⟩ :=
      open_ok_spec E usb n dap vids pids serial hE h
    rw [interface_qualifies_iff] at hq
    obtain ⟨hnum, -, -⟩ := hq
    refine ⟨_, dev, c, intf, by rw [hdap]; rfl, hdev, List.getElem?_mem hintf, rfl, ?_⟩
    rcases hnum with h1 | h1
    · exact absurd h1 hn
    · exact h1.symm
  · intro i c k dev intf h1 h2 h3 h4 hdev hcand hc hread hintf hnum hcontract
    refine open_ok_of_qualifies E usb n dap vids pids serial h1 h2 h3 h4 i c k
      ⟨dev, intf, hdev, hcand, hc, hread, hintf, ?_⟩
    rw [interface_qualifies_iff]
    exact ⟨Or.inr hnum.symm, hcontract, Or.inl hn⟩

/-- Witness of C3: with override 2, a device with a one-endpoint interface 2
and a conformant interface 0 makes open fail; a conformant interface 2 of
class 3 (not vendor specific) after a vendor-specific interface 0 is selected,
and the session is on interface 2. -/
theorem override_restricts_and_bypasses_witness :
    (2 : Int) ≠ -1 ∧ codes.ERROR_OK ≠ codes.ERROR_FAIL ∧
    (cmsis_dap_usb_open codes
      (probe_platform [example_interface 2 0xff 0 0 [⟨0x01, 2, 64⟩],
        example_interface 0 0xff 0 0 bulk_out_in])
      2 no_session [0] [0] none).ret = codes.ERROR_FAIL ∧
    (cmsis_dap_usb_open codes
      (probe_platform [example_interface 0 0xff 0 0 bulk_out_in,
        example_interface 2 3 1 1 bulk_out_in])
      2 no_session [0] [0] none).ret = codes.ERROR_OK ∧
    (∃ b, (cmsis_dap_usb_open codes
        (probe_platform [example_interface 0 0xff 0 0 bulk_out_in,
          example_interface 2 3 1 1 bulk_out_in])
        2 no_session [0] [0] none).dap.bdata = some b ∧ b.interface = 2) := by
  have hn : (2 : Int) ≠ -1 := by decide
  have hE : codes.ERROR_OK ≠ codes.ERROR_FAIL := by decide
  have hok := (override_restricts_and_bypasses codes
    (probe_platform [example_interface 0 0xff 0 0 bulk_out_in,
      example_interface 2 3 1 1 bulk_out_in])
    2 no_session [0] [0] none hn hE).2 0 0 1
    (example_device 0x0d28 0x0204 none [example_interface 0 0xff 0 0 bulk_out_in,
      example_interface 2 3 1 1 bulk_out_in])
    (example_interface 2 3 1 1 bulk_out_in) rfl (by decide) rfl
    (by
      intro d hd
      simp only [probe_platform, example_platform, List.mem_singleton] at hd
      subst hd
      exact ⟨rfl, fun _ => rfl⟩)
    rfl (by decide) (by decide) rfl rfl rfl (by decide)
  refine ⟨hn, hE, by decide, hok, ?_⟩
  obtain ⟨b, dev, c, intf, hb, -, -, hnum, hintf⟩ :=
    (override_restricts_and_bypasses codes
      (probe_platform [example_interface 0 0xff 0 0 bulk_out_in,
        example_interface 2 3 1 1 bulk_out_in])
      2 no_session [0] [0] none hn hE).1 hok
  exact ⟨b, hb, by rw [hnum, hintf]⟩

/-! ### C4 -/

/-- C4 (the code departs from the claim): with no override, a vendor-specific
interface with endpoints bulk OUT then bulk IN is selected although neither
the product string nor the interface string, both readable, contains
"CMSIS-DAP": the test of line 211 requires the override to be set inside the
branch where it is unset, so lines 212-228 never run. -/
theorem open_selects_interface_without_marker :
    (unmarked_device.libusb_get_string_descriptor_ascii 2).1 ≥ 0 ∧
    strstr (string_buffer (unmarked_device.libusb_get_string_descriptor_ascii 2).2 256)
      CMSIS_DAP = false ∧
    (unmarked_device.libusb_get_string_descriptor_ascii 4).1 ≥ 0 ∧
    strstr (string_buffer (unmarked_device.libusb_get_string_descriptor_ascii 4).2 256)
      CMSIS_DAP = false ∧
    (cmsis_dap_usb_open codes (example_platform [unmarked_device]) (-1) no_session [0] [0]
      none).ret = codes.ERROR_OK ∧
    (cmsis_dap_usb_open codes (example_platform [unmarked_device]) (-1) no_session [0] [0]
      none).dap = ⟨some ⟨7, 0, 0x01, 0x82, 0⟩, 65, []⟩ := by
  decide

/-! ### C5 -/

theorem array_get_cons_zero (x : Nat) (xs : List Nat) : array_get (x :: xs) 0 = x := rfl

theorem array_get_nil (i : Nat) : array_get [] i = 0 := rfl

/-- On C strings whose first argument is shorter than `n`, `strncmp` returns
zero exactly when the strings are equal. -/
theorem strncmp_eq_zero_iff :
    ∀ (n : Nat) (a b : List Nat), (∀ c ∈ a, c ≠ 0) → (∀ c ∈ b, c ≠ 0) → a.length < n →
      (strncmp a b n = 0 ↔ a = b) := by
  intro n
  induction n with
  | zero => intro a b _ _ h; exact absurd h (Nat.not_lt_zero _)
  | succ n ih =>
    intro a b ha hb hlen
    rw [strncmp]
    cases a with
    | nil =>
      cases b with
      | nil => simp [array_get_nil]
      | cons y ys =>
        have hy : y ≠ 0 := hb y (List.mem_cons_self y ys)
        have hy' : (0 : Nat) ≠ y := fun h => hy h.symm
        simp only [array_get_nil, array_get_cons_zero, ne_eq, hy', not_false_eq_true, if_true]
        constructor
        · intro h; exfalso; omega
        · intro h; exact absurd h (by simp)
    | cons x xs =>
      have hx : x ≠ 0 := ha x (List.mem_cons_self x xs)
      cases b with
      | nil =>
        simp only [array_get_nil, array_get_cons_zero, ne_eq, hx, not_false_eq_true, if_true]
        constructor
        · intro h; exfalso; omega
        · intro h; exact absurd h (by simp)
      | cons y ys =>
        simp only [array_get_cons_zero, List.tail_cons]
        by_cases hxy : x = y
        · subst hxy
          simp only [ne_eq, not_true_eq_false, if_false, hx, List.cons.injEq, true_and]
          exact ih xs ys (fun c hc => ha c (List.mem_cons_of_mem x hc))
            (fun c hc => hb c (List.mem_cons_of_mem x hc))
            (by simp only [List.length_cons] at hlen; omega)
        · simp only [ne_eq, hxy, not_false_eq_true, if_true, List.cons.injEq, false_and,
            iff_false]
          omega

theorem string_buffer_ne_zero (data : List Nat) (size : Nat) :
    ∀ c ∈ string_buffer data size, c ≠ 0 := by
  intro c hc
  have := List.mem_takeWhile_imp hc
  simpa using this

theorem string_buffer_length_lt (data : List Nat) (size : Nat) (h : 0 < size) :
    (string_buffer data size).length < size := by
  unfold string_buffer
  have h1 := (List.takeWhile_sublist (l := data.take (size - 1))
    (fun c => decide (c ≠ 0))).length_le
  have h2 : (data.take (size - 1)).length ≤ size - 1 := by
    rw [List.length_take]; exact Nat.min_le_left _ _
  omega

theorem serial_matches_some_iff (dev : usb_device) (dev_desc : libusb_device_descriptor)
    (s : List Nat) (hs : ∀ c ∈ s, c ≠ 0) :
    serial_matches dev dev_desc (some s) = true ↔
      (0 < dev_desc.iSerialNumber ∧
        0 ≤ (dev.libusb_get_string_descriptor_ascii dev_desc.iSerialNumber).1 ∧
        string_buffer (dev.libusb_get_string_descriptor_ascii dev_desc.iSerialNumber).2 256
          = s) := by
  unfold serial_matches
  simp only [Bool.and_eq_true, decide_eq_true_eq, and_assoc]
  rw [strncmp_eq_zero_iff 256 _ s (string_buffer_ne_zero _ _) hs
    (string_buffer_length_lt _ _ (by decide))]

/-- C5: for every requested serial string `s` (a C string: no NUL among its
bytes), if `cmsis_dap_usb_open` returns success then the selected device
declares a serial-number string, the string was read successfully, and it
equals `s`; and if no device whose identity matches the filter has a readable
serial string equal to `s`, open returns the generic failure code and leaves
`dap` as it was (no session is stored). -/
theorem open_serial_exact (E : error_codes) (usb : usb_platform) (o : Int)
    (dap : cmsis_dap) (vids pids : List Nat) (s : List Nat)
    (hs : ∀ c ∈ s, c ≠ 0) (hE : E.ERROR_OK ≠ E.ERROR_FAIL) :
    ((cmsis_dap_usb_open E usb o dap vids pids (some s)).ret = E.ERROR_OK →
      ∃ (b : cmsis_dap_backend_data) (dev : usb_device),
        (cmsis_dap_usb_open E usb o dap vids pids (some s)).dap.bdata = some b ∧
        usb.device_list[b.dev_handle]? = some dev ∧
        0 < dev.libusb_get_device_descriptor.2.iSerialNumber ∧
        0 ≤ (dev.libusb_get_string_descriptor_ascii
          dev.libusb_get_device_descriptor.2.iSerialNumber).1 ∧
        string_buffer (dev.libusb_get_string_descriptor_ascii
          dev.libusb_get_device_descriptor.2.iSerialNumber).2 256 = s) ∧
    ((∀ dev ∈ usb.device_list,
        id_match vids pids dev.libusb_get_device_descriptor.2.idVendor
          dev.libusb_get_device_descriptor.2.idProduct = true →
        ¬ (0 < dev.libusb_get_device_descriptor.2.iSerialNumber ∧
          0 ≤ (dev.libusb_get_string_descriptor_ascii
            dev.libusb_get_device_descriptor.2.iSerialNumber).1 ∧
          string_buffer (dev.libusb_get_string_descriptor_ascii
            dev.libusb_get_device_descriptor.2.iSerialNumber).2 256 = s)) →
      (cmsis_dap_usb_open E usb o dap vids pids (some s)).ret = E.ERROR_FAIL ∧
      (cmsis_dap_usb_open E usb o dap vids pids (some s)).dap = dap) := by
  have key : (cmsis_dap_usb_open E usb o dap vids pids (some s)).ret = E.ERROR_OK →
      ∃ (b : cmsis_dap_backend_data) (dev : usb_device),
        (cmsis_dap_usb_open E usb o dap vids pids (some s)).dap.bdata = some b ∧
        usb.device_list[b.dev_handle]? = some dev ∧
        id_match vids pids dev.libusb_get_device_descriptor.2.idVendor
          dev.libusb_get_device_descriptor.2.idProduct = true ∧
        0 < dev.libusb_get_device_descriptor.2.iSerialNumber ∧
        0 ≤ (dev.libusb_get_string_descriptor_ascii
          dev.libusb_get_device_descriptor.2.iSerialNumber).1 ∧
        string_buffer (dev.libusb_get_string_descriptor_ascii
          dev.libusb_get_device_descriptor.2.iSerialNumber).2 256 = s := by
    intro h
    obtain ⟨i, c, k, dev, intf, hdev, hcand, -, -, -, -, hdap, -⟩ :=
      open_ok_spec E usb o dap vids pids (some s) hE h
    unfold device_candidate at hcand
    simp only [Bool.and_eq_true, decide_eq_true_eq] at hcand
    obtain ⟨⟨⟨-, hid⟩, -⟩, hser⟩ := hcand
    rw [serial_matches_some_iff dev _ s hs] at hser
    exact ⟨_, dev, by rw [hdap]; rfl, hdev, hid, hser⟩
  constructor
  · intro h
    obtain ⟨b, dev, hb, hdev, -, hser⟩ := key h
    exact ⟨b, dev, hb, hdev, hser⟩
  · intro hall
    rcases open_ret_cases E usb o dap vids pids (some s) with hok | hfail
    · obtain ⟨b, dev, -, hdev, hid, hser⟩ := key hok
      exact absurd hser (hall dev (List.getElem?_mem hdev) hid)
    · refine ⟨hfail.1, ?_⟩
      rw [hfail.2]
      apply open_failure_of_no_selection
      intro dev hdev
      rw [pick_device_eq_none_iff]
      left
      by_contra hcand
      rw [Bool.not_eq_false] at hcand
      unfold device_candidate at hcand
      simp only [Bool.and_eq_true, decide_eq_true_eq] at hcand
      obtain ⟨⟨⟨-, hid⟩, -⟩, hser⟩ := hcand
      rw [serial_matches_some_iff dev _ s hs] at hser
      exact hall dev hdev hid hser

/-- Witness of C5: with filter (0x0d28, 0x0204) and a device of that identity
whose serial is "XYZ999", requesting "ABC123" gives the generic failure and no
session, and requesting "XYZ999" selects a device whose serial reads
"XYZ999". -/
theorem open_serial_exact_witness :
    (∀ c ∈ ABC123, c ≠ 0) ∧ (∀ c ∈ XYZ999, c ≠ 0) ∧ codes.ERROR_OK ≠ codes.ERROR_FAIL ∧
    ((cmsis_dap_usb_open codes serial_platform (-1) no_session [0x0d28, 0] [0x0204, 0]
        (some ABC123)).ret = codes.ERROR_FAIL ∧
      (cmsis_dap_usb_open codes serial_platform (-1) no_session [0x0d28, 0] [0x0204, 0]
        (some ABC123)).dap = no_session) ∧
    (cmsis_dap_usb_open codes serial_platform (-1) no_session [0x0d28, 0] [0x0204, 0]
        (some XYZ999)).ret = codes.ERROR_OK ∧
    (∃ dev ∈ serial_platform.device_list,
      string_buffer (dev.libusb_get_string_descriptor_ascii
        dev.libusb_get_device_descriptor.2.iSerialNumber).2 256 = XYZ999) := by
  have h1 : ∀ c ∈ ABC123, c ≠ 0 := by decide
  have h2 : ∀ c ∈ XYZ999, c ≠ 0 := by decide
  have hE : codes.ERROR_OK ≠ codes.ERROR_FAIL := by decide
  have hok : (cmsis_dap_usb_open codes serial_platform (-1) no_session [0x0d28, 0]
      [0x0204, 0] (some XYZ999)).ret = codes.ERROR_OK := by decide
  refine ⟨h1, h2, hE, ?_, hok, ?_⟩
  · apply (open_serial_exact codes serial_platform (-1) no_session [0x0d28, 0] [0x0204, 0]
      ABC123 h1 hE).2
    intro dev hdev _
    simp only [serial_platform, example_platform, List.mem_singleton] at hdev
    subst hdev
    decide
  · obtain ⟨b, dev, -, hdev, -, -, hser⟩ :=
      (open_serial_exact codes serial_platform (-1) no_session [0x0d28, 0] [0x0204, 0]
        XYZ999 h2 hE).1 hok
    exact ⟨dev, List.getElem?_mem hdev, hser⟩

/-! ### The first interface that passes the tests of the loops -/

/-- Whenever `cmsis_dap_usb_open` returns success, the session it stores
describes the first interface, in device-list order, then configuration
order, then interface order (first alternate setting), that passes the tests
the loops apply (`qualifies_at`, which leaves the marker condition out): the
handle is that device's, `interface` is its `bInterfaceNumber`, `ep_out` and
`ep_in` are the addresses of its `endpoint[0]` and `endpoint[1]`,
`dap->packet_size` is `wMaxPacketSize` of its `endpoint[0]` plus one, and the
packet buffer is untouched. -/
theorem open_stores_first_tested (E : error_codes) (usb : usb_platform) (o : Int)
    (dap : cmsis_dap) (vids pids : List Nat) (serial : Option (List Nat))
    (hE : E.ERROR_OK ≠ E.ERROR_FAIL)
    (h : (cmsis_dap_usb_open E usb o dap vids pids serial).ret = E.ERROR_OK) :
    ∃ (i c k : Nat) (dev : usb_device) (intf : libusb_interface)
      (ep0 ep1 : libusb_endpoint_descriptor) (rest : List libusb_endpoint_descriptor),
      qualifies_at usb o vids pids serial i c k ∧
      usb.device_list[i]? = some dev ∧
      (dev.libusb_get_config_descriptor c).2.interface[k]? = some intf ∧
      intf.altsetting_0.endpoint = ep0 :: ep1 :: rest ∧
      (cmsis_dap_usb_open E usb o dap vids pids serial).dap =
        ⟨some ⟨usb.usb_ctx, i, ep0.bEndpointAddress, ep1.bEndpointAddress,
            (intf.altsetting_0.bInterfaceNumber : Int)⟩,
          ep0.wMaxPacketSize + 1, dap.packet_buffer⟩ ∧
      ∀ i' c' k', qualifies_at usb o vids pids serial i' c' k' →
        i < i' ∨ (i = i' ∧ (c < c' ∨ (c = c' ∧ k ≤ k'))) := by
  obtain ⟨i, c, k, dev, intf, hdev, hcand, hc, hread, hintf, hq, hdap, hfirst⟩ :=
    open_ok_spec E usb o dap vids pids serial hE h
  have hq' := hq
  rw [interface_qualifies_iff] at hq'
  obtain ⟨-, hcontract, -⟩ := hq'
  rw [endpoint_contract_iff] at hcontract
  obtain ⟨ep0, ep1, rest, hep, -⟩ := hcontract
  refine ⟨i, c, k, dev, intf, ep0, ep1, rest, ⟨dev, intf, hdev, hcand, hc, hread, hintf, hq⟩,
    hdev, hintf, hep, ?_, hfirst⟩
  rw [hdap]
  simp [stored_session, selection_of, libusb_interface_descriptor.endpoint_at, hep]

/-! ### The tests of the specification and the tests of the code -/

/-- C6 (the code departs from the claim): with no override, a device whose
product string reads "PROBE" has two vendor-specific interfaces with
endpoints bulk OUT then bulk IN: interface 0, whose string reads "DEBUG", and
interface 1, whose string reads "CMSIS-DAP". Interface 0 does not qualify as
section 4.2 step 4 words it and interface 1 does, so interface 1 is the first
qualifying interface; `cmsis_dap_usb_open` returns success with the session
of interface 0 (endpoints 0x01 and 0x82, packet size 65), not that of
interface 1 (endpoints 0x03 and 0x84, packet size 513). This is the defect of
line 211 recorded for C4. On the scenario of the claim, a single device
whose interface 0 carries the marker, the code gives the session the claim
states. -/
theorem open_stores_unmarked_interface :
    device_candidate [0] [0] none two_interface_device = true ∧
    (two_interface_device.libusb_get_config_descriptor 0).1 = 0 ∧
    (two_interface_device.libusb_get_config_descriptor 0).2.interface =
      [debug_interface, marked_interface] ∧
    interface_qualifies_spec (-1) two_interface_device debug_interface.altsetting_0 = false ∧
    interface_qualifies_spec (-1) two_interface_device marked_interface.altsetting_0 = true ∧
    (cmsis_dap_usb_open codes (example_platform [two_interface_device]) (-1) no_session [0] [0]
      none).ret = codes.ERROR_OK ∧
    (cmsis_dap_usb_open codes (example_platform [two_interface_device]) (-1) no_session [0] [0]
      none).dap = ⟨some ⟨7, 0, 0x01, 0x82, 0⟩, 65, []⟩ ∧
    (cmsis_dap_usb_open codes (example_platform [two_interface_device]) (-1) no_session [0] [0]
      none).dap ≠ ⟨some ⟨7, 0, 0x03, 0x84, 1⟩, 513, []⟩ ∧
    passes_selection_spec (-1) [0] [0] none marked_device = true ∧
    (cmsis_dap_usb_open codes (example_platform [marked_device]) (-1) no_session [0] [0]
      none).ret = codes.ERROR_OK ∧
    (cmsis_dap_usb_open codes (example_platform [marked_device]) (-1) no_session [0] [0]
      none).dap = ⟨some ⟨7, 0, 0x01, 0x82, 0⟩, 65, []⟩ := by
  decide

/-! ### C7 -/

theorem memset_getElem?_fill (buf : List Nat) (start c : Nat) (n : Int) (i : Nat)
    (h1 : start ≤ buf.length) (h2 : start ≤ i) (h3 : i < start + n.toNat) :
    (memset buf start c n)[i]? = some c := by
  unfold memset
  have hl : (buf.take start).length = start := by
    rw [List.length_take]; exact Nat.min_eq_left h1
  rw [List.append_assoc, List.getElem?_append_right (by omega)]
  rw [List.getElem?_append_left (by rw [List.length_replicate]; omega)]
  rw [List.getElem?_replicate]
  rw [if_pos (by omega)]

theorem memset_getElem?_before (buf : List Nat) (start c : Nat) (n : Int) (i : Nat)
    (h1 : start ≤ buf.length) (h2 : i < start) :
    (memset buf start c n)[i]? = buf[i]? := by
  unfold memset
  have hl : (buf.take start).length = start := by
    rw [List.length_take]; exact Nat.min_eq_left h1
  rw [List.append_assoc, List.getElem?_append_left (by omega)]
  rw [List.getElem?_take_of_lt h2]

theorem libusb_bulk_transfer_memory_length (usb_bulk : bulk_request → bulk_reply)
    (h ep : Nat) (memory : List Nat) (length timeout : Int) :
    memory.length ≤ (libusb_bulk_transfer usb_bulk h ep memory length timeout).memory.length := by
  unfold libusb_bulk_transfer
  by_cases hd : ep &&& 0x80 = LIBUSB_ENDPOINT_IN
  · simp only [hd, if_true, List.length_append, List.length_drop]
    omega
  · simp only [hd, if_false]
    exact le_rfl

/-- C7: for every session with packet size `P` and every prior buffer
content, when the bulk transfer of `cmsis_dap_usb_read` succeeds reporting `K`
bytes with `0 ≤ K ≤ P - 1`, the call returns `K` and every byte of the packet
buffer at an index `i` with `K ≤ i < P` is zero afterwards. -/
theorem read_zero_fills_tail (E : error_codes) (usb_bulk : bulk_request → bulk_reply)
    (dap : cmsis_dap) (b : cmsis_dap_backend_data) (timeout_ms : Int)
    (hb : dap.bdata = some b)
    (hlen : dap.packet_size ≤ dap.packet_buffer.length)
    (herr : (libusb_bulk_transfer usb_bulk b.dev_handle b.ep_in dap.packet_buffer
      ((dap.packet_size : Int) - 1) timeout_ms).err = 0)
    (hK : ((libusb_bulk_transfer usb_bulk b.dev_handle b.ep_in dap.packet_buffer
      ((dap.packet_size : Int) - 1) timeout_ms).transferred : Int) ≤
        (dap.packet_size : Int) - 1) :
    ∃ r, cmsis_dap_usb_read E usb_bulk dap timeout_ms = some r ∧
      r.ret = ((libusb_bulk_transfer usb_bulk b.dev_handle b.ep_in dap.packet_buffer
        ((dap.packet_size : Int) - 1) timeout_ms).transferred : Int) ∧
      ∀ i, (libusb_bulk_transfer usb_bulk b.dev_handle b.ep_in dap.packet_buffer
          ((dap.packet_size : Int) - 1) timeout_ms).transferred ≤ i →
        i < dap.packet_size → r.dap.packet_buffer[i]? = some 0 := by
  have hm := libusb_bulk_transfer_memory_length usb_bulk b.dev_handle b.ep_in
    dap.packet_buffer ((dap.packet_size : Int) - 1) timeout_ms
  unfold cmsis_dap_usb_read
  rw [hb]
  simp only [herr, ne_eq, not_true_eq_false, if_false]
  refine ⟨_, rfl, rfl, ?_⟩
  intro i h1 h2
  exact memset_getElem?_fill _ _ _ _ _ (by omega) h1 (by omega)

/-- Witness of C7: a read of one byte into a buffer of packet size 4 that
held 0xaa 0xbb 0xcc 0xdd returns 1 and leaves bytes 1, 2 and 3 zero. -/
theorem read_zero_fills_tail_witness :
    (example_session [0xaa, 0xbb, 0xcc, 0xdd]).bdata = some ⟨7, 0, 0x01, 0x82, 0⟩ ∧
    (example_session [0xaa, 0xbb, 0xcc, 0xdd]).packet_size ≤
      (example_session [0xaa, 0xbb, 0xcc, 0xdd]).packet_buffer.length ∧
    ∃ r, cmsis_dap_usb_read codes one_byte_reply (example_session [0xaa, 0xbb, 0xcc, 0xdd])
        100 = some r ∧
      r.ret = 1 ∧
      ∀ i, 1 ≤ i → i < 4 → r.dap.packet_buffer[i]? = some 0 :=
  ⟨rfl, by decide,
    read_zero_fills_tail codes one_byte_reply (example_session [0xaa, 0xbb, 0xcc, 0xdd])
      ⟨7, 0, 0x01, 0x82, 0⟩ 100 rfl (by decide) (by decide) (by decide)⟩

/-! ### C8 -/

/-- C8 fails as stated: a read that receives the single byte 0x5a stores it
in byte 0 of the packet buffer, which is therefore not zero, and byte 1 is
zero, not the byte received. -/
theorem read_stores_at_offset_zero_example :
    (cmsis_dap_usb_read codes one_byte_reply (example_session [0xaa, 0xbb, 0xcc, 0xdd])
      100).map (fun r => (r.ret, r.dap.packet_buffer)) = some (1, [0x5a, 0, 0, 0]) ∧
    ¬ ((cmsis_dap_usb_read codes one_byte_reply (example_session [0xaa, 0xbb, 0xcc, 0xdd])
      100).map (fun r => r.dap.packet_buffer[0]?) = some (some 0)) ∧
    ¬ ((cmsis_dap_usb_read codes one_byte_reply (example_session [0xaa, 0xbb, 0xcc, 0xdd])
      100).map (fun r => r.dap.packet_buffer[1]?) = some (some 0x5a)) := by
  decide

/-- C8 as amended: for every successful `cmsis_dap_usb_read` on a session
whose `ep_in` is an IN endpoint address, the `K` bytes received from the IN
endpoint are stored in the packet buffer starting at offset 0: byte `i` of the
buffer is the `i`-th byte received for every `i < K` (so byte 0 is the first
byte received when `K ≥ 1`). -/
theorem read_stores_from_offset_zero (E : error_codes)
    (usb_bulk : bulk_request → bulk_reply) (dap : cmsis_dap) (b : cmsis_dap_backend_data)
    (timeout_ms : Int) (hb : dap.bdata = some b)
    (hin : b.ep_in &&& 0x80 = LIBUSB_ENDPOINT_IN)
    (herr : (usb_bulk ⟨b.dev_handle, b.ep_in, [], (dap.packet_size : Int) - 1,
      timeout_ms⟩).err = 0)
    (hdata : (usb_bulk ⟨b.dev_handle, b.ep_in, [], (dap.packet_size : Int) - 1,
        timeout_ms⟩).data.length =
      (usb_bulk ⟨b.dev_handle, b.ep_in, [], (dap.packet_size : Int) - 1,
        timeout_ms⟩).transferred) :
    ∃ r, cmsis_dap_usb_read E usb_bulk dap timeout_ms = some r ∧
      r.ret = ((usb_bulk ⟨b.dev_handle, b.ep_in, [], (dap.packet_size : Int) - 1,
        timeout_ms⟩).transferred : Int) ∧
      ∀ i, i < (usb_bulk ⟨b.dev_handle, b.ep_in, [], (dap.packet_size : Int) - 1,
          timeout_ms⟩).transferred →
        r.dap.packet_buffer[i]? =
          (usb_bulk ⟨b.dev_handle, b.ep_in, [], (dap.packet_size : Int) - 1,
            timeout_ms⟩).data[i]? := by
  unfold cmsis_dap_usb_read
  rw [hb]
  simp only [libusb_bulk_transfer, hin, if_true, herr, ne_eq, not_true_eq_false, if_false]
  refine ⟨_, rfl, rfl, ?_⟩
  intro i hi
  rw [memset_getElem?_before _ _ _ _ _ (by simp only [List.length_append]; omega) hi]
  rw [List.getElem?_append_left (by omega)]

/-- Witness of C8 as amended: the byte 0x5a received is byte 0 of the packet
buffer after the read. -/
theorem read_stores_from_offset_zero_witness :
    (example_session [0xaa, 0xbb, 0xcc, 0xdd]).bdata = some ⟨7, 0, 0x01, 0x82, 0⟩ ∧
    (0x82 : Nat) &&& 0x80 = LIBUSB_ENDPOINT_IN ∧
    ∃ r, cmsis_dap_usb_read codes one_byte_reply (example_session [0xaa, 0xbb, 0xcc, 0xdd])
        100 = some r ∧
      r.ret = 1 ∧
      ∀ i, i < 1 → r.dap.packet_buffer[i]? = [0x5a][i]? :=
  ⟨rfl, by decide,
    read_stores_from_offset_zero codes one_byte_reply
      (example_session [0xaa, 0xbb, 0xcc, 0xdd]) ⟨7, 0, 0x01, 0x82, 0⟩ 100 rfl (by decide)
      (by decide) (by decide)⟩

/-! ### C9 -/

theorem cmsis_dap_usb_write_out (E : error_codes) (usb_bulk : bulk_request → bulk_reply)
    (dap : cmsis_dap) (b : cmsis_dap_backend_data) (txlen timeout_ms : Int)
    (hb : dap.bdata = some b) (hout : b.ep_out &&& 0x80 = LIBUSB_ENDPOINT_OUT) :
    cmsis_dap_usb_write E usb_bulk dap txlen timeout_ms =
      some ⟨if (usb_bulk ⟨b.dev_handle, b.ep_out,
            (dap.packet_buffer.drop 1).take (txlen - 1).toNat, txlen - 1, timeout_ms⟩).err ≠ 0
          then
            if (usb_bulk ⟨b.dev_handle, b.ep_out,
              (dap.packet_buffer.drop 1).take (txlen - 1).toNat, txlen - 1,
              timeout_ms⟩).err = LIBUSB_ERROR_TIMEOUT
            then E.ERROR_TIMEOUT_REACHED else E.ERROR_FAIL
          else ((usb_bulk ⟨b.dev_handle, b.ep_out,
            (dap.packet_buffer.drop 1).take (txlen - 1).toNat, txlen - 1,
            timeout_ms⟩).transferred : Int),
        ⟨dap.bdata, dap.packet_size, dap.packet_buffer.take 1 ++ dap.packet_buffer.drop 1⟩,
        [usb_call.libusb_bulk_transfer ⟨b.dev_handle, b.ep_out,
          (dap.packet_buffer.drop 1).take (txlen - 1).toNat, txlen - 1, timeout_ms⟩]⟩ := by
  have hd : ¬ (b.ep_out &&& 0x80 = LIBUSB_ENDPOINT_IN) := by
    rw [hout]; decide
  unfold cmsis_dap_usb_write
  rw [hb]
  simp only [libusb_bulk_transfer, hd, if_false]
  split_ifs <;> rfl

/-- C9: for every packet buffer and every length `txlen ≥ 1` within it,
`cmsis_dap_usb_write` on a session whose `ep_out` is an OUT endpoint address
makes one bulk transfer, on `ep_out`, of exactly the `txlen - 1` bytes at
buffer indices 1 to `txlen - 1`, in order; on platform success it returns the
platform's transferred count; and a buffer that differs only in byte 0 gives
the same transfer and the same return value. -/
theorem write_skips_byte_zero (E : error_codes) (usb_bulk : bulk_request → bulk_reply)
    (dap : cmsis_dap) (b : cmsis_dap_backend_data) (txlen timeout_ms : Int)
    (hb : dap.bdata = some b)
    (hout : b.ep_out &&& 0x80 = LIBUSB_ENDPOINT_OUT)
    (htx : 1 ≤ txlen) (hlen : txlen ≤ (dap.packet_buffer.length : Int)) :
    ∃ r req, cmsis_dap_usb_write E usb_bulk dap txlen timeout_ms = some r ∧
      r.calls = [usb_call.libusb_bulk_transfer req] ∧
      req.dev_handle = b.dev_handle ∧ req.endpoint = b.ep_out ∧
      (req.data.length : Int) = txlen - 1 ∧
      (∀ j : Nat, (j : Int) < txlen - 1 → req.data[j]? = dap.packet_buffer[j + 1]?) ∧
      ((usb_bulk req).err = 0 → r.ret = ((usb_bulk req).transferred : Int)) ∧
      ∀ dap2 : cmsis_dap, dap2.bdata = dap.bdata →
        dap2.packet_buffer.drop 1 = dap.packet_buffer.drop 1 →
        ∃ r2, cmsis_dap_usb_write E usb_bulk dap2 txlen timeout_ms = some r2 ∧
          r2.ret = r.ret ∧ r2.calls = r.calls := by
  have hw := cmsis_dap_usb_write_out E usb_bulk dap b txlen timeout_ms hb hout
  refine ⟨_, _, hw, rfl, rfl, rfl, ?_, ?_, ?_, ?_⟩
  · simp only [List.length_take, List.length_drop]
    omega
  · intro j hj
    rw [List.getElem?_take_of_lt (by omega), List.getElem?_drop, Nat.add_comm]
  · intro h0
    simp only [h0, ne_eq, not_true_eq_false, if_false]
  · intro dap2 h1 h2
    have hw2 := cmsis_dap_usb_write_out E usb_bulk dap2 b txlen timeout_ms (h1.trans hb) hout
    rw [h2] at hw2
    exact ⟨_, hw2, rfl, rfl⟩

/-- Witness of C9: a write of length 4 from the buffer 0xaa 0xbb 0xcc 0xdd
transfers the three bytes 0xbb 0xcc 0xdd on endpoint 0x01. -/
theorem write_skips_byte_zero_witness :
    (example_session [0xaa, 0xbb, 0xcc, 0xdd]).bdata = some ⟨7, 0, 0x01, 0x82, 0⟩ ∧
    (0x01 : Nat) &&& 0x80 = LIBUSB_ENDPOINT_OUT ∧ (1 : Int) ≤ 4 ∧
    (4 : Int) ≤ ((example_session [0xaa, 0xbb, 0xcc, 0xdd]).packet_buffer.length : Int) ∧
    (cmsis_dap_usb_write codes one_byte_reply (example_session [0xaa, 0xbb, 0xcc, 0xdd]) 4
      100).map (fun r => r.calls) =
        some [usb_call.libusb_bulk_transfer ⟨0, 0x01, [0xbb, 0xcc, 0xdd], 3, 100⟩] ∧
    ∃ r req, cmsis_dap_usb_write codes one_byte_reply
        (example_session [0xaa, 0xbb, 0xcc, 0xdd]) 4 100 = some r ∧
      r.calls = [usb_call.libusb_bulk_transfer req] ∧
      (req.data.length : Int) = 4 - 1 := by
  refine ⟨rfl, by decide, by decide, by decide, by decide, ?_⟩
  obtain ⟨r, req, h1, h2, -, -, h3, -⟩ :=
    write_skips_byte_zero codes one_byte_reply (example_session [0xaa, 0xbb, 0xcc, 0xdd])
      ⟨7, 0, 0x01, 0x82, 0⟩ 4 100 rfl (by decide) (by decide) (by decide)
  exact ⟨r, req, h1, h2, h3⟩

/-! ### C10 -/

theorem cmsis_dap_usb_read_eq (E : error_codes) (usb_bulk : bulk_request → bulk_reply)
    (dap : cmsis_dap) (b : cmsis_dap_backend_data) (timeout_ms : Int)
    (hb : dap.bdata = some b) (x : bulk_outcome)
    (hx : libusb_bulk_transfer usb_bulk b.dev_handle b.ep_in dap.packet_buffer
      ((dap.packet_size : Int) - 1) timeout_ms = x) :
    cmsis_dap_usb_read E usb_bulk dap timeout_ms =
      some ⟨if x.err ≠ 0 then
            if x.err = LIBUSB_ERROR_TIMEOUT then E.ERROR_TIMEOUT_REACHED else E.ERROR_FAIL
          else (x.transferred : Int),
        ⟨dap.bdata, dap.packet_size,
          if x.err ≠ 0 then x.memory
          else memset x.memory x.transferred 0
            ((dap.packet_size : Int) - (x.transferred : Int))⟩,
        [x.call]⟩ := by
  unfold cmsis_dap_usb_read
  rw [hb]
  simp only [hx]
  split_ifs <;> rfl

theorem cmsis_dap_usb_write_eq (E : error_codes) (usb_bulk : bulk_request → bulk_reply)
    (dap : cmsis_dap) (b : cmsis_dap_backend_data) (txlen timeout_ms : Int)
    (hb : dap.bdata = some b) (x : bulk_outcome)
    (hx : libusb_bulk_transfer usb_bulk b.dev_handle b.ep_out (dap.packet_buffer.drop 1)
      (txlen - 1) timeout_ms = x) :
    cmsis_dap_usb_write E usb_bulk dap txlen timeout_ms =
      some ⟨if x.err ≠ 0 then
            if x.err = LIBUSB_ERROR_TIMEOUT then E.ERROR_TIMEOUT_REACHED else E.ERROR_FAIL
          else (x.transferred : Int),
        ⟨dap.bdata, dap.packet_size, dap.packet_buffer.take 1 ++ x.memory⟩,
        [x.call]⟩ := by
  unfold cmsis_dap_usb_write
  rw [hb]
  simp only [hx]
  split_ifs <;> rfl

/-- C10: for both `cmsis_dap_usb_read` and `cmsis_dap_usb_write`, with result
codes that are negative and distinct: the call returns the timeout-reached
code if and only if the bulk transfer reported `LIBUSB_ERROR_TIMEOUT`; every
other non-zero platform error yields the generic failure code; a successful
transfer returns the non-negative transferred count, which is neither code;
and in both error cases the backend data (handle, endpoints, interface) and
the packet size are unchanged. -/
theorem transfer_result_codes (E : error_codes) (usb_bulk : bulk_request → bulk_reply)
    (dap : cmsis_dap) (b : cmsis_dap_backend_data) (txlen timeout_ms : Int)
    (hb : dap.bdata = some b)
    (hF : E.ERROR_FAIL < 0) (hT : E.ERROR_TIMEOUT_REACHED < 0)
    (hne : E.ERROR_FAIL ≠ E.ERROR_TIMEOUT_REACHED) :
    (∃ r, cmsis_dap_usb_read E usb_bulk dap timeout_ms = some r ∧
      (r.ret = E.ERROR_TIMEOUT_REACHED ↔
        (libusb_bulk_transfer usb_bulk b.dev_handle b.ep_in dap.packet_buffer
          ((dap.packet_size : Int) - 1) timeout_ms).err = LIBUSB_ERROR_TIMEOUT) ∧
      ((libusb_bulk_transfer usb_bulk b.dev_handle b.ep_in dap.packet_buffer
          ((dap.packet_size : Int) - 1) timeout_ms).err ≠ 0 →
        (libusb_bulk_transfer usb_bulk b.dev_handle b.ep_in dap.packet_buffer
          ((dap.packet_size : Int) - 1) timeout_ms).err ≠ LIBUSB_ERROR_TIMEOUT →
        r.ret = E.ERROR_FAIL) ∧
      ((libusb_bulk_transfer usb_bulk b.dev_handle b.ep_in dap.packet_buffer
          ((dap.packet_size : Int) - 1) timeout_ms).err = 0 →
        0 ≤ r.ret ∧ r.ret ≠ E.ERROR_FAIL ∧ r.ret ≠ E.ERROR_TIMEOUT_REACHED) ∧
      ((libusb_bulk_transfer usb_bulk b.dev_handle b.ep_in dap.packet_buffer
          ((dap.packet_size : Int) - 1) timeout_ms).err ≠ 0 →
        r.dap.bdata = dap.bdata ∧ r.dap.packet_size = dap.packet_size)) ∧
    (∃ w, cmsis_dap_usb_write E usb_bulk dap txlen timeout_ms = some w ∧
      (w.ret = E.ERROR_TIMEOUT_REACHED ↔
        (libusb_bulk_transfer usb_bulk b.dev_handle b.ep_out (dap.packet_buffer.drop 1)
          (txlen - 1) timeout_ms).err = LIBUSB_ERROR_TIMEOUT) ∧
      ((libusb_bulk_transfer usb_bulk b.dev_handle b.ep_out (dap.packet_buffer.drop 1)
          (txlen - 1) timeout_ms).err ≠ 0 →
        (libusb_bulk_transfer usb_bulk b.dev_handle b.ep_out (dap.packet_buffer.drop 1)
          (txlen - 1) timeout_ms).err ≠ LIBUSB_ERROR_TIMEOUT →
        w.ret = E.ERROR_FAIL) ∧
      ((libusb_bulk_transfer usb_bulk b.dev_handle b.ep_out (dap.packet_buffer.drop 1)
          (txlen - 1) timeout_ms).err = 0 →
        0 ≤ w.ret ∧ w.ret ≠ E.ERROR_FAIL ∧ w.ret ≠ E.ERROR_TIMEOUT_REACHED) ∧
      ((libusb_bulk_transfer usb_bulk b.dev_handle b.ep_out (dap.packet_buffer.drop 1)
          (txlen - 1) timeout_ms).err ≠ 0 →
        w.dap.bdata = dap.bdata ∧ w.dap.packet_size = dap.packet_size)) := by
  have hto : LIBUSB_ERROR_TIMEOUT ≠ 0 := by decide
  constructor
  · generalize hx : libusb_bulk_transfer usb_bulk b.dev_handle b.ep_in dap.packet_buffer
      ((dap.packet_size : Int) - 1) timeout_ms = x
    refine ⟨_, cmsis_dap_usb_read_eq E usb_bulk dap b timeout_ms hb x hx, ?_⟩
    by_cases h0 : x.err = 0
    · have h1 : x.err ≠ LIBUSB_ERROR_TIMEOUT := by rw [h0]; exact hto.symm
      simp only [h0, ne_eq, not_true_eq_false, if_false, false_implies, true_implies,
        true_and, and_true]
      have hpos : (0 : Int) ≤ (x.transferred : Int) := Int.ofNat_nonneg _
      refine ⟨⟨fun h => ?_, fun h => absurd h hto.symm⟩, hpos, ?_, ?_⟩ <;> omega
    · by_cases h1 : x.err = LIBUSB_ERROR_TIMEOUT
      · simp [h0, h1, hto]
      · simp only [h0, h1, ne_eq, not_false_eq_true, if_true, if_false, true_implies,
          false_implies, and_true, true_and, iff_false]
        exact hne
  · generalize hx : libusb_bulk_transfer usb_bulk b.dev_handle b.ep_out
      (dap.packet_buffer.drop 1) (txlen - 1) timeout_ms = x
    refine ⟨_, cmsis_dap_usb_write_eq E usb_bulk dap b txlen timeout_ms hb x hx, ?_⟩
    by_cases h0 : x.err = 0
    · have h1 : x.err ≠ LIBUSB_ERROR_TIMEOUT := by rw [h0]; exact hto.symm
      simp only [h0, ne_eq, not_true_eq_false, if_false, false_implies, true_implies,
        true_and, and_true]
      have hpos : (0 : Int) ≤ (x.transferred : Int) := Int.ofNat_nonneg _
      refine ⟨⟨fun h => ?_, fun h => absurd h hto.symm⟩, hpos, ?_, ?_⟩ <;> omega
    · by_cases h1 : x.err = LIBUSB_ERROR_TIMEOUT
      · simp [h0, h1, hto]
      · simp only [h0, h1, ne_eq, not_false_eq_true, if_true, if_false, true_implies,
          false_implies, and_true, true_and, iff_false]
        exact hne

/-- Witness of C10: when every bulk transfer times out, a write of the whole
packet and the read that follows both return the timeout-reached code, not
the generic failure code. -/
theorem transfer_result_codes_witness :
    (example_session [0xaa, 0xbb, 0xcc, 0xdd]).bdata = some ⟨7, 0, 0x01, 0x82, 0⟩ ∧
    codes.ERROR_FAIL < 0 ∧ codes.ERROR_TIMEOUT_REACHED < 0 ∧
    codes.ERROR_FAIL ≠ codes.ERROR_TIMEOUT_REACHED ∧
    (∃ r, cmsis_dap_usb_read codes timeout_reply (example_session [0xaa, 0xbb, 0xcc, 0xdd])
        10 = some r ∧ r.ret = codes.ERROR_TIMEOUT_REACHED ∧ r.ret ≠ codes.ERROR_FAIL) ∧
    (∃ w, cmsis_dap_usb_write codes timeout_reply (example_session [0xaa, 0xbb, 0xcc, 0xdd])
        4 10 = some w ∧ w.ret = codes.ERROR_TIMEOUT_REACHED ∧ w.ret ≠ codes.ERROR_FAIL) := by
  have hF : codes.ERROR_FAIL < 0 := by decide
  have hT : codes.ERROR_TIMEOUT_REACHED < 0 := by decide
  have hne : codes.ERROR_FAIL ≠ codes.ERROR_TIMEOUT_REACHED := by decide
  obtain ⟨⟨r, hr, hrt, -, -, -⟩, ⟨w, hw, hwt, -, -, -⟩⟩ :=
    transfer_result_codes codes timeout_reply (example_session [0xaa, 0xbb, 0xcc, 0xdd])
      ⟨7, 0, 0x01, 0x82, 0⟩ 4 10 rfl hF hT hne
  have h1 : r.ret = codes.ERROR_TIMEOUT_REACHED := hrt.mpr (by decide)
  have h2 : w.ret = codes.ERROR_TIMEOUT_REACHED := hwt.mpr (by decide)
  exact ⟨rfl, hF, hT, hne, ⟨r, hr, h1, by rw [h1]; exact hne.symm⟩,
    ⟨w, hw, h2, by rw [h2]; exact hne.symm⟩⟩

/-! ### Replies that `cmsis_dap_usb_open` does not use -/

theorem scan_configurations_congr (o : Int) (d d' : usb_device) (i : Nat) (f f' : Bool)
    (h : d.libusb_get_config_descriptor = d'.libusb_get_config_descriptor) :
    ∀ (l : List Nat) (calls : List usb_call),
      scan_configurations o d i f l calls = scan_configurations o d' i f' l calls := by
  intro l
  induction l with
  | nil => intro calls; rfl
  | cons c rest ih =>
    intro calls
    rw [scan_configurations, scan_configurations]
    simp only [scan_interfaces_eq, h, ih]

theorem product_string_check_snd (d : usb_device) (i : Nat)
    (dev_desc : libusb_device_descriptor) (calls : List usb_call) :
    (product_string_check d i dev_desc calls).2 =
      if dev_desc.iProduct > 0 then
        calls ++ [usb_call.libusb_get_string_descriptor_ascii i dev_desc.iProduct]
      else calls := by
  unfold product_string_check
  by_cases h1 : dev_desc.iProduct > 0
  · simp only [h1, if_true]
    split_ifs <;> rfl
  · simp only [h1, if_false]

theorem serial_match_congr (d d' : usb_device) (i : Nat) (dev_desc : libusb_device_descriptor)
    (serial : Option (List Nat)) (calls : List usb_call)
    (h : d.libusb_get_string_descriptor_ascii dev_desc.iSerialNumber =
      d'.libusb_get_string_descriptor_ascii dev_desc.iSerialNumber) :
    serial_match d i dev_desc serial calls = serial_match d' i dev_desc serial calls := by
  unfold serial_match
  rw [h]

theorem examine_device_congr (o : Int) (vids pids : List Nat) (serial : Option (List Nat))
    (i : Nat) (d d' : usb_device) (calls : List usb_call) (h : same_replies_used d d') :
    examine_device o vids pids serial i d calls =
      examine_device o vids pids serial i d' calls := by
  obtain ⟨h1, h2, h3, h4, -, -⟩ := h
  unfold examine_device
  rw [← h1, ← h2]
  simp only [serial_match_congr d d' i _ serial _ h3, product_string_check_snd,
    scan_configurations_congr o d d' i _ (product_string_check d' i
      d.libusb_get_device_descriptor.2 (serial_match d' i d.libusb_get_device_descriptor.2
        serial (calls ++ [usb_call.libusb_get_device_descriptor i] ++
          [usb_call.libusb_open i])).2).1 h4]

theorem claim_selected_congr (E : error_codes) (usb usb' : usb_platform) (dap : cmsis_dap)
    (i : Nat) (d d' : usb_device) (sel : selection) (calls : List usb_call)
    (hc : usb.usb_ctx = usb'.usb_ctx) (hm : usb.malloc_ok = usb'.malloc_ok)
    (h : same_replies_used d d') :
    claim_selected E usb dap i d sel calls = claim_selected E usb' dap i d' sel calls := by
  obtain ⟨-, -, -, -, h5, h6⟩ := h
  unfold claim_selected claim_and_store
  rw [h5, h6, hc, hm]

theorem scan_devices_congr (E : error_codes) (usb usb' : usb_platform) (o : Int)
    (dap : cmsis_dap) (vids pids : List Nat) (serial : Option (List Nat))
    (hc : usb.usb_ctx = usb'.usb_ctx) (hm : usb.malloc_ok = usb'.malloc_ok) :
    ∀ (l l' : List usb_device), List.Forall₂ same_replies_used l l' →
      ∀ (i : Nat) (calls : List usb_call),
        scan_devices E usb o dap vids pids serial i l calls =
          scan_devices E usb' o dap vids pids serial i l' calls := by
  intro l l' hl
  induction hl with
  | nil =>
    intro i calls
    rw [scan_devices, scan_devices, hc]
  | cons hd _ ih =>
    intro i calls
    rw [scan_devices, scan_devices]
    simp only [examine_device_congr o vids pids serial i _ _ calls hd,
      claim_selected_congr E usb usb' dap i _ _ _ _ hc hm hd, ih]

theorem cmsis_dap_usb_open_congr (E : error_codes) (usb usb' : usb_platform) (o : Int)
    (dap : cmsis_dap) (vids pids : List Nat) (serial : Option (List Nat))
    (h : platforms_related same_replies_used usb usb') :
    cmsis_dap_usb_open E usb o dap vids pids serial =
      cmsis_dap_usb_open E usb' o dap vids pids serial := by
  obtain ⟨h1, h2, h3, h4, h5⟩ := h
  unfold cmsis_dap_usb_open usb_platform.libusb_get_device_list
  rw [scan_devices_congr E usb usb' o dap vids pids serial h2 h4 _ _ h5, h1, h2, h3,
    h5.length_eq]

theorem forall₂_imp_of {R S : usb_device → usb_device → Prop}
    (hRS : ∀ d d', R d d' → S d d') :
    ∀ (l l' : List usb_device), List.Forall₂ R l l' → List.Forall₂ S l l' := by
  intro l l' h
  induction h with
  | nil => exact List.Forall₂.nil
  | cons hd _ ih => exact List.Forall₂.cons (hRS _ _ hd) ih

/-! ### The calls made by `cmsis_dap_usb_open` -/

theorem scan_configurations_calls (o : Int) (dev : usb_device) (i : Nat) (f : Bool) :
    ∀ (l : List Nat) (calls : List usb_call),
      ∃ d, (scan_configurations o dev i f l calls).2 = calls ++ d ∧
        ∀ c ∈ d, ∃ k, c = usb_call.libusb_get_config_descriptor i k ∨
          c = usb_call.libusb_free_config_descriptor i k := by
  intro l
  induction l with
  | nil => intro calls; exact ⟨[], by simp [scan_configurations], by simp⟩
  | cons config rest ih =>
    intro calls
    rw [scan_configurations]
    simp only [scan_interfaces_eq]
    by_cases h1 : (dev.libusb_get_config_descriptor config).1 = 0
    · simp only [h1, ne_eq, not_true_eq_false, if_false]
      cases hf : List.findSome?
          (pick_interface o config
            ((dev.libusb_get_config_descriptor config).2.bConfigurationValue : Int))
          (dev.libusb_get_config_descriptor config).2.interface with
      | some sel =>
        refine ⟨[usb_call.libusb_get_config_descriptor i config], rfl, ?_⟩
        intro c hc
        simp only [List.mem_singleton] at hc
        exact ⟨config, Or.inl hc⟩
      | none =>
        obtain ⟨d, hd, hall⟩ := ih (calls ++ [usb_call.libusb_get_config_descriptor i config] ++
          [usb_call.libusb_free_config_descriptor i config])
        refine ⟨[usb_call.libusb_get_config_descriptor i config,
          usb_call.libusb_free_config_descriptor i config] ++ d, ?_, ?_⟩
        · simp only [hd]
          simp
        · intro c hc
          simp only [List.mem_append, List.mem_cons, List.mem_singleton, List.not_mem_nil,
            or_false] at hc
          rcases hc with (hc | hc) | hc
          · exact ⟨config, Or.inl hc⟩
          · exact ⟨config, Or.inr hc⟩
          · exact hall c hc
    · simp only [h1, ne_eq, not_false_eq_true, if_true]
      obtain ⟨d, hd, hall⟩ := ih (calls ++ [usb_call.libusb_get_config_descriptor i config])
      refine ⟨[usb_call.libusb_get_config_descriptor i config] ++ d, ?_, ?_⟩
      · simp only [hd]
        simp
      · intro c hc
        simp only [List.mem_append, List.mem_singleton] at hc
        rcases hc with hc | hc
        · exact ⟨config, Or.inl hc⟩
        · exact hall c hc

theorem serial_match_calls (d : usb_device) (i : Nat) (dev_desc : libusb_device_descriptor)
    (serial : Option (List Nat)) (calls : List usb_call) :
    ∃ e, (serial_match d i dev_desc serial calls).2 = calls ++ e ∧
      ∀ c ∈ e, 0 < dev_desc.iSerialNumber ∧
        c = usb_call.libusb_get_string_descriptor_ascii i dev_desc.iSerialNumber := by
  unfold serial_match
  by_cases h1 : dev_desc.iSerialNumber > 0
  · refine ⟨[usb_call.libusb_get_string_descriptor_ascii i dev_desc.iSerialNumber], ?_, ?_⟩
    · simp only [h1, if_true]
      cases serial with
      | none => split_ifs <;> rfl
      | some s => simp only []; split_ifs <;> rfl
    · intro c hc
      simp only [List.mem_singleton] at hc
      exact ⟨h1, hc⟩
  · exact ⟨[], by simp only [h1, if_false, List.append_nil], by simp⟩

theorem product_string_check_calls (d : usb_device) (i : Nat)
    (dev_desc : libusb_device_descriptor) (calls : List usb_call) :
    ∃ e, (product_string_check d i dev_desc calls).2 = calls ++ e ∧
      ∀ c ∈ e, 0 < dev_desc.iProduct ∧
        c = usb_call.libusb_get_string_descriptor_ascii i dev_desc.iProduct := by
  rw [product_string_check_snd]
  by_cases h1 : dev_desc.iProduct > 0
  · refine ⟨[usb_call.libusb_get_string_descriptor_ascii i dev_desc.iProduct], ?_, ?_⟩
    · simp only [h1, if_true]
    · intro c hc
      simp only [List.mem_singleton] at hc
      exact ⟨h1, hc⟩
  · exact ⟨[], by simp only [h1, if_false, List.append_nil], by simp⟩

theorem examine_device_calls (o : Int) (vids pids : List Nat) (serial : Option (List Nat))
    (i : Nat) (dev : usb_device) (calls : List usb_call) :
    ∃ d, (examine_device o vids pids serial i dev calls).2 = calls ++ d ∧
      ∀ c ∈ d, device_call i dev.libusb_get_device_descriptor.2 c := by
  unfold examine_device
  obtain ⟨e1, he1, ha1⟩ := serial_match_calls dev i dev.libusb_get_device_descriptor.2 serial
    (calls ++ [usb_call.libusb_get_device_descriptor i] ++ [usb_call.libusb_open i])
  obtain ⟨e2, he2, ha2⟩ := product_string_check_calls dev i dev.libusb_get_device_descriptor.2
    (calls ++ [usb_call.libusb_get_device_descriptor i] ++ [usb_call.libusb_open i] ++ e1)
  obtain ⟨e3, he3, ha3⟩ := scan_configurations_calls o dev i
    (product_string_check dev i dev.libusb_get_device_descriptor.2
      (calls ++ [usb_call.libusb_get_device_descriptor i] ++ [usb_call.libusb_open i] ++ e1)).1
    (List.range dev.libusb_get_device_descriptor.2.bNumConfigurations)
    (calls ++ [usb_call.libusb_get_device_descriptor i] ++ [usb_call.libusb_open i] ++ e1 ++ e2)
  simp only [he1, he2, he3]
  have hd0 : device_call i dev.libusb_get_device_descriptor.2
      (usb_call.libusb_get_device_descriptor i) := Or.inl rfl
  have hd1 : device_call i dev.libusb_get_device_descriptor.2 (usb_call.libusb_open i) :=
    Or.inr (Or.inl rfl)
  have hd2 : device_call i dev.libusb_get_device_descriptor.2 (usb_call.libusb_close i) :=
    Or.inr (Or.inr (Or.inl rfl))
  have hb1 : ∀ c ∈ e1, device_call i dev.libusb_get_device_descriptor.2 c :=
    fun c hc => Or.inr (Or.inr (Or.inr (Or.inl (ha1 c hc))))
  have hb2 : ∀ c ∈ e2, device_call i dev.libusb_get_device_descriptor.2 c :=
    fun c hc => Or.inr (Or.inr (Or.inr (Or.inr (Or.inl (ha2 c hc)))))
  have hb3 : ∀ c ∈ e3, device_call i dev.libusb_get_device_descriptor.2 c :=
    fun c hc => Or.inr (Or.inr (Or.inr (Or.inr (Or.inr (ha3 c hc)))))
  have one : ∃ d, calls ++ [usb_call.libusb_get_device_descriptor i] = calls ++ d ∧
      ∀ c ∈ d, device_call i dev.libusb_get_device_descriptor.2 c :=
    ⟨[usb_call.libusb_get_device_descriptor i], rfl, by
      intro c hc
      simp only [List.mem_singleton] at hc
      rw [hc]; exact hd0⟩
  have two : ∃ d, calls ++ [usb_call.libusb_get_device_descriptor i] ++
      [usb_call.libusb_open i] = calls ++ d ∧
      ∀ c ∈ d, device_call i dev.libusb_get_device_descriptor.2 c :=
    ⟨[usb_call.libusb_get_device_descriptor i, usb_call.libusb_open i], by simp, by
      intro c hc
      simp only [List.mem_cons, List.mem_singleton, List.not_mem_nil, or_false] at hc
      rcases hc with hc | hc <;> rw [hc]
      · exact hd0
      · exact hd1⟩
  split_ifs
  · exact one
  · exact one
  · exact one
  · exact two
  · refine ⟨[usb_call.libusb_get_device_descriptor i, usb_call.libusb_open i] ++ e1 ++
      [usb_call.libusb_close i], by simp, ?_⟩
    intro c hc
    simp only [List.mem_append, List.mem_cons, List.mem_singleton, List.not_mem_nil,
      or_false] at hc
    rcases hc with ((hc | hc) | hc) | hc
    · rw [hc]; exact hd0
    · rw [hc]; exact hd1
    · exact hb1 c hc
    · rw [hc]; exact hd2
  · cases hf : (scan_configurations o dev i
        (product_string_check dev i dev.libusb_get_device_descriptor.2
          (calls ++ [usb_call.libusb_get_device_descriptor i] ++
            [usb_call.libusb_open i] ++ e1)).1
        (List.range dev.libusb_get_device_descriptor.2.bNumConfigurations)
        (calls ++ [usb_call.libusb_get_device_descriptor i] ++ [usb_call.libusb_open i] ++
          e1 ++ e2)).1 with
    | some sel =>
      refine ⟨[usb_call.libusb_get_device_descriptor i, usb_call.libusb_open i] ++ e1 ++ e2 ++
        e3, by simp, ?_⟩
      intro c hc
      simp only [List.mem_append, List.mem_cons, List.mem_singleton, List.not_mem_nil,
        or_false] at hc
      rcases hc with (((hc | hc) | hc) | hc) | hc
      · rw [hc]; exact hd0
      · rw [hc]; exact hd1
      · exact hb1 c hc
      · exact hb2 c hc
      · exact hb3 c hc
    | none =>
      refine ⟨[usb_call.libusb_get_device_descriptor i, usb_call.libusb_open i] ++ e1 ++ e2 ++
        e3 ++ [usb_call.libusb_close i], by simp, ?_⟩
      intro c hc
      simp only [List.mem_append, List.mem_cons, List.mem_singleton, List.not_mem_nil,
        or_false] at hc
      rcases hc with ((((hc | hc) | hc) | hc) | hc) | hc
      · rw [hc]; exact hd0
      · rw [hc]; exact hd1
      · exact hb1 c hc
      · exact hb2 c hc
      · exact hb3 c hc
      · rw [hc]; exact hd2

theorem scan_devices_calls (E : error_codes) (usb : usb_platform) (o : Int) (dap : cmsis_dap)
    (vids pids : List Nat) (serial : Option (List Nat)) :
    ∀ (l : List usb_device) (i : Nat) (calls : List usb_call),
      ∃ pre, (∀ c ∈ pre, ∃ (k : Nat) (dev : usb_device), l[k]? = some dev ∧
          device_call (i + k) dev.libusb_get_device_descriptor.2 c) ∧
        scan_devices E usb o dap vids pids serial i l calls =
          match first_device o vids pids serial i l with
          | some (j, dev, sel) => claim_selected E usb dap j dev sel (calls ++ pre)
          | none =>
            ⟨E.ERROR_FAIL, dap, calls ++ pre ++ [usb_call.libusb_free_device_list,
              usb_call.libusb_exit usb.usb_ctx]⟩ := by
  intro l
  induction l with
  | nil =>
    intro i calls
    exact ⟨[], by simp, by simp [scan_devices, first_device]⟩
  | cons dev rest ih =>
    intro i calls
    obtain ⟨d, hd, hall⟩ := examine_device_calls o vids pids serial i dev calls
    rw [scan_devices, first_device]
    simp only [examine_device_fst, hd]
    cases hp : pick_device o vids pids serial dev with
    | some sel =>
      refine ⟨d, ?_, rfl⟩
      intro c hc
      exact ⟨0, dev, by simp, hall c hc⟩
    | none =>
      obtain ⟨pre, hpre, heq⟩ := ih (i + 1) (calls ++ d)
      refine ⟨d ++ pre, ?_, ?_⟩
      · intro c hc
        simp only [List.mem_append] at hc
        rcases hc with hc | hc
        · exact ⟨0, dev, by simp, hall c hc⟩
        · obtain ⟨k, dev', hk, hdc⟩ := hpre c hc
          refine ⟨k + 1, dev', by simpa using hk, ?_⟩
          have : i + (k + 1) = i + 1 + k := by omega
          rw [this]; exact hdc
      · simp only [heq, List.append_assoc]

theorem cmsis_dap_usb_open_calls (E : error_codes) (usb : usb_platform) (o : Int)
    (dap : cmsis_dap) (vids pids : List Nat) (serial : Option (List Nat))
    (h1 : usb.libusb_init = 0) (h2 : ¬ usb.enumeration_error < 0) :
    ∃ pre, (∀ c ∈ pre, ∃ (k : Nat) (dev : usb_device), usb.device_list[k]? = some dev ∧
        device_call k dev.libusb_get_device_descriptor.2 c) ∧
      cmsis_dap_usb_open E usb o dap vids pids serial =
        match first_device o vids pids serial 0 usb.device_list with
        | some (j, dev, sel) =>
          claim_selected E usb dap j dev sel
            ([usb_call.libusb_init, usb_call.libusb_get_device_list] ++ pre)
        | none =>
          ⟨E.ERROR_FAIL, dap, [usb_call.libusb_init, usb_call.libusb_get_device_list] ++ pre ++
            [usb_call.libusb_free_device_list, usb_call.libusb_exit usb.usb_ctx]⟩ := by
  have h3 : ¬ usb.libusb_get_device_list < 0 := by
    unfold usb_platform.libusb_get_device_list
    rw [if_neg h2]; omega
  obtain ⟨pre, hpre, heq⟩ := scan_devices_calls E usb o dap vids pids serial usb.device_list 0
    [usb_call.libusb_init, usb_call.libusb_get_device_list]
  refine ⟨pre, ?_, ?_⟩
  · intro c hc
    obtain ⟨k, dev, hk, hdc⟩ := hpre c hc
    exact ⟨k, dev, hk, by simpa using hdc⟩
  · unfold cmsis_dap_usb_open
    simp only [h1, h3, ne_eq, not_true_eq_false, if_false]
    exact heq

/-! ### Resources held along the calls of `cmsis_dap_usb_open` -/

theorem track_append (usb : usb_platform) :
    ∀ (a b : List usb_call) (s0 s : usb_resources), track usb s0 a = some s →
      track usb s0 (a ++ b) = track usb s b := by
  intro a
  induction a with
  | nil =>
    intro b s0 s h
    simp only [track, Option.some.injEq] at h
    subst h; rfl
  | cons c rest ih =>
    intro b s0 s h
    rw [List.cons_append, track]
    rw [track] at h
    cases hc : track_call usb s0 c with
    | none => rw [hc] at h; exact Option.noConfusion h
    | some s1 =>
      rw [hc] at h
      exact ih b s1 s h

theorem track_snoc (usb : usb_platform) (calls : List usb_call) (c : usb_call)
    (s0 s : usb_resources) (h : track usb s0 calls = some s) :
    track usb s0 (calls ++ [c]) = track_call usb s c := by
  rw [track_append usb calls [c] s0 s h, track]
  cases track_call usb s c <;> rfl

theorem pick_interface_config (o : Int) (c : Nat) (cn : Int) (l : List libusb_interface)
    (sel : selection) (h : l.findSome? (pick_interface o c cn) = some sel) :
    sel.config = c := by
  rw [findSome?_eq_some_index] at h
  obtain ⟨k, a, -, ha, -⟩ := h
  rw [pick_interface_eq_some_iff] at ha
  rw [← ha.2]
  rfl

theorem scan_configurations_track (usb : usb_platform) (o : Int) (dev : usb_device) (i : Nat)
    (f : Bool) (hdev : usb.device_list[i]? = some dev) (s0 : usb_resources) :
    ∀ (l : List Nat) (calls : List usb_call) (s : usb_resources),
      track usb s0 calls = some s → s.config_descriptors = [] →
      track usb s0 (scan_configurations o dev i f l calls).2 =
        some (match (scan_configurations o dev i f l calls).1 with
          | none => s
          | some sel => ⟨s.contexts, s.device_lists, s.handles, [(i, sel.config)]⟩) := by
  intro l
  induction l with
  | nil => intro calls s h _; simpa [scan_configurations] using h
  | cons config rest ih =>
    intro calls s h hs
    rw [scan_configurations]
    simp only [scan_interfaces_eq]
    have hget := track_snoc usb calls (usb_call.libusb_get_config_descriptor i config) s0 s h
    simp only [track_call, hdev, hs, List.not_mem_nil, if_false, List.nil_append] at hget
    by_cases h1 : (dev.libusb_get_config_descriptor config).1 = 0
    · simp only [h1, if_true] at hget
      simp only [h1, ne_eq, not_true_eq_false, if_false]
      cases hf : List.findSome?
          (pick_interface o config
            ((dev.libusb_get_config_descriptor config).2.bConfigurationValue : Int))
          (dev.libusb_get_config_descriptor config).2.interface with
      | some sel =>
        simp only []
        rw [hget, pick_interface_config o config _ _ sel hf]
      | none =>
        simp only []
        have hfree := track_snoc usb _ (usb_call.libusb_free_config_descriptor i config) s0 _
          hget
        simp only [track_call, List.mem_singleton, if_true, List.erase_cons_head] at hfree
        have hs' : (⟨s.contexts, s.device_lists, s.handles, []⟩ : usb_resources) = s := by
          cases s; simp only [usb_resources.mk.injEq, true_and] at hs ⊢; exact hs.symm
        rw [hs'] at hfree
        exact ih _ s hfree hs
    · simp only [h1, if_false] at hget
      simp only [h1, ne_eq, not_false_eq_true, if_true]
      exact ih _ s hget hs

theorem track_handle_use (usb : usb_platform) (calls : List usb_call) (s0 s : usb_resources)
    (h : track usb s0 calls = some s) (i idx : Nat) (hi : i ∈ s.handles) :
    track usb s0 (calls ++ [usb_call.libusb_get_string_descriptor_ascii i idx]) = some s := by
  rw [track_snoc usb calls _ s0 s h]
  simp only [track_call, hi, if_true]

theorem serial_match_track (usb : usb_platform) (dev : usb_device) (i : Nat)
    (dev_desc : libusb_device_descriptor) (serial : Option (List Nat))
    (calls : List usb_call) (s0 s : usb_resources) (h : track usb s0 calls = some s)
    (hi : i ∈ s.handles) :
    track usb s0 (serial_match dev i dev_desc serial calls).2 = some s := by
  obtain ⟨e, he, hall⟩ := serial_match_calls dev i dev_desc serial calls
  have hsnd := he
  unfold serial_match at he ⊢
  by_cases h1 : dev_desc.iSerialNumber > 0
  · have : (serial_match dev i dev_desc serial calls).2 =
        calls ++ [usb_call.libusb_get_string_descriptor_ascii i dev_desc.iSerialNumber] := by
      unfold serial_match
      simp only [h1, if_true]
      cases serial with
      | none => split_ifs <;> rfl
      | some s1 => simp only []; split_ifs <;> rfl
    unfold serial_match at this
    rw [this]
    exact track_handle_use usb calls s0 s h i _ hi
  · simp only [h1, if_false]
    exact h

theorem product_string_check_track (usb : usb_platform) (dev : usb_device) (i : Nat)
    (dev_desc : libusb_device_descriptor) (calls : List usb_call) (s0 s : usb_resources)
    (h : track usb s0 calls = some s) (hi : i ∈ s.handles) :
    track usb s0 (product_string_check dev i dev_desc calls).2 = some s := by
  rw [product_string_check_snd]
  by_cases h1 : dev_desc.iProduct > 0
  · simp only [h1, if_true]
    exact track_handle_use usb calls s0 s h i _ hi
  · simp only [h1, if_false]
    exact h

theorem examine_device_track (usb : usb_platform) (o : Int) (vids pids : List Nat)
    (serial : Option (List Nat)) (i : Nat) (dev : usb_device)
    (hdev : usb.device_list[i]? = some dev) (calls : List usb_call) (s0 s : usb_resources)
    (h : track usb s0 calls = some s) (hh : s.handles = []) (hc : s.config_descriptors = []) :
    track usb s0 (examine_device o vids pids serial i dev calls).2 =
      some (match (examine_device o vids pids serial i dev calls).1 with
        | none => s
        | some sel => ⟨s.contexts, s.device_lists, [i], [(i, sel.config)]⟩) := by
  have hs' : (⟨s.contexts, s.device_lists, [], []⟩ : usb_resources) = s := by
    cases s
    simp only [usb_resources.mk.injEq, true_and] at hh hc ⊢
    exact ⟨hh.symm, hc.symm⟩
  have h1 := track_snoc usb calls (usb_call.libusb_get_device_descriptor i) s0 s h
  simp only [track_call] at h1
  have h2 := track_snoc usb _ (usb_call.libusb_open i) s0 s h1
  simp only [track_call, hdev, hh, List.not_mem_nil, if_false, List.nil_append] at h2
  unfold examine_device
  by_cases c1 : dev.libusb_get_device_descriptor.1 = 0
  swap
  · simp only [c1, ne_eq, not_false_eq_true, if_true]
    exact h1
  by_cases c2 : id_match vids pids dev.libusb_get_device_descriptor.2.idVendor
      dev.libusb_get_device_descriptor.2.idProduct = false
  · simp only [c1, c2, ne_eq, not_true_eq_false, if_false, if_true]
    exact h1
  by_cases c3 : dev.libusb_get_device_descriptor.2.iSerialNumber = 0 ∧
      serial_requested serial = true
  · simp only [c1, c2, c3, ne_eq, not_true_eq_false, if_false, if_true, and_self]
    exact h1
  by_cases c4 : dev.libusb_open = 0
  swap
  · simp only [c1, c2, c3, c4, ne_eq, not_true_eq_false, not_false_eq_true, if_false, if_true]
    simp only [c4, if_false] at h2
    exact h2
  simp only [c4, if_true, hc] at h2
  simp only [c1, c2, c3, c4, ne_eq, not_true_eq_false, if_false, Bool.true_eq_false]
  have h3 := serial_match_track usb dev i dev.libusb_get_device_descriptor.2 serial _ s0 _ h2
    (by simp)
  by_cases c5 : (serial_match dev i dev.libusb_get_device_descriptor.2 serial
      (calls ++ [usb_call.libusb_get_device_descriptor i] ++ [usb_call.libusb_open i])).1
      = false
  · simp only [c5, if_true, Bool.true_eq_false, if_false]
    rw [track_snoc usb _ (usb_call.libusb_close i) s0 _ h3]
    simp only [track_call, List.mem_singleton, if_true, List.erase_cons_head, hs']
  · simp only [c5, if_false, Bool.true_eq_false]
    have h4 := product_string_check_track usb dev i dev.libusb_get_device_descriptor.2 _ s0 _
      h3 (by simp)
    have h5 := scan_configurations_track usb o dev i
      (product_string_check dev i dev.libusb_get_device_descriptor.2
        (serial_match dev i dev.libusb_get_device_descriptor.2 serial
          (calls ++ [usb_call.libusb_get_device_descriptor i] ++
            [usb_call.libusb_open i])).2).1 hdev s0
      (List.range dev.libusb_get_device_descriptor.2.bNumConfigurations) _ _ h4 rfl
    cases hf : (scan_configurations o dev i
        (product_string_check dev i dev.libusb_get_device_descriptor.2
          (serial_match dev i dev.libusb_get_device_descriptor.2 serial
            (calls ++ [usb_call.libusb_get_device_descriptor i] ++
              [usb_call.libusb_open i])).2).1
        (List.range dev.libusb_get_device_descriptor.2.bNumConfigurations)
        (product_string_check dev i dev.libusb_get_device_descriptor.2
          (serial_match dev i dev.libusb_get_device_descriptor.2 serial
            (calls ++ [usb_call.libusb_get_device_descriptor i] ++
              [usb_call.libusb_open i])).2).2).1 with
    | some sel =>
      rw [hf] at h5
      simp only [] at h5 ⊢
      exact h5
    | none =>
      rw [hf] at h5
      simp only [] at h5 ⊢
      rw [track_snoc usb _ (usb_call.libusb_close i) s0 _ h5]
      simp only [track_call, List.mem_singleton, if_true, List.erase_cons_head, hs']

theorem claim_selected_track (E : error_codes) (usb : usb_platform) (dap : cmsis_dap) (i : Nat)
    (dev : usb_device) (sel : selection) (calls : List usb_call) (s0 : usb_resources)
    (h : track usb s0 calls = some ⟨[usb.usb_ctx], 1, [i], [(i, sel.config)]⟩) :
    track usb s0 (claim_selected E usb dap i dev sel calls).calls =
      some (if claim_succeeds usb dev sel then ⟨[usb.usb_ctx], 0, [i], []⟩
        else no_resources) := by
  unfold claim_selected claim_and_store claim_succeeds no_resources
  by_cases h1 : dev.libusb_get_configuration.1 = 0
  swap
  · simp only [h1, ne_eq, not_false_eq_true, if_true, decide_False, Bool.false_and,
      Bool.false_eq_true, if_false]
    rw [List.append_assoc, track_append usb calls _ s0 _ h]
    simp [track, track_call]
  by_cases h2 : sel.config_num = dev.libusb_get_configuration.2
  · cases hm : usb.malloc_ok
    · simp only [h1, h2, ne_eq, not_true_eq_false, if_false, if_true, decide_True,
        Bool.true_and, Bool.true_or, Bool.and_false, Bool.false_eq_true]
      rw [List.append_assoc, List.append_assoc, track_append usb calls _ s0 _ h]
      simp [track, track_call]
    · simp only [h1, h2, ne_eq, not_true_eq_false, if_false, decide_True,
        Bool.true_and, Bool.true_or, Bool.and_true, if_true, Bool.true_eq_false]
      rw [List.append_assoc, track_append usb calls _ s0 _ h]
      simp [track, track_call]
  · by_cases h3 : dev.libusb_set_configuration sel.config_num = 0
    · cases hm : usb.malloc_ok
      · simp only [h1, h2, h3, ne_eq, not_true_eq_false, not_false_eq_true, if_false, if_true,
          decide_True, decide_False, Bool.true_and, Bool.false_or, Bool.and_false,
          Bool.false_eq_true]
        rw [List.append_assoc, List.append_assoc, List.append_assoc,
          track_append usb calls _ s0 _ h]
        simp [track, track_call]
      · simp only [h1, h2, h3, ne_eq, not_true_eq_false, not_false_eq_true, if_false, if_true,
          decide_True, decide_False, Bool.true_and, Bool.false_or, Bool.and_true,
          Bool.true_eq_false]
        rw [List.append_assoc, List.append_assoc, track_append usb calls _ s0 _ h]
        simp [track, track_call]
    · simp only [h1, h2, h3, ne_eq, not_true_eq_false, not_false_eq_true, if_false, if_true,
        decide_True, decide_False, Bool.true_and, Bool.false_or, Bool.false_and,
        Bool.false_eq_true]
      rw [List.append_assoc, List.append_assoc, track_append usb calls _ s0 _ h]
      simp [track, track_call]

theorem scan_devices_track (E : error_codes) (usb : usb_platform) (o : Int) (dap : cmsis_dap)
    (vids pids : List Nat) (serial : Option (List Nat)) (s0 : usb_resources) :
    ∀ (l : List usb_device) (i : Nat) (calls : List usb_call),
      usb.device_list.drop i = l →
      track usb s0 calls = some ⟨[usb.usb_ctx], 1, [], []⟩ →
      track usb s0 (scan_devices E usb o dap vids pids serial i l calls).calls =
        some (match first_device o vids pids serial i l with
          | some (j, dev, sel) =>
            if claim_succeeds usb dev sel then ⟨[usb.usb_ctx], 0, [j], []⟩ else no_resources
          | none => no_resources) := by
  intro l
  induction l with
  | nil =>
    intro i calls _ h
    rw [scan_devices, first_device]
    simp only []
    rw [track_append usb calls _ s0 _ h]
    simp [track, track_call, no_resources]
  | cons dev rest ih =>
    intro i calls hl h
    have hdev : usb.device_list[i]? = some dev := by
      have := List.getElem?_drop usb.device_list i 0
      rw [hl] at this
      simpa using this.symm
    have hrest : usb.device_list.drop (i + 1) = rest := by
      have := List.drop_drop 1 i usb.device_list
      rw [hl] at this
      simpa [Nat.add_comm] using this.symm
    have hex := examine_device_track usb o vids pids serial i dev hdev calls s0 _ h rfl rfl
    rw [examine_device_fst] at hex
    rw [scan_devices, first_device]
    simp only [examine_device_fst]
    cases hp : pick_device o vids pids serial dev with
    | some sel =>
      rw [hp] at hex
      exact claim_selected_track E usb dap i dev sel _ s0 hex
    | none =>
      rw [hp] at hex
      exact ih (i + 1) _ hrest hex

theorem cmsis_dap_usb_open_track (E : error_codes) (usb : usb_platform) (o : Int)
    (dap : cmsis_dap) (vids pids : List Nat) (serial : Option (List Nat)) :
    track usb no_resources (cmsis_dap_usb_open E usb o dap vids pids serial).calls =
      some (match open_selection usb o vids pids serial with
        | some (j, _, _) => ⟨[usb.usb_ctx], 0, [j], []⟩
        | none => no_resources) := by
  unfold cmsis_dap_usb_open open_selection
  by_cases h1 : usb.libusb_init = 0
  swap
  · simp [h1, track, track_call, no_resources]
  by_cases h2 : usb.enumeration_error < 0
  · have h3 : usb.libusb_get_device_list < 0 := by
      unfold usb_platform.libusb_get_device_list
      rw [if_pos h2]; exact h2
    simp [h1, h2, h3, track, track_call, no_resources]
  · have h3 : ¬ usb.libusb_get_device_list < 0 := by
      unfold usb_platform.libusb_get_device_list
      rw [if_neg h2]; omega
    simp only [h1, h2, h3, ne_eq, not_true_eq_false, if_false]
    have h0 : track usb no_resources [usb_call.libusb_init, usb_call.libusb_get_device_list] =
        some ⟨[usb.usb_ctx], 1, [], []⟩ := by
      simp [track, track_call, no_resources, h1, h2]
    rw [scan_devices_track E usb o dap vids pids serial no_resources usb.device_list 0 _
      (by simp) h0]
    rcases hf : first_device o vids pids serial 0 usb.device_list with _ | ⟨j, dev, sel⟩
    · rfl
    · by_cases hc : claim_succeeds usb dev sel = true <;> simp [hc]

theorem claim_selected_calls_mem (E : error_codes) (usb : usb_platform) (dap : cmsis_dap)
    (i : Nat) (dev : usb_device) (sel : selection) (calls : List usb_call) :
    ∀ c ∈ (claim_selected E usb dap i dev sel calls).calls,
      c ∈ calls ∨ c = usb_call.libusb_free_config_descriptor i sel.config ∨
      c = usb_call.libusb_free_device_list ∨ c = usb_call.libusb_get_configuration i ∨
      (c = usb_call.libusb_set_configuration i sel.config_num ∧
        dev.libusb_get_configuration.1 = 0 ∧
        sel.config_num ≠ dev.libusb_get_configuration.2) ∨
      c = usb_call.libusb_claim_interface i sel.interface_num ∨
      c = usb_call.libusb_release_interface i sel.interface_num ∨
      c = usb_call.libusb_close i ∨ c = usb_call.libusb_exit usb.usb_ctx := by
  intro c hc
  unfold claim_selected claim_and_store at hc
  by_cases h1 : dev.libusb_get_configuration.1 = 0
  swap
  · simp only [h1, ne_eq, not_false_eq_true, if_true, List.mem_append, List.mem_cons,
      List.mem_singleton, List.not_mem_nil, or_false] at hc
    tauto
  by_cases h2 : sel.config_num = dev.libusb_get_configuration.2
  · cases hm : usb.malloc_ok <;>
      simp only [h1, h2, hm, ne_eq, not_true_eq_false, if_false, if_true, List.mem_append,
        List.mem_cons, List.mem_singleton, List.not_mem_nil, or_false,
        Bool.true_eq_false] at hc <;> tauto
  · by_cases h3 : dev.libusb_set_configuration sel.config_num = 0
    · cases hm : usb.malloc_ok <;>
        simp only [h1, h2, h3, hm, ne_eq, not_true_eq_false, not_false_eq_true, if_false,
          if_true, List.mem_append, List.mem_cons, List.mem_singleton, List.not_mem_nil,
          or_false, Bool.true_eq_false] at hc <;> tauto
    · simp only [h1, h2, h3, ne_eq, not_true_eq_false, not_false_eq_true, if_false,
        if_true, List.mem_append, List.mem_cons, List.mem_singleton, List.not_mem_nil,
        or_false] at hc
      tauto

theorem claim_selected_set_configuration_fails (E : error_codes) (usb : usb_platform)
    (dap : cmsis_dap) (i : Nat) (dev : usb_device) (sel : selection) (calls : List usb_call)
    (h1 : dev.libusb_get_configuration.1 = 0)
    (h2 : sel.config_num ≠ dev.libusb_get_configuration.2)
    (h3 : dev.libusb_set_configuration sel.config_num ≠ 0) :
    claim_selected E usb dap i dev sel calls =
      ⟨E.ERROR_FAIL, dap,
        (calls ++ [usb_call.libusb_free_config_descriptor i sel.config,
          usb_call.libusb_free_device_list, usb_call.libusb_get_configuration i]) ++
        [usb_call.libusb_set_configuration i sel.config_num, usb_call.libusb_close i,
          usb_call.libusb_exit usb.usb_ctx]⟩ := by
  unfold claim_selected
  simp only [h1, h2, h3, ne_eq, not_true_eq_false, not_false_eq_true, if_false, if_true,
    List.append_assoc, List.singleton_append]

theorem claim_selected_set_configuration_mem (E : error_codes) (usb : usb_platform)
    (dap : cmsis_dap) (i : Nat) (dev : usb_device) (sel : selection) (calls : List usb_call)
    (h1 : dev.libusb_get_configuration.1 = 0)
    (h2 : sel.config_num ≠ dev.libusb_get_configuration.2) :
    usb_call.libusb_set_configuration i sel.config_num ∈
      (claim_selected E usb dap i dev sel calls).calls := by
  unfold claim_selected claim_and_store
  by_cases h3 : dev.libusb_set_configuration sel.config_num = 0
  · cases hm : usb.malloc_ok <;>
      simp [h1, h2, h3]
  · simp [h1, h2, h3]

theorem device_call_ne_set_configuration (k : Nat) (dd : libusb_device_descriptor) (h : Nat)
    (cn : Int) : ¬ device_call k dd (usb_call.libusb_set_configuration h cn) := by
  unfold device_call
  simp

/-! ### C11 -/

/-- C11: (a) a platform that differs only in the replies to
`libusb_claim_interface` gives the same result of `cmsis_dap_usb_open`
(return value, session stored, calls made): a failed claim changes nothing;
(b) once an interface of device `i` is selected, `libusb_set_configuration` is
called only on that device, with the configuration value of the selected
interface, and only when it differs from the current configuration read; it
is then called, and when it fails open returns the generic failure code,
leaves `dap` as it was, and its last calls close the handle and tear down the
context. -/
theorem claim_failure_ignored_set_configuration_fatal (E : error_codes) (usb : usb_platform)
    (o : Int) (dap : cmsis_dap) (vids pids : List Nat) (serial : Option (List Nat)) :
    (∀ usb' : usb_platform, platforms_related same_except_claim usb usb' →
      cmsis_dap_usb_open E usb' o dap vids pids serial =
        cmsis_dap_usb_open E usb o dap vids pids serial) ∧
    (∀ (i : Nat) (dev : usb_device) (sel : selection),
      usb.libusb_init = 0 → ¬ usb.enumeration_error < 0 →
      first_device o vids pids serial 0 usb.device_list = some (i, dev, sel) →
      (∀ h cn, usb_call.libusb_set_configuration h cn ∈
          (cmsis_dap_usb_open E usb o dap vids pids serial).calls →
        h = i ∧ cn = sel.config_num ∧ dev.libusb_get_configuration.1 = 0 ∧
          sel.config_num ≠ dev.libusb_get_configuration.2) ∧
      (dev.libusb_get_configuration.1 = 0 →
        sel.config_num ≠ dev.libusb_get_configuration.2 →
        usb_call.libusb_set_configuration i sel.config_num ∈
          (cmsis_dap_usb_open E usb o dap vids pids serial).calls ∧
        (dev.libusb_set_configuration sel.config_num ≠ 0 →
          (cmsis_dap_usb_open E usb o dap vids pids serial).ret = E.ERROR_FAIL ∧
          (cmsis_dap_usb_open E usb o dap vids pids serial).dap = dap ∧
          ∃ pre, (cmsis_dap_usb_open E usb o dap vids pids serial).calls =
            pre ++ [usb_call.libusb_set_configuration i sel.config_num,
              usb_call.libusb_close i, usb_call.libusb_exit usb.usb_ctx]))) := by
  constructor
  · intro usb' hrel
    obtain ⟨h1, h2, h3, h4, h5⟩ := hrel
    refine (cmsis_dap_usb_open_congr E usb usb' o dap vids pids serial
      ⟨h1, h2, h3, h4, forall₂_imp_of ?_ _ _ h5⟩).symm
    rintro d d' ⟨a1, a2, a3, a4, a5, a6⟩
    exact ⟨a1, a2, by rw [a3], a4, a5, a6⟩
  · intro i dev sel h1 h2 hsel
    obtain ⟨pre, hpre, heq⟩ := cmsis_dap_usb_open_calls E usb o dap vids pids serial h1 h2
    rw [hsel] at heq
    simp only [] at heq
    rw [heq]
    constructor
    · intro h cn hmem
      rcases claim_selected_calls_mem E usb dap i dev sel _ _ hmem with
        hc | hc | hc | hc | hc | hc | hc | hc | hc
      · simp only [List.mem_append, List.mem_cons, List.mem_singleton, List.not_mem_nil,
          or_false, reduceCtorEq, false_or] at hc
        obtain ⟨k, d, -, hd⟩ := hpre _ hc
        exact absurd hd (device_call_ne_set_configuration k _ h cn)
      · exact usb_call.noConfusion hc
      · exact usb_call.noConfusion hc
      · exact usb_call.noConfusion hc
      · obtain ⟨hc1, hc2, hc3⟩ := hc
        simp only [usb_call.libusb_set_configuration.injEq] at hc1
        exact ⟨hc1.1, hc1.2, hc2, hc3⟩
      · exact usb_call.noConfusion hc
      · exact usb_call.noConfusion hc
      · exact usb_call.noConfusion hc
      · exact usb_call.noConfusion hc
    · intro hg hne
      refine ⟨claim_selected_set_configuration_mem E usb dap i dev sel _ hg hne, ?_⟩
      intro hfail
      rw [claim_selected_set_configuration_fails E usb dap i dev sel _ hg hne hfail]
      exact ⟨rfl, rfl, _, rfl⟩

/-- Witness of C11: a device whose claim fails (-6) gives the same successful
result as one whose claim succeeds; a device whose current configuration is 2
while the selected interface is in configuration 1, and whose
`libusb_set_configuration` fails, makes open return the generic failure code
without a session. -/
theorem claim_failure_ignored_set_configuration_fatal_witness :
    cmsis_dap_usb_open codes
        (example_platform [configured_device (0, 1) 0 (-6)
          [example_interface 0 0xff 0 0 bulk_out_in]]) (-1) no_session [0] [0] none =
      cmsis_dap_usb_open codes
        (example_platform [configured_device (0, 1) 0 0
          [example_interface 0 0xff 0 0 bulk_out_in]]) (-1) no_session [0] [0] none ∧
    (cmsis_dap_usb_open codes
        (example_platform [configured_device (0, 1) 0 (-6)
          [example_interface 0 0xff 0 0 bulk_out_in]]) (-1) no_session [0] [0] none).ret =
      codes.ERROR_OK ∧
    ((cmsis_dap_usb_open codes
        (example_platform [configured_device (0, 2) (-1) 0
          [example_interface 0 0xff 0 0 bulk_out_in]]) (-1) no_session [0] [0] none).ret =
      codes.ERROR_FAIL ∧
      (cmsis_dap_usb_open codes
        (example_platform [configured_device (0, 2) (-1) 0
          [example_interface 0 0xff 0 0 bulk_out_in]]) (-1) no_session [0] [0] none).dap =
      no_session ∧
      ∃ pre, (cmsis_dap_usb_open codes
        (example_platform [configured_device (0, 2) (-1) 0
          [example_interface 0 0xff 0 0 bulk_out_in]]) (-1) no_session [0] [0] none).calls =
        pre ++ [usb_call.libusb_set_configuration 0 1, usb_call.libusb_close 0,
          usb_call.libusb_exit 7]) := by
  refine ⟨?_, by decide, ?_⟩
  · exact (claim_failure_ignored_set_configuration_fatal codes
      (example_platform [configured_device (0, 1) 0 0
        [example_interface 0 0xff 0 0 bulk_out_in]]) (-1) no_session [0] [0] none).1
      (example_platform [configured_device (0, 1) 0 (-6)
        [example_interface 0 0xff 0 0 bulk_out_in]])
      ⟨rfl, rfl, rfl, rfl,
        List.Forall₂.cons ⟨rfl, rfl, rfl, rfl, rfl, rfl⟩ List.Forall₂.nil⟩
  · exact ((claim_failure_ignored_set_configuration_fatal codes
      (example_platform [configured_device (0, 2) (-1) 0
        [example_interface 0 0xff 0 0 bulk_out_in]]) (-1) no_session [0] [0] none).2 0
      (configured_device (0, 2) (-1) 0 [example_interface 0 0xff 0 0 bulk_out_in])
      example_selection rfl (by decide) rfl).2 rfl (by decide) |>.2 (by decide)

/-! ### C12 -/

/-- C13 (the code departs from the claim): with `serial` NULL every device
passes the serial check, but with `serial` the empty string, which line 97
treats as not requested, line 118 starts from `serial_match = false`: a
conformant probe without serial-number string is opened, closed again and
skipped, and so is one whose serial reads "XYZ999"; open returns the generic
failure code where it succeeds with `serial` NULL. -/
theorem empty_serial_is_matched_as_requested :
    (∀ (dev : usb_device) (i : Nat) (dev_desc : libusb_device_descriptor)
      (calls : List usb_call), (serial_match dev i dev_desc none calls).1 = true) ∧
    serial_requested (some []) = false ∧
    (cmsis_dap_usb_open codes (probe_platform [example_interface 0 0xff 0 0 bulk_out_in])
      (-1) no_session [0] [0] none).ret = codes.ERROR_OK ∧
    (cmsis_dap_usb_open codes (probe_platform [example_interface 0 0xff 0 0 bulk_out_in])
      (-1) no_session [0] [0] (some [])).ret = codes.ERROR_FAIL ∧
    (cmsis_dap_usb_open codes (probe_platform [example_interface 0 0xff 0 0 bulk_out_in])
      (-1) no_session [0] [0] (some [])).calls =
        [usb_call.libusb_init, usb_call.libusb_get_device_list,
          usb_call.libusb_get_device_descriptor 0, usb_call.libusb_open 0,
          usb_call.libusb_close 0, usb_call.libusb_free_device_list,
          usb_call.libusb_exit 7] ∧
    (cmsis_dap_usb_open codes serial_platform (-1) no_session [0] [0] none).ret =
      codes.ERROR_OK ∧
    (cmsis_dap_usb_open codes serial_platform (-1) no_session [0] [0] (some [])).ret =
      codes.ERROR_FAIL := by
  refine ⟨?_, by decide, by decide, by decide, by decide, by decide, by decide⟩
  intro dev i dev_desc calls
  rw [serial_match_fst]
  rfl

/-! ### C14 -/

theorem device_call_ne_free_device_list (k : Nat) (dd : libusb_device_descriptor) :
    ¬ device_call k dd usb_call.libusb_free_device_list := by
  unfold device_call
  simp

theorem device_call_ne_exit (k : Nat) (dd : libusb_device_descriptor) (ctx : Nat) :
    ¬ device_call k dd (usb_call.libusb_exit ctx) := by
  unfold device_call
  simp

theorem claim_selected_counts (E : error_codes) (usb : usb_platform) (dap : cmsis_dap)
    (i : Nat) (dev : usb_device) (sel : selection) (calls : List usb_call)
    (h1 : calls.count usb_call.libusb_free_device_list = 0)
    (h2 : calls.count (usb_call.libusb_exit usb.usb_ctx) = 0) :
    (claim_selected E usb dap i dev sel calls).calls.count usb_call.libusb_free_device_list
      = 1 ∧
    (claim_selected E usb dap i dev sel calls).calls.count (usb_call.libusb_exit usb.usb_ctx)
      = if claim_succeeds usb dev sel then 0 else 1 := by
  unfold claim_selected claim_and_store claim_succeeds
  by_cases c1 : dev.libusb_get_configuration.1 = 0
  swap
  · simp [c1, List.count_append, List.count_cons, h1, h2]
  by_cases c2 : sel.config_num = dev.libusb_get_configuration.2
  · cases hm : usb.malloc_ok <;>
      simp [c1, c2, List.count_append, List.count_cons, h1, h2]
  · by_cases c3 : dev.libusb_set_configuration sel.config_num = 0
    · cases hm : usb.malloc_ok <;>
        simp [c1, c2, c3, List.count_append, List.count_cons, h1, h2]
    · simp [c1, c2, c3, List.count_append, List.count_cons, h1, h2]

/-- C15: over the tracker of acquisitions and releases, every call that
`cmsis_dap_usb_open` makes is in order (nothing is released that is not held,
no closed handle is used), and when it returns no device list and no
configuration descriptor is held; after a failure no device handle and no
context is held; after a success exactly the selected device handle and the
context are held, and they are the ones stored in the session.  After a
successful enumeration `libusb_free_device_list` has been called exactly
once, and `libusb_exit` exactly once on failure and not at all on success. -/
theorem open_resources_balanced (E : error_codes) (usb : usb_platform) (o : Int)
    (dap : cmsis_dap) (vids pids : List Nat) (serial : Option (List Nat))
    (hE : E.ERROR_OK ≠ E.ERROR_FAIL) :
    (∃ s, track usb no_resources (cmsis_dap_usb_open E usb o dap vids pids serial).calls =
        some s ∧
      s.device_lists = 0 ∧ s.config_descriptors = [] ∧
      ((cmsis_dap_usb_open E usb o dap vids pids serial).ret = E.ERROR_FAIL →
        s.handles = [] ∧ s.contexts = []) ∧
      ((cmsis_dap_usb_open E usb o dap vids pids serial).ret = E.ERROR_OK →
        ∃ b, (cmsis_dap_usb_open E usb o dap vids pids serial).dap.bdata = some b ∧
          s.handles = [b.dev_handle] ∧ s.contexts = [b.usb_ctx])) ∧
    (usb.libusb_init = 0 → ¬ usb.enumeration_error < 0 →
      (cmsis_dap_usb_open E usb o dap vids pids serial).calls.count
          usb_call.libusb_free_device_list = 1 ∧
      ((cmsis_dap_usb_open E usb o dap vids pids serial).ret = E.ERROR_FAIL →
        (cmsis_dap_usb_open E usb o dap vids pids serial).calls.count
          (usb_call.libusb_exit usb.usb_ctx) = 1) ∧
      ((cmsis_dap_usb_open E usb o dap vids pids serial).ret = E.ERROR_OK →
        (cmsis_dap_usb_open E usb o dap vids pids serial).calls.count
          (usb_call.libusb_exit usb.usb_ctx) = 0)) := by
  have heq := cmsis_dap_usb_open_eq E usb o dap vids pids serial
  have htr := cmsis_dap_usb_open_track E usb o dap vids pids serial
  constructor
  · rcases hs : open_selection usb o vids pids serial with _ | ⟨i, dev, sel⟩
    · rw [hs] at heq htr
      simp only [Prod.mk.injEq] at heq
      refine ⟨_, htr, rfl, rfl, fun _ => ⟨rfl, rfl⟩, ?_⟩
      intro hok
      rw [heq.1] at hok
      exact absurd hok.symm hE
    · rw [hs] at heq htr
      simp only [Prod.mk.injEq] at heq
      refine ⟨_, htr, rfl, rfl, ?_, ?_⟩
      · intro hfail
        rw [heq.1] at hfail
        exact absurd hfail hE
      · intro _
        exact ⟨_, by rw [heq.2]; rfl, rfl, rfl⟩
  · intro h1 h2
    obtain ⟨pre, hpre, hshape⟩ := cmsis_dap_usb_open_calls E usb o dap vids pids serial h1 h2
    have hp1 : ([usb_call.libusb_init, usb_call.libusb_get_device_list] ++ pre).count
        usb_call.libusb_free_device_list = 0 := by
      rw [List.count_eq_zero]
      intro hmem
      simp only [List.mem_append, List.mem_cons, List.mem_singleton, List.not_mem_nil,
        or_false, reduceCtorEq, false_or] at hmem
      obtain ⟨k, d, -, hd⟩ := hpre _ hmem
      exact device_call_ne_free_device_list k _ hd
    have hp2 : ([usb_call.libusb_init, usb_call.libusb_get_device_list] ++ pre).count
        (usb_call.libusb_exit usb.usb_ctx) = 0 := by
      rw [List.count_eq_zero]
      intro hmem
      simp only [List.mem_append, List.mem_cons, List.mem_singleton, List.not_mem_nil,
        or_false, reduceCtorEq, false_or] at hmem
      obtain ⟨k, d, -, hd⟩ := hpre _ hmem
      exact device_call_ne_exit k _ _ hd
    rcases hf : first_device o vids pids serial 0 usb.device_list with _ | ⟨i, dev, sel⟩
    · rw [hf] at hshape
      simp only [] at hshape
      have hos : open_selection usb o vids pids serial = none := by
        unfold open_selection
        simp [h1, h2, hf]
      rw [hos] at heq
      simp only [Prod.mk.injEq] at heq
      rw [hshape]
      simp only [List.count_append, hp1, hp2]
      refine ⟨by simp [List.count_cons], fun _ => by simp [List.count_cons], ?_⟩
      intro hok
      exact absurd hok.symm hE
    · rw [hf] at hshape
      simp only [] at hshape
      obtain ⟨k1, k2⟩ := claim_selected_counts E usb dap i dev sel _ hp1 hp2
      have hret := claim_selected_eq E usb dap i dev sel
        ([usb_call.libusb_init, usb_call.libusb_get_device_list] ++ pre)
      rw [hshape]
      refine ⟨k1, ?_, ?_⟩
      · intro hfail
        by_cases hc : claim_succeeds usb dev sel = true
        · rw [if_pos hc] at hret
          simp only [Prod.mk.injEq] at hret
          rw [hret.1] at hfail
          exact absurd hfail hE
        · rw [k2, if_neg hc]
      · intro hok
        by_cases hc : claim_succeeds usb dev sel = true
        · rw [k2, if_pos hc]
        · rw [if_neg hc] at hret
          simp only [Prod.mk.injEq] at hret
          rw [hret.1] at hok
          exact absurd hok.symm hE

/-- Witness of C15: on the platform of three devices open succeeds holding
handle 2 and context 7 only; on a platform whose only interface has its
endpoints reversed open fails holding nothing. -/
theorem open_resources_balanced_witness :
    codes.ERROR_OK ≠ codes.ERROR_FAIL ∧
    (∃ s, track three_device_platform no_resources
        (cmsis_dap_usb_open codes three_device_platform (-1) no_session [0] [0] none).calls =
          some s ∧
      s.device_lists = 0 ∧ s.config_descriptors = [] ∧ s.handles = [2] ∧ s.contexts = [7]) ∧
    (∃ s, track (probe_platform [example_interface 0 0xff 0 0 bulk_in_out]) no_resources
        (cmsis_dap_usb_open codes (probe_platform [example_interface 0 0xff 0 0 bulk_in_out])
          (-1) no_session [0] [0] none).calls = some s ∧
      s.device_lists = 0 ∧ s.config_descriptors = [] ∧ s.handles = [] ∧ s.contexts = []) ∧
    (cmsis_dap_usb_open codes three_device_platform (-1) no_session [0] [0] none).calls.count
      usb_call.libusb_free_device_list = 1 := by
  have hE : codes.ERROR_OK ≠ codes.ERROR_FAIL := by decide
  refine ⟨hE, ?_, ?_, ?_⟩
  · obtain ⟨s, hs, h1, h2, -, hok⟩ :=
      (open_resources_balanced codes three_device_platform (-1) no_session [0] [0] none hE).1
    obtain ⟨b, hb, h3, h4⟩ := hok (by decide)
    have hb' : (cmsis_dap_usb_open codes three_device_platform (-1) no_session [0] [0]
        none).dap.bdata = some ⟨7, 2, 0x01, 0x82, 0⟩ := by decide
    rw [hb'] at hb
    simp only [Option.some.injEq] at hb
    subst hb
    exact ⟨s, hs, h1, h2, h3, h4⟩
  · obtain ⟨s, hs, h1, h2, hfail, -⟩ :=
      (open_resources_balanced codes (probe_platform [example_interface 0 0xff 0 0 bulk_in_out])
        (-1) no_session [0] [0] none hE).1
    obtain ⟨h3, h4⟩ := hfail (by decide)
    exact ⟨s, hs, h1, h2, h3, h4⟩
  · exact ((open_resources_balanced codes three_device_platform (-1) no_session [0] [0] none
      hE).2 rfl (by decide)).1

/-! ### C16 -/

/-- C16 fails as stated: the second `cmsis_dap_usb_close` on a session is not
guarded.  After the first close `dap->bdata` is NULL, and line 298
dereferences it: the second close has no result, where a guarded close would
return having made no call. -/
theorem second_close_dereferences_null_example :
    cmsis_dap_usb_close (example_session []) =
      some (⟨none, 4, []⟩,
        [usb_call.libusb_release_interface 0 0, usb_call.libusb_close 0,
          usb_call.libusb_exit 7]) ∧
    cmsis_dap_usb_close ⟨none, 4, []⟩ = none ∧
    ¬ (∃ dap2, cmsis_dap_usb_close ⟨none, 4, []⟩ = some (dap2, [])) := by
  refine ⟨by decide, by decide, ?_⟩
  rintro ⟨dap2, h⟩
  exact Option.noConfusion h

/-- C16 as amended: the first `cmsis_dap_usb_close` on a session releases the
interface, closes the handle and tears down the context, by these three calls
in this order, which leave nothing held of a handle and a context that were
held, and it clears `dap->bdata`; a second `cmsis_dap_usb_close` on that
session has no defined result: it dereferences the NULL `dap->bdata` before
any call. -/
theorem close_releases_once_then_undefined (usb : usb_platform) (dap : cmsis_dap)
    (b : cmsis_dap_backend_data) (hb : dap.bdata = some b) :
    ∃ dap1, cmsis_dap_usb_close dap =
        some (dap1, [usb_call.libusb_release_interface b.dev_handle b.interface,
          usb_call.libusb_close b.dev_handle, usb_call.libusb_exit b.usb_ctx]) ∧
      dap1.bdata = none ∧ dap1.packet_size = dap.packet_size ∧
      dap1.packet_buffer = dap.packet_buffer ∧
      track usb ⟨[b.usb_ctx], 0, [b.dev_handle], []⟩
        [usb_call.libusb_release_interface b.dev_handle b.interface,
          usb_call.libusb_close b.dev_handle, usb_call.libusb_exit b.usb_ctx] =
        some no_resources ∧
      cmsis_dap_usb_close dap1 = none := by
  refine ⟨⟨none, dap.packet_size, dap.packet_buffer⟩, ?_, rfl, rfl, rfl, ?_, rfl⟩
  · unfold cmsis_dap_usb_close
    rw [hb]
  · simp [track, track_call, no_resources]

/-- Witness of C16 as amended, on the example session. -/
theorem close_releases_once_then_undefined_witness :
    (example_session []).bdata = some ⟨7, 0, 0x01, 0x82, 0⟩ ∧
    ∃ dap1, cmsis_dap_usb_close (example_session []) =
        some (dap1, [usb_call.libusb_release_interface 0 0, usb_call.libusb_close 0,
          usb_call.libusb_exit 7]) ∧
      dap1.bdata = none ∧ cmsis_dap_usb_close dap1 = none := by
  obtain ⟨dap1, h1, h2, -, -, -, h3⟩ :=
    close_releases_once_then_undefined (example_platform []) (example_session [])
      ⟨7, 0, 0x01, 0x82, 0⟩ rfl
  exact ⟨rfl, dap1, h1, h2, h3⟩

/-! ### C17 -/

theorem device_call_string_read (k : Nat) (dd : libusb_device_descriptor) (h idx : Nat)
    (hd : device_call k dd (usb_call.libusb_get_string_descriptor_ascii h idx)) :
    h = k ∧ ((0 < dd.iSerialNumber ∧ idx = dd.iSerialNumber) ∨
      (0 < dd.iProduct ∧ idx = dd.iProduct)) := by
  unfold device_call at hd
  simp only [reduceCtorEq, false_or, usb_call.libusb_get_string_descriptor_ascii.injEq,
    or_self, exists_const, or_false] at hd
  rcases hd with ⟨h1, h2, h3⟩ | ⟨h1, h2, h3⟩
  · exact ⟨h2, Or.inl ⟨h1, h3⟩⟩
  · exact ⟨h2, Or.inr ⟨h1, h3⟩⟩

/-- C17: two platforms that are identical except for the contents and the
readability of the devices' string descriptors other than the serial-number
string (the product string and the interface strings) give, for the same
filter, serial and override, the same result of `cmsis_dap_usb_open`: the
same return value, the same session stored and the same calls; and every
string descriptor that open reads is the serial-number string or the product
string of the device read: no interface string is read. -/
theorem open_ignores_product_and_interface_strings (E : error_codes)
    (usb usb' : usb_platform) (o : Int) (dap : cmsis_dap) (vids pids : List Nat)
    (serial : Option (List Nat))
    (hrel : platforms_related same_except_other_strings usb usb') :
    cmsis_dap_usb_open E usb o dap vids pids serial =
      cmsis_dap_usb_open E usb' o dap vids pids serial ∧
    (cmsis_dap_usb_open E usb o dap vids pids serial).ret =
      (cmsis_dap_usb_open E usb' o dap vids pids serial).ret ∧
    (cmsis_dap_usb_open E usb o dap vids pids serial).dap =
      (cmsis_dap_usb_open E usb' o dap vids pids serial).dap ∧
    ∀ (h idx : Nat), usb_call.libusb_get_string_descriptor_ascii h idx ∈
        (cmsis_dap_usb_open E usb o dap vids pids serial).calls →
      ∃ dev, usb.device_list[h]? = some dev ∧
        ((0 < dev.libusb_get_device_descriptor.2.iSerialNumber ∧
            idx = dev.libusb_get_device_descriptor.2.iSerialNumber) ∨
          (0 < dev.libusb_get_device_descriptor.2.iProduct ∧
            idx = dev.libusb_get_device_descriptor.2.iProduct)) := by
  have hcongr : cmsis_dap_usb_open E usb o dap vids pids serial =
      cmsis_dap_usb_open E usb' o dap vids pids serial := by
    obtain ⟨h1, h2, h3, h4, h5⟩ := hrel
    refine cmsis_dap_usb_open_congr E usb usb' o dap vids pids serial
      ⟨h1, h2, h3, h4, forall₂_imp_of ?_ _ _ h5⟩
    rintro d d' ⟨a1, a2, a3, a4, a5, a6, -⟩
    exact ⟨a1, a2, a3, a4, a5, a6⟩
  refine ⟨hcongr, by rw [hcongr], by rw [hcongr], ?_⟩
  intro h idx hmem
  by_cases h1 : usb.libusb_init = 0
  swap
  · unfold cmsis_dap_usb_open at hmem
    simp [h1] at hmem
  by_cases h2 : usb.enumeration_error < 0
  · have h3 : usb.libusb_get_device_list < 0 := by
      unfold usb_platform.libusb_get_device_list
      rw [if_pos h2]; exact h2
    unfold cmsis_dap_usb_open at hmem
    simp [h1, h3] at hmem
  obtain ⟨pre, hpre, hshape⟩ := cmsis_dap_usb_open_calls E usb o dap vids pids serial h1 h2
  have hin : usb_call.libusb_get_string_descriptor_ascii h idx ∈ pre := by
    rw [hshape] at hmem
    rcases hf : first_device o vids pids serial 0 usb.device_list with _ | ⟨i, dev, sel⟩
    · rw [hf] at hmem
      simpa using hmem
    · rw [hf] at hmem
      simp only [] at hmem
      rcases claim_selected_calls_mem E usb dap i dev sel _ _ hmem with
        hc | hc | hc | hc | hc | hc | hc | hc | hc
      · simpa using hc
      · exact usb_call.noConfusion hc
      · exact usb_call.noConfusion hc
      · exact usb_call.noConfusion hc
      · exact usb_call.noConfusion hc.1
      · exact usb_call.noConfusion hc
      · exact usb_call.noConfusion hc
      · exact usb_call.noConfusion hc
      · exact usb_call.noConfusion hc
  obtain ⟨k, dev, hk, hd⟩ := hpre _ hin
  obtain ⟨hhk, hidx⟩ := device_call_string_read k _ h idx hd
  subst hhk
  exact ⟨dev, hk, hidx⟩

/-- Witness of C17: a probe whose product and interface strings read "PROBE"
and "DEBUG" and the same probe with both strings reading "CMSIS-DAP" give the
same successful result, and the only string read is the product string. -/
theorem open_ignores_product_and_interface_strings_witness :
    platforms_related same_except_other_strings (example_platform [unmarked_device])
      (example_platform [marked_device]) ∧
    cmsis_dap_usb_open codes (example_platform [unmarked_device]) (-1) no_session [0] [0] none =
      cmsis_dap_usb_open codes (example_platform [marked_device]) (-1) no_session [0] [0]
        none ∧
    (cmsis_dap_usb_open codes (example_platform [marked_device]) (-1) no_session [0] [0]
      none).ret = codes.ERROR_OK ∧
    usb_call.libusb_get_string_descriptor_ascii 0 2 ∈
      (cmsis_dap_usb_open codes (example_platform [unmarked_device]) (-1) no_session [0] [0]
        none).calls ∧
    usb_call.libusb_get_string_descriptor_ascii 0 4 ∉
      (cmsis_dap_usb_open codes (example_platform [unmarked_device]) (-1) no_session [0] [0]
        none).calls := by
  have hrel : platforms_related same_except_other_strings (example_platform [unmarked_device])
      (example_platform [marked_device]) :=
    ⟨rfl, rfl, rfl, rfl, List.Forall₂.cons ⟨rfl, rfl, rfl, rfl, rfl, rfl, rfl⟩ List.Forall₂.nil⟩
  exact ⟨hrel,
    (open_ignores_product_and_interface_strings codes _ _ (-1) no_session [0] [0] none hrel).1,
    by decide, by decide, by decide⟩

end CmsisDapUsbBulk
